import Mathlib

/-!
# ClearPath-SC programming interface (`cpmAPI.cpp`): converters and register decoders

A shallow embedding of the value converters and of the two register
decoders of `sFoundation/src/cpmAPI.cpp`.

* A C `double` is an element of a linearly ordered field `α` (exact
  arithmetic); the definitions run on `ℚ` and the theorems hold on `ℝ` too.
  Rounding, infinities and NaN are not modelled: a division by zero is the
  field's `x / 0 = 0`, and no theorem below rests on the value of one.
* The transport (`netGetParameterInfo`, `netGetParameterDbl`,
  `cpmGetParameter`, ...) is an external collaborator: a `Node α` answers
  every read with an error code and the value the out-variable holds after
  the call.
* Constants and bit fields declared in headers are inputs of the
  definitions that use them (`MonVars`, `RasCodes`, `FW_MILESTONE_DUAL_RMS`).
-/

namespace cpmAPI

/-! ## Error codes, parameter ids, transport -/

/-- The error code type `cnErrCode`, as its integer value. -/
abbrev cnErrCode := Nat

/-- The success code `MN_OK`, the zero of the header's enumeration. -/
def MN_OK : cnErrCode := 0

/-- The parameter ids the converters read (`cpmParams`, `CPM_P_...`). -/
inductive cpmParams where
  | CPM_P_DRV_I_MAX
  | CPM_P_DRV_ADC_MAX
  | CPM_P_DRV_MTR_OHMS
  | CPM_P_DRV_FACT_FS_BUSV
  | CPM_P_CMD_CNTS_PER_REV
  | CPM_P_DRV_ENC_DENS
  | CPM_P_DRV_MTR_POLES
  | CPM_P_SAMPLE_PERIOD
  | CPM_P_DRV_RMS_LIM
  | CPM_P_DRV_RMS_SLOW_LIM
  | CPM_P_FW_VERS
  | CPM_P_OPTION_REG
  deriving DecidableEq, Repr

open cpmParams

/-- The transport as one node presents it. Every read answers with the error
code and with the value found in the caller's variable after the call (on a
failed read that value is whatever the variable held). -/
structure Node (α : Type) where
  /-- The call `netGetParameterInfo(theMultiAddr, p, NULL, &v)`: code and `v.value`. -/
  netGetParameterInfo : cpmParams → cnErrCode × α
  /-- The call `netGetParameterDbl(theMultiAddr, p, &v)`. -/
  netGetParameterDbl : cpmParams → cnErrCode × α
  /-- The call `cpmGetParameter(theMultiAddr, p, &v)`. -/
  cpmGetParameter : cpmParams → cnErrCode × α
  /-- The call `cpmGetHwConfigReg(theMultiAddr, &hwConfig)`: code and register bits. -/
  cpmGetHwConfigReg : cnErrCode × Nat
  /-- The call `netGetParameter(theMultiAddr, CPM_P_OPTION_REG, &resp)`: code and
  the `DrvFld.Product` field of the answer. -/
  netGetOptionProduct : cnErrCode × Nat

/-- The functions of `<math.h>` the converters call. -/
structure Libm (α : Type) where
  /-- The function `sqrt`. -/
  sqrt : α → α
  /-- The function `log`. -/
  log : α → α
  /-- The function `pow`. -/
  pow : α → α → α

section Converters

variable {α : Type} [LinearOrderedField α] [FloorRing α]

/-- The constant `Q15_MAX`, `(32767./32768.)`. -/
def Q15_MAX : α := 32767 / 32768

/-- The casts `(nodelong)x` and `(int)x` of a double: truncation toward zero (a value
outside the range of the integer type, for which C leaves the cast undefined, is
truncated all the same). -/
def toNodelong (x : α) : Int := if 0 ≤ x then ⌊x⌋ else ⌈x⌉

/-- The converter `convertAmperes`: a 1.15 number as a fraction of `I_MAX`. -/
def convertAmperes (valIsBits : Bool) (theMultiAddr : Node α) (convVal : α) : α :=
  let theErr := (theMultiAddr.netGetParameterInfo CPM_P_DRV_I_MAX).1
  let iMax := (theMultiAddr.netGetParameterInfo CPM_P_DRV_I_MAX).2
  -- The basis value is OK?
  if theErr ≠ MN_OK ∨ iMax ≤ 0 then 0
  else if valIsBits then
    -- Convert to Amperes from the fraction of full scale
    convVal * iMax
  else
    let newInt := convVal / iMax
    let newInt := if newInt > Q15_MAX then Q15_MAX else newInt
    newInt

/-- The converter `convertAmpsRMS`: RMS level referenced to ADC max. -/
def convertAmpsRMS (M : Libm α) (valIsBits : Bool) (theMultiAddr : Node α) (convVal : α) : α :=
  let theErr := (theMultiAddr.netGetParameterInfo CPM_P_DRV_ADC_MAX).1
  let adcMax := (theMultiAddr.netGetParameterInfo CPM_P_DRV_ADC_MAX).2
  if theErr ≠ MN_OK then 0
  else if valIsBits then
    -- Prevent errors
    let convVal := if convVal < 0 then 0 else convVal
    M.sqrt convVal * adcMax
  else
    let finalVal := convVal / adcMax
    finalVal * finalVal

/-- The converter `calcDHeatFact`: the d-current for heating from the "heat factor". -/
def calcDHeatFact (M : Libm α) (valIsBits : Bool) (theMultiAddr : Node α) (convVal : α) : α :=
  let theErr := (theMultiAddr.netGetParameterInfo CPM_P_DRV_I_MAX).1
  let iMax := (theMultiAddr.netGetParameterInfo CPM_P_DRV_I_MAX).2
  if theErr ≠ MN_OK then 0
  else
    let theErr := (theMultiAddr.netGetParameterInfo CPM_P_DRV_MTR_OHMS).1
    let rWinding := (theMultiAddr.netGetParameterInfo CPM_P_DRV_MTR_OHMS).2
    if theErr ≠ MN_OK then 0
    else if valIsBits then
      let finalVal := convVal * iMax
      let finalVal := finalVal * finalVal
      finalVal * (rWinding * (75 / 100))
    else
      -- Prevent errors
      let convVal := if convVal < 0 then 0 else convVal
      let finalVal := M.sqrt (convVal / (rWinding * (75 / 100)))
      finalVal / iMax

/-- The converter `convertMeasAmperes`: a 1.15 number as a fraction of `ADC_MAX`. -/
def convertMeasAmperes (valIsBits : Bool) (theMultiAddr : Node α) (convVal : α) : α :=
  let theErr := (theMultiAddr.netGetParameterInfo CPM_P_DRV_ADC_MAX).1
  let adcMax := (theMultiAddr.netGetParameterInfo CPM_P_DRV_ADC_MAX).2
  -- The basis value is OK?
  if theErr ≠ MN_OK ∨ adcMax ≤ 0 then 0
  else if valIsBits then
    convVal * adcMax
  else
    let newInt := convVal / adcMax
    let newInt := if newInt > Q15_MAX then Q15_MAX else newInt
    newInt

/-- The converter `convertMeasVolts`: a 1.15 number as a fraction of the full-scale bus voltage. -/
def convertMeasVolts (valIsBits : Bool) (theMultiAddr : Node α) (convVal : α) : α :=
  let theErr := (theMultiAddr.netGetParameterInfo CPM_P_DRV_FACT_FS_BUSV).1
  let fsBusV := (theMultiAddr.netGetParameterInfo CPM_P_DRV_FACT_FS_BUSV).2
  -- The basis value is OK?
  if theErr ≠ MN_OK ∨ fsBusV ≤ 0 then 0
  else if valIsBits then
    convVal * fsBusV
  else
    convVal / fsBusV

/-- The converters `convertRMSlevel` and `convertRMSlevelSlow` differ only in the limit
parameter they read (`CPM_P_DRV_RMS_LIM`, `CPM_P_DRV_RMS_SLOW_LIM`); this is
their common body. -/
def convertRMSlevelBody (M : Libm α) (limParam : cpmParams) (theMultiAddr : Node α)
    (convVal : α) : α :=
  -- Maximum current
  let theErr := (theMultiAddr.netGetParameterInfo CPM_P_DRV_ADC_MAX).1
  let adcMax := (theMultiAddr.netGetParameterInfo CPM_P_DRV_ADC_MAX).2
  if theErr ≠ MN_OK ∨ adcMax = 0 then 0
  else
    -- RMS maximum amperes
    let theErr := (theMultiAddr.netGetParameterInfo limParam).1
    let rmsLimit := (theMultiAddr.netGetParameterInfo limParam).2
    if theErr ≠ MN_OK ∨ rmsLimit = 0 then 0
    else if convVal < 0 ∨ convVal > 0x7FFFFFFF then 0
    else
      -- Convert to integer with rounding
      let finalVal : α :=
        (toNodelong (((100 * M.sqrt (convVal / (2 ^ 28 : α)) * adcMax) / rmsLimit) + 1 / 2) : Int)
      -- Insure the numbers don't exceed the range
      let finalVal := if finalVal > 100 then 100 else finalVal
      let finalVal := if finalVal < 0 then 0 else finalVal
      finalVal

/-- The converter `convertRMSlevel`: RMS level, 0 to 100, display only (`scaled` is not used). -/
def convertRMSlevel (M : Libm α) (_scaled : Bool) (theMultiAddr : Node α) (convVal : α) : α :=
  convertRMSlevelBody M CPM_P_DRV_RMS_LIM theMultiAddr convVal

/-- The converter `convertRMSlevelSlow`: as `convertRMSlevel`, against the slow RMS limit. -/
def convertRMSlevelSlow (M : Libm α) (_scaled : Bool) (theMultiAddr : Node α) (convVal : α) : α :=
  convertRMSlevelBody M CPM_P_DRV_RMS_SLOW_LIM theMultiAddr convVal

/-- The constant `INT16_MAX`. -/
def INT16_MAX : α := 32767

/-- The converter `checkPosnLimit`: limits tracking and in-position limits on older firmware.
`FW_MILESTONE_DUAL_RMS` is the header's firmware milestone. -/
def checkPosnLimit (FW_MILESTONE_DUAL_RMS : α) (valIsBits : Bool) (theMultiAddr : Node α)
    (convVal : α) : α :=
  let theErr := (theMultiAddr.netGetParameterDbl CPM_P_FW_VERS).1
  let fwVers := (theMultiAddr.netGetParameterDbl CPM_P_FW_VERS).2
  let convVal :=
    if theErr = MN_OK then
      if !valIsBits then
        if FW_MILESTONE_DUAL_RMS > fwVers then
          if convVal > INT16_MAX then INT16_MAX else convVal
        else convVal
      else convVal
    else convVal
  convVal

/-- The converters `convertRMSlimit` and `convertRMSlimit32` differ only in `CONST_FACT`
(`1 << 12`, `1 << 28`); this is their common body. -/
def convertRMSlimitBody (M : Libm α) (CONST_FACT : α) (valIsBits : Bool) (theMultiAddr : Node α)
    (convVal : α) : α :=
  let TRQ_MAX_PCT : α := 9999 / 10000
  let theErr := (theMultiAddr.netGetParameterInfo CPM_P_DRV_ADC_MAX).1
  let adcMax := (theMultiAddr.netGetParameterInfo CPM_P_DRV_ADC_MAX).2
  if theErr = MN_OK then
    -- Make sure the adcMax is reasonable
    if adcMax ≤ 0 then 0
    -- Make sure the value in is reasonable
    else if convVal ≤ 0 then 0
    else if valIsBits then
      -- Convert to RMS from unscaled
      M.sqrt (convVal * adcMax * adcMax / CONST_FACT)
    else
      -- Convert RMS to unscaled value
      let rVal : Int :=
        if convVal > adcMax then toNodelong (CONST_FACT * (TRQ_MAX_PCT * TRQ_MAX_PCT))
        else toNodelong (CONST_FACT * ((convVal / adcMax) * (convVal / adcMax)) + 1 / 2)
      (rVal : α)
  else 0

/-- The converter `convertRMSlimit`: RMS limit, 4.12 basis value. -/
def convertRMSlimit (M : Libm α) (valIsBits : Bool) (theMultiAddr : Node α) (convVal : α) : α :=
  convertRMSlimitBody M (2 ^ 12) valIsBits theMultiAddr convVal

/-- The converter `convertRMSlimit32`: RMS limit, 4.28 basis value. -/
def convertRMSlimit32 (M : Libm α) (valIsBits : Bool) (theMultiAddr : Node α) (convVal : α) : α :=
  convertRMSlimitBody M (2 ^ 28) valIsBits theMultiAddr convVal

/-- The converter `convertRMSFactor`: scale of RMS values below the RMS stopped speed. -/
def convertRMSFactor (M : Libm α) (valIsBits : Bool) (convVal : α) : α :=
  if convVal ≤ 0 then 0
  else if valIsBits then M.sqrt convVal
  else convVal * convVal

/-- The converter `convertRMStc`: RMS time constant, seconds and base units. -/
def convertRMStc (M : Libm α) (valIsBits : Bool) (theMultiAddr : Node α) (convVal : α) : α :=
  let SCALE_FACT_Q : Nat := 23
  let theErr := (theMultiAddr.netGetParameterInfo CPM_P_SAMPLE_PERIOD).1
  let sampleTimeV := (theMultiAddr.netGetParameterInfo CPM_P_SAMPLE_PERIOD).2
  if theErr ≠ MN_OK then 0
  else
    let sampleTimeV := sampleTimeV * (1 / 1000000)   -- Convert to seconds
    -- Make sure the sampleTime is reasonable
    if sampleTimeV = 0 then 0
    else if valIsBits then
      -- Convert base to seconds
      let b := 1 - convVal / (2 ^ SCALE_FACT_Q : α)
      if 0 < b then
        if b < 1 then
          let b := M.log b / sampleTimeV
          if b ≠ 0 then M.log (8 / 9) / b else 0
        else 0
      else 0
    else
      -- Enforce minimal values
      let convVal := if convVal < 1 / 100 then 1 / 100 else convVal
      let b := 1 - M.pow (8 / 9) (sampleTimeV / convVal)
      -- Convert to integer / rounding
      let retVal : α := (toNodelong (b * (2 ^ SCALE_FACT_Q : α) + 1 / 2) : Int)
      -- Prevent the value from turning "negative"
      let retVal := if retVal > 32767 then 32767 else retVal
      -- Prevent the value from going to zero
      let retVal := if retVal < 1 then 1 else retVal
      retVal

/-- The converter `convertRMSSlowtc`: RMS time constant, minutes and base units. -/
def convertRMSSlowtc (M : Libm α) (valIsBits : Bool) (theMultiAddr : Node α) (convVal : α) : α :=
  let SCALE_FACT_Q : Nat := 23
  let SLOW_RMS_Q : Nat := 8
  let SECS_PER_MINUTE : α := 60
  let theErr := (theMultiAddr.netGetParameterInfo CPM_P_SAMPLE_PERIOD).1
  let sampleTimeV := (theMultiAddr.netGetParameterInfo CPM_P_SAMPLE_PERIOD).2
  if theErr ≠ MN_OK then 0
  else
    let sampleTimeV := sampleTimeV * (1 / 1000000)   -- Convert to seconds
    if sampleTimeV = 0 then 0
    else if valIsBits then
      -- Convert base to minutes
      let b := 1 - convVal / (2 ^ SCALE_FACT_Q : α)
      let retVal : α :=
        if 0 < b then
          if b < 1 then
            let b := M.log b / sampleTimeV
            if b ≠ 0 then M.log (8 / 9) / b else 0
          else 0
        else 0
      retVal * (2 ^ SLOW_RMS_Q : α) / SECS_PER_MINUTE
    else
      -- Enforce minimal values
      let convVal := convVal * SECS_PER_MINUTE / (2 ^ SLOW_RMS_Q : α)
      let convVal := if convVal < 1 / 100 then 1 / 100 else convVal
      let b := 1 - M.pow (8 / 9) (sampleTimeV / convVal)
      let retVal : α := (toNodelong (b * (2 ^ SCALE_FACT_Q : α) + 1 / 2) : Int)
      let retVal := if retVal > 32767 then 32767 else retVal
      let retVal := if retVal < 1 then 1 else retVal
      retVal

/-- The bit field `opts.cpm.VectorLock` of the option register, read from the
double `pVal` through `CAST_UINT32`: the header's declaration, as a function. -/
abbrev VectorLockFld (α : Type) := α → Bool

/-- The converter `convertAngle`: commutation angle, encoder ticks and electrical degrees. -/
def convertAngle (VectorLock : VectorLockFld α) (valIsBits : Bool) (theMultiAddr : Node α)
    (convVal : α) : α :=
  let theErr := (theMultiAddr.netGetParameterInfo CPM_P_DRV_MTR_POLES).1
  let poles := (theMultiAddr.netGetParameterInfo CPM_P_DRV_MTR_POLES).2
  if theErr ≠ MN_OK then 0
  else
    let theErr := (theMultiAddr.netGetParameterInfo CPM_P_DRV_ENC_DENS).1
    let encDens := (theMultiAddr.netGetParameterInfo CPM_P_DRV_ENC_DENS).2
    if theErr ≠ MN_OK then 0
    else
      let theErr := theMultiAddr.cpmGetHwConfigReg.1
      if theErr ≠ MN_OK then 0
      else
        let theErr := (theMultiAddr.cpmGetParameter CPM_P_OPTION_REG).1
        let pVal := (theMultiAddr.cpmGetParameter CPM_P_OPTION_REG).2
        if theErr ≠ MN_OK then 0
        else
          let degreesPerTurn := poles * 180
          if poles ≠ 0 then
            let ticksPerDegree := encDens / degreesPerTurn
            if valIsBits then
              -- Convert convVal to electrical degrees
              let rVal := convVal / ticksPerDegree
              let rVal := if VectorLock pVal then rVal + 90 else rVal
              -- Keep result between 0 and degreesPerTurn
              let rVal := if rVal ≥ degreesPerTurn then rVal - degreesPerTurn else rVal
              let rVal := if rVal < 0 then rVal + degreesPerTurn else rVal
              rVal
            else
              -- Convert convVal to drive bits
              let rVal := convVal
              let rVal := if VectorLock pVal then rVal - 90 else rVal
              -- Scale back to ticks
              let rVal := rVal * ticksPerDegree
              -- Bounds test the results between 0 and ticksPerTurn-1
              let rVal := if rVal < 0 then rVal + ticksPerDegree * degreesPerTurn else rVal
              let rVal :=
                if rVal ≥ ticksPerDegree * degreesPerTurn then rVal - ticksPerDegree * degreesPerTurn
                else rVal
              ((toNodelong (rVal + 1 / 2) : Int) : α)
          else 0

/-- The converter `convertSpdLim`: ticks/second and ticks/sample-time. -/
def convertSpdLim (valIsBits : Bool) (theMultiAddr : Node α) (convVal : α) : α :=
  let theErr := (theMultiAddr.netGetParameterInfo CPM_P_SAMPLE_PERIOD).1
  let sampleTime := (theMultiAddr.netGetParameterInfo CPM_P_SAMPLE_PERIOD).2
  -- Avoid divide-by-0 problems and other errors
  if theErr ≠ MN_OK ∨ sampleTime = 0 then 0
  else
    let theErr := (theMultiAddr.netGetParameterInfo CPM_P_DRV_ENC_DENS).1
    let encDens := (theMultiAddr.netGetParameterInfo CPM_P_DRV_ENC_DENS).2
    if theErr ≠ MN_OK then 0
    else
      let theErr := (theMultiAddr.netGetParameterInfo CPM_P_CMD_CNTS_PER_REV).1
      let userDens := (theMultiAddr.netGetParameterInfo CPM_P_CMD_CNTS_PER_REV).2
      if theErr ≠ MN_OK then 0
      else if valIsBits then
        1000000 * convVal * userDens / (encDens * sampleTime)
      else
        (1 / 1000000) * convVal * sampleTime * encDens / userDens

/-- The common body of `convertFilt99pctMilliseconds` (`TripPoint = 1 - 0.99`)
and `convertFilt1TCMilliseconds` (`TripPoint = 0.367879`), which differ only in
that constant. The guard is the source's: read failed AND period `<= 0`. -/
def convertFiltBody (M : Libm α) (TripPoint : α) (scaled : Bool) (theMultiAddr : Node α)
    (convVal : α) : α :=
  -- Get the sample period
  let theErr := (theMultiAddr.netGetParameterInfo CPM_P_SAMPLE_PERIOD).1
  let sampleTime := (theMultiAddr.netGetParameterInfo CPM_P_SAMPLE_PERIOD).2
  -- Was it OK?
  if (decide (theErr ≠ MN_OK) && decide (sampleTime ≤ 0)) then 0
  else if scaled then
    -- Convert to milliseconds from base units
    if convVal > 32767 ∨ convVal ≤ 0 then 0
    else (1 / 1000) * sampleTime * M.log TripPoint / M.log (convVal / 32768)
  else
    -- Convert to base units from milliseconds
    if convVal ≤ 0 then 0
    else
      let x := M.pow TripPoint ((1 / 1000) * sampleTime / convVal)
      let intVal : Int := toNodelong (32768 * x + 1 / 2)
      let intVal : Int := if intVal > 32767 then 32767 else intVal
      (intVal : α)

/-- The converter `convertFilt99pctMilliseconds`: IIR time constant, 99% trip point. -/
def convertFilt99pctMilliseconds (M : Libm α) (scaled : Bool) (theMultiAddr : Node α)
    (convVal : α) : α :=
  convertFiltBody M (1 - 99 / 100) scaled theMultiAddr convVal

/-- The converter `convertVectorFilt99pctMilliseconds`: the 99% filter at vector rate. -/
def convertVectorFilt99pctMilliseconds (M : Libm α) (scaled : Bool) (theMultiAddr : Node α)
    (convVal : α) : α :=
  if scaled then
    convertFilt99pctMilliseconds M scaled theMultiAddr convVal / 4
  else
    convertFilt99pctMilliseconds M scaled theMultiAddr (convVal * 4)

/-- The converter `convertFilt1TCMilliseconds`: IIR time constant, 1/e trip point. -/
def convertFilt1TCMilliseconds (M : Libm α) (scaled : Bool) (theMultiAddr : Node α)
    (convVal : α) : α :=
  convertFiltBody M (367879 / 1000000) scaled theMultiAddr convVal

/-- The converter `convertIBRMStc`: IB RMS time constant, seconds and base units. -/
def convertIBRMStc (M : Libm α) (valIsBits : Bool) (theMultiAddr : Node α) (convVal : α) : α :=
  let SCALE_FACT_Q : Nat := 23
  let theErr := (theMultiAddr.netGetParameterInfo CPM_P_SAMPLE_PERIOD).1
  let sampleTimeV := (theMultiAddr.netGetParameterInfo CPM_P_SAMPLE_PERIOD).2
  if theErr ≠ MN_OK then 0
  else
    let sampleTimeV := sampleTimeV * ((1 / 1000000) / 4)   -- Convert to seconds
    if sampleTimeV = 0 then 0
    else if valIsBits then
      -- Convert base to seconds
      let b := 1 - convVal / (2 ^ SCALE_FACT_Q : α)
      let retVal : α :=
        if 0 < b then
          if b < 1 then
            let b := M.log b / sampleTimeV
            if b ≠ 0 then M.log (8 / 9) / b else 0
          else 0
        else 0
      if retVal < 1 / 100 then 1 / 100 else retVal
    else
      -- Enforce minimal values
      let convVal := if convVal < 1 / 100 then 1 / 100 else convVal
      let b := 1 - M.pow (8 / 9) (sampleTimeV / convVal)
      let retVal : α := (toNodelong (b * (2 ^ SCALE_FACT_Q : α)) : Int)
      -- Prevent the value from turning "negative"
      if retVal > 32767 then 32767 else retVal

/-- The converter `convertIBRMSSlowtc`: slow IB RMS time constant. -/
def convertIBRMSSlowtc (M : Libm α) (valIsBits : Bool) (theMultiAddr : Node α) (convVal : α) : α :=
  let SCALE_FACT_Q : Nat := 23
  let SLOW_RMS_Q : Nat := 7
  let theErr := (theMultiAddr.netGetParameterInfo CPM_P_SAMPLE_PERIOD).1
  let sampleTimeV := (theMultiAddr.netGetParameterInfo CPM_P_SAMPLE_PERIOD).2
  if theErr ≠ MN_OK then 0
  else
    let sampleTimeV := sampleTimeV * ((1 / 1000000) / 4)   -- Convert to seconds
    if sampleTimeV = 0 then 0
    else if valIsBits then
      let b := 1 - convVal / (2 ^ SCALE_FACT_Q : α)
      let retVal : α :=
        if 0 < b then
          if b < 1 then
            let b := M.log b / sampleTimeV
            if b ≠ 0 then M.log (8 / 9) / b * (2 ^ SLOW_RMS_Q : α) else 0
          else 0
        else 0
      if retVal < 1 / 100 then 1 / 100 else retVal
    else
      -- Enforce minimal values
      let convVal := convVal / (2 ^ SLOW_RMS_Q : α)
      let convVal := if convVal < 1 / 100 then 1 / 100 else convVal
      let b := 1 - M.pow (8 / 9) (sampleTimeV / convVal)
      let retVal : α := (toNodelong (b * (2 ^ SCALE_FACT_Q : α)) : Int)
      if retVal > 32767 then 32767 else retVal

/-- The RAS selector codes `ISC_RAS_...` of the header, as integers. -/
structure RasCodes where
  ISC_RAS_OFF : Int
  ISC_RAS_3MS : Int
  ISC_RAS_5MS : Int
  ISC_RAS_9MS : Int
  ISC_RAS_15MS : Int
  ISC_RAS_24MS : Int
  ISC_RAS_44MS : Int

/-- The converter `convertJerk`: jerk in milliseconds and the internal RAS codes. -/
def convertJerk (R : RasCodes) (valIsBits : Bool) (theMultiAddr : Node α) (convVal : α) : α :=
  -- Get base information
  let theErr := (theMultiAddr.cpmGetParameter CPM_P_SAMPLE_PERIOD).1
  if theErr ≠ MN_OK then (R.ISC_RAS_OFF : α)
  else
    let theErr := (theMultiAddr.cpmGetParameter CPM_P_FW_VERS).1
    if theErr ≠ MN_OK then (R.ISC_RAS_OFF : α)
    else
      let isEnhanced := true
      let optErr := if !isEnhanced then theMultiAddr.netGetOptionProduct.1 else MN_OK
      if optErr ≠ MN_OK then (R.ISC_RAS_OFF : α)
      else
        -- K-drive check only matters in legacy firmware
        let isKdrive := !isEnhanced && decide (theMultiAddr.netGetOptionProduct.2 = 1)
        if valIsBits then
          if isEnhanced then convVal           -- Pass bits through
          else
            let KdrvMaxRas : α := (R.ISC_RAS_9MS : α)
            let convVal := if isKdrive && decide (convVal > KdrvMaxRas) then KdrvMaxRas else convVal
            let code := toNodelong convVal
            if code = R.ISC_RAS_OFF then 0
            else if code = R.ISC_RAS_3MS then 3
            else if code = R.ISC_RAS_5MS then 5
            else if code = R.ISC_RAS_9MS then 9
            else if code = R.ISC_RAS_15MS then 15
            else if code = R.ISC_RAS_24MS then 24
            else if code = R.ISC_RAS_44MS then 44
            else (R.ISC_RAS_OFF : α)
        else
          if isEnhanced then convVal           -- Return untouched
          else
            let KdrvMaxRas : α := 9
            let convVal := if isKdrive && decide (convVal > KdrvMaxRas) then KdrvMaxRas else convVal
            if convVal < 3 / 2 then (R.ISC_RAS_OFF : α)
            else if convVal < 4 then (R.ISC_RAS_3MS : α)
            else if convVal < 7 then (R.ISC_RAS_5MS : α)
            else if convVal < 12 then (R.ISC_RAS_9MS : α)
            else if convVal < 39 / 2 then (R.ISC_RAS_15MS : α)
            else if convVal < 34 then (R.ISC_RAS_24MS : α)
            else (R.ISC_RAS_44MS : α)

/-! ## The monitor-port gain converter and the monitor state it writes -/

/-- The record `monState` of the node: last test point, its full scale, validity. -/
structure monState (α : Type) where
  TestPoint : Nat
  FullScale : α
  Set : Bool

/-- The test-point codes (`monTestPoints`) and the option mask that the header
declares; `MON_VEL_RAS`, `MON_POSN_CMD` and the FG-rate point 77 are defined in
the source file itself. -/
structure MonVars where
  MON_OPTION_MASKS : Nat
  MON_VEL_MEAS : Nat
  MON_VEL_CMD : Nat
  MON_VEL_TRK : Nat
  MON_VEL_TRK_SERVO : Nat
  MON_VEL_ERR_GATED : Nat
  MON_VEL_STEP : Nat
  MON_JRK_CMD : Nat
  MON_ACC_CMD : Nat
  MON_POSN_TRK : Nat
  MON_POSN_DIR_TRK : Nat
  MON_TRK_LD : Nat
  MON_POSN_DIR_TRK_MTR : Nat
  MON_POSN_TRK_MTR : Nat
  MON_COUPLING : Nat
  MON_SINE_R : Nat
  MON_COS_R : Nat
  MON_TRQ_MEAS : Nat
  MON_TRQ_MEAS_PEAK : Nat
  MON_TRQ_D_MEAS : Nat
  MON_TRQ_TRK : Nat
  MON_TRQ_TRK_PEAK : Nat
  MON_POSN_MEAS : Nat
  MON_INTEGRATOR : Nat
  MON_SGN_CMD_VEL : Nat
  MON_SGN_CMD_STEP : Nat
  MON_BUS_VOLTS : Nat
  MON_TRQ_CMD : Nat
  MON_CALIBRATE : Nat

/-- The constant `MON_VEL_RAS = iscMonVars(59)`. -/
def MON_VEL_RAS : Nat := 59
/-- The constant `MON_POSN_CMD = iscMonVars(76)`. -/
def MON_POSN_CMD : Nat := 76
/-- The constant `ISC_MON_SCALE = 1 << 16`. -/
def ISC_MON_SCALE : α := 65536
/-- The constant `ISC_MON_MAX_VEL`. -/
def ISC_MON_MAX_VEL : α := 8192
/-- The constant `ISC_MON_MAX_POS`. -/
def ISC_MON_MAX_POS : α := 32768
/-- The constant `ISC_MON_MAX_POS_MEAS = (1 << 20)`. -/
def ISC_MON_MAX_POS_MEAS : α := 1048576
/-- The constant `ISC_MON_MAX_INTG = 1UL << 31`. -/
def ISC_MON_MAX_INTG : α := 2147483648
/-- The constant `FG_RATE_MAX`. -/
def FG_RATE_MAX : α := 100000

/-- The `switch (theVar & ~(MON_OPTION_MASKS))` of `convertMonGain`: the value of
`baseVal`, or the error code the `MON_BUS_VOLTS` case returns early with. -/
def monGainSwitch (K : MonVars) (M : Libm α) (valIsBits : Bool) (theMultiAddr : Node α)
    (theVar : Nat) (sampleTime iMax adcMax resScale convVal : α) : Except cnErrCode α :=
  let tp := Nat.ldiff theVar K.MON_OPTION_MASKS
  if tp ∈ [K.MON_VEL_MEAS, K.MON_VEL_CMD, K.MON_VEL_TRK, K.MON_VEL_TRK_SERVO, MON_VEL_RAS,
      K.MON_VEL_ERR_GATED] then
    -- Return the monitor value in Hertz
    .ok ((1000 * ISC_MON_MAX_VEL) / (sampleTime * convVal * resScale))
  else if tp = K.MON_VEL_STEP then
    .ok ((4000 * ISC_MON_MAX_VEL) / (sampleTime * convVal * resScale))
  else if tp = K.MON_JRK_CMD then
    .ok ((1000000000000 * ISC_MON_MAX_VEL) / (M.pow sampleTime 3 * convVal * resScale))
  else if tp = K.MON_ACC_CMD then
    .ok ((1000000 * ISC_MON_MAX_VEL) / (sampleTime * sampleTime * convVal * resScale))
  else if tp ∈ [K.MON_POSN_TRK, K.MON_POSN_DIR_TRK, K.MON_TRK_LD, K.MON_POSN_DIR_TRK_MTR,
      K.MON_POSN_TRK_MTR, K.MON_COUPLING] then
    .ok (ISC_MON_MAX_POS / (convVal * resScale))
  else if tp ∈ [K.MON_SINE_R, K.MON_COS_R] then
    .ok (200 / convVal)
  else if tp ∈ [K.MON_TRQ_MEAS, K.MON_TRQ_MEAS_PEAK, K.MON_TRQ_D_MEAS, K.MON_TRQ_TRK,
      K.MON_TRQ_TRK_PEAK] then
    .ok ((100 * adcMax / iMax) / convVal)
  else if tp ∈ [K.MON_POSN_MEAS, MON_POSN_CMD] then
    let convVal :=
      if !valIsBits then
        -- Pin at maximum displayable value
        let maxRange := ISC_MON_MAX_POS_MEAS / resScale * 2
        if convVal > maxRange then maxRange else convVal
      else convVal
    .ok (ISC_MON_MAX_POS_MEAS / (convVal * resScale))
  else if tp = 77 then
    .ok (FG_RATE_MAX / convVal)
  else if tp = K.MON_INTEGRATOR then
    .ok (ISC_MON_MAX_INTG / convVal)
  else if tp ∈ [K.MON_SGN_CMD_VEL, K.MON_SGN_CMD_STEP] then
    .ok (100 / convVal)
  else if tp = K.MON_BUS_VOLTS then
    let theErr := (theMultiAddr.netGetParameterDbl CPM_P_DRV_FACT_FS_BUSV).1
    let fsVal := (theMultiAddr.netGetParameterDbl CPM_P_DRV_FACT_FS_BUSV).2
    if theErr ≠ MN_OK then .error theErr
    else .ok (fsVal / convVal)
  else
    .ok (100 / convVal)

/-- The body of `convertMonGain` from the first parameter read to the end of the
`switch`: `.error r` stands for an early `return (r)`, `.ok baseVal` for reaching
the final `if (!valIsBits)` with that `baseVal`. -/
def monGainBase (K : MonVars) (M : Libm α) (valIsBits : Bool) (theMultiAddr : Node α)
    (theVar : Nat) (convVal : α) : Except α α :=
  let iMax := (theMultiAddr.netGetParameterInfo CPM_P_DRV_I_MAX).2
  let adcMax := (theMultiAddr.netGetParameterInfo CPM_P_DRV_ADC_MAX).2
  let cmdRes := (theMultiAddr.netGetParameterInfo CPM_P_CMD_CNTS_PER_REV).2
  let encRes := (theMultiAddr.netGetParameterInfo CPM_P_DRV_ENC_DENS).2
  let sampleTime := (theMultiAddr.netGetParameterInfo CPM_P_SAMPLE_PERIOD).2
  if (theMultiAddr.netGetParameterInfo CPM_P_DRV_I_MAX).1 ≠ MN_OK then .error 0
  else if (theMultiAddr.netGetParameterInfo CPM_P_DRV_ADC_MAX).1 ≠ MN_OK then .error 0
  else if iMax ≤ 0 ∨ adcMax ≤ 0 then .error 0
  else if (theMultiAddr.netGetParameterInfo CPM_P_CMD_CNTS_PER_REV).1 ≠ MN_OK then .error 0
  else if (theMultiAddr.netGetParameterInfo CPM_P_DRV_ENC_DENS).1 ≠ MN_OK then .error 0
  else
    -- Scale the display by the encoder to cmd ratio
    let resScale : α := if 0 < cmdRes then (if 0 < encRes then encRes / cmdRes else 1) else 1
    -- Get the sample period (the error code of this read is not looked at)
    if |sampleTime| < 1 / 1000 then .error 0   -- Protect from divide-by-zero
    else
      -- Convert from fixed point
      let convVal := if valIsBits then convVal / ISC_MON_SCALE else convVal
      -- Protect from / 0
      if |convVal| < 1 / 10000 then .error 0    -- Show as "off"
      else
        match monGainSwitch K M valIsBits theMultiAddr theVar sampleTime iMax adcMax resScale
            convVal with
        | .error theErr => .error (theErr : α)
        | .ok baseVal => .ok baseVal

/-- The converter `convertMonGain`: the monitor port gain setting to/from a full-scale range
value. `pState` is the node's `pNodeSpecific` record (`none`: null pointer);
the result is the returned double and the record after the call. -/
def convertMonGain (K : MonVars) (M : Libm α) (valIsBits : Bool) (theMultiAddr : Node α)
    (pState : Option (monState α)) (theVar : Nat) (convVal : α) : α × Option (monState α) :=
  match pState with
  | none => (0, none)
  | some st =>
    -- Assume failure until we get to the end
    let monNow : monState α := { st with TestPoint := theVar, Set := false }
    match monGainBase K M valIsBits theMultiAddr theVar convVal with
    | .error r => (r, some monNow)
    | .ok baseVal =>
      if valIsBits = false then
        let baseVal := baseVal * 65536             -- Scale to (16.16)
        -- Put at maximum number
        let baseVal := if baseVal > 2147483647 then 2147483647 else baseVal
        let baseVal := if baseVal < 1 then 1 else baseVal
        -- Get rescaled value
        let r := convertMonGain K M true theMultiAddr (some monNow) theVar baseVal
        match r.2 with
        | some m => (baseVal, some { m with FullScale := r.1, Set := true })
        | none => (baseVal, none)
      else
        (baseVal, some { monNow with FullScale := baseVal, Set := true })
termination_by (if valIsBits then 0 else 1)
decreasing_by simp_all

end Converters

/-! ## Register decoders: name tables -/

/-- Status register bit/field names. -/
def CPSCStatusBitStrs : List String := [
  "Warning", "UserAlert", "NotReady", "MoveBufAvail",
  "Ready", "PowerEvent", "Alert Present", "#7",
  "InPosLimit", "InNegLimit", "MotionBlocked", "WasHomed",
  "Homing", "GoingDisabled", "StatusEvent", "Enabled",
  "MoveCanceled", "MoveDone", "OutOfRange", "BFromEnd",
  "AbovePosn", "AtTargetVel", "InA", "InB",
  "InvInA", "InvInB", "#26", "#27",
  "AFromStart", "MoveCmdNeg", "Disabled", "TimerExpired",
  "InMotionPos", "InMotionNeg", "InDisableStop", "InCtrlStop",
  "FanOn", "VectorSearch", "MoveCmdComplete", "InHardStop",
  "ShutdownState", "ShutdownState1", "HwFailure", "TriggerArmed",
  "StepsActive", "IndexMtr", "SoftwareInputs"]

/-- Shutdown states. -/
def CPSCshutdowns : List String := ["OK", "Shutdown Imminent", "Shutdown Ramping", "Shutdown"]

/-- In motion states. -/
def CPSCinMotions : List String := ["Stopped", "+", "-", "+/-"]

/-- Alert/Warning register field names. -/
def CPSCalertsBitStrs : List String := [
  "FwSelfTest", "FwNetBufferOverrun", "FwError0", "FwError1",
  "FwStackOverrun", "FwWatchdogRestarted", "FwInvalidConfiguration",
  "#7", "#8", "#9", "#10",
  "HwPowerProblem", "HwClockProblem", "HwEEPROMdead", "HwFlashCorrupt",
  "HwFlashChanged", "HwRAM", "HwADC", "HwADCsat",
  "#19", "#20", "#21", "#22", "#23",
  "NetVoltageLow", "NetWatchdog",
  "#26", "#27",
  "EStopped", "ConfigOutOfDate", "RunTimeErr",
  "#31", "#32", "#33", "#34",
  "MoveGenRange", "JrkLimRequestBad", "MoveBufUnderrun",
  "JrkLimVelRequestBad", "MoveSpecAltered", "PhaseSensorFailed",
  "LimSwitchActivated", "SoftLimitExceeded",
  "#43", "#44", "#45", "#46", "#47", "#48", "#49", "#50", "#51",
  "AClost",
  "ACphaseLost", "#54", "LowTemp", "#56", "#57",
  "MtrVectorBad",
  "#59",
  "MtrEncGlitch", "MtrEncOverspeed",
  "#62", "#63",
  "MtrPhaseOverload",
  "#65", "MtrBadSetupParams", "HardStopBrokeFree", "#68",
  "TrackingShutdown", "RMSOverload", "RMSOverloadShutdown",
  "#72", "#73",
  "BusVoltSat", "TrqSat", "NoCommSweepFailed", "NoCommSweepReversed",
  "NoCommFailed", "IndexCountZeroWarn", "TempAmbientHigh",
  "StatorHot",
  "BusOverCurrent", "BusOverVoltage", "BusVoltageLow", "BusRMSOverload",
  "#86",
  "MtrEncIndexMissing",
  "BusVoltageUnderOperatingV",
  "#89", "#90", "#91", "#92",
  "MtrEncIndexMisplaced", "StepsDuringPosnRecovery", "#95"]

/-! ## Register decoders: `snprintf`, `strncpy`, loops -/

/-- One uppercase hexadecimal digit. -/
def hexDigit (d : Nat) : Char :=
  if d < 10 then Char.ofNat (48 + d) else Char.ofNat (55 + d)

/-- The conversion `%04X` of an unsigned value: uppercase hexadecimal, padded with
zeros to four digits (a value of more than four digits is printed in full). -/
def fmt04X (v : Nat) : String :=
  if v < 65536 then
    String.mk [hexDigit (v / 4096 % 16), hexDigit (v / 256 % 16), hexDigit (v / 16 % 16),
      hexDigit (v % 16)]
  else String.mk ((Nat.toDigits 16 v).map Char.toUpper)

/-- The conversion `%02d` of a non-negative value: decimal, padded to two digits. -/
def fmt02d (v : Nat) : String :=
  if v < 100 then String.mk [Char.ofNat (48 + v / 10), Char.ofNat (48 + v % 10)]
  else String.mk (Nat.toDigits 10 v)

/-- What `snprintf(token, sizeof(token), ...)` leaves in `char token[50]`: at most
49 characters of the formatted text. -/
def snprintf50 (formatted : String) : String := String.mk (formatted.data.take 49)

/-- The decrement `bitIndex--` of a `size_t` (64 bits). -/
def sizeDec (n : Nat) : Nat := (n + 2 ^ 64 - 1) % 2 ^ 64

/-- The loop `for (bitNum = k; bitNum < k + n; bitNum++) body`; `none` as soon as
one iteration reads outside a table. -/
def forUp {σ : Type} (body : Nat → σ → Option σ) : Nat → Nat → σ → Option σ
  | 0, _, s => some s
  | n + 1, k, s => (body k s).bind (forUp body n (k + 1))

/-- The loop `for (intNum = n - 1; intNum >= 0; intNum--) body`. -/
def forDown {σ : Type} (body : Nat → σ → Option σ) : Nat → σ → Option σ
  | 0, s => some s
  | n + 1, s => (body n s).bind (forDown body n)

/-- The NUL character. -/
def NUL : Char := Char.ofNat 0

/-- The buffer after `strncpy(buffer, src, size); buffer[size - 1] = 0;`: `size`
characters. With `size = 0` the store is outside the buffer (`none`). -/
def strncpyTerminated (src : String) (size : Nat) : Option (List Char) :=
  if size = 0 then none
  else
    let buffer := src.data.take size ++ List.replicate (size - src.data.length) NUL
    some (buffer.set (size - 1) NUL)

/-- The C string a buffer holds: the characters before the first NUL. -/
def cString (buffer : List Char) : String := String.mk (buffer.takeWhile (· ≠ NUL))

/-! ## The status register decoder -/

/-- The union `cpmStatusReg`: three 16-bit words `bits[0..2]`. -/
structure cpmStatusReg where
  bits : Fin 3 → Nat

/-- The element `bits.bits[intNum]`, a `Uint16`. -/
def cpmStatusReg.word (reg : cpmStatusReg) (intNum : Nat) : Nat :=
  if h : intNum < 3 then reg.bits ⟨intNum, h⟩ % 65536 else 0

/-- Modelled from the spec: the bit-field declaration `_cpmStatusRegFlds` is in a header
that is not part of the source; the 2-bit field `InMotion` occupies bits 32-33. -/
def cpmStatusReg.InMotion (reg : cpmStatusReg) : Nat := reg.word 2 % 4

/-- Modelled from the spec: the bit-field declaration `_cpmStatusRegFlds` is in a header
that is not part of the source; the 2-bit field `ShutdownState` occupies bits 40-41. -/
def cpmStatusReg.ShutdownState (reg : cpmStatusReg) : Nat := reg.word 2 / 256 % 4

/-- The body of the inner loop of `_cpmStatusRegFlds::StateStr`, on the state
`(bitVals, bitIndex)`. -/
def statusBit (reg : cpmStatusReg) (intNum : Nat) (bitNum : Nat) (st : String × Nat) :
    Option (String × Nat) :=
  let bitVals := st.1
  let bitIndex := st.2
  let mask := (0x8000 >>> bitNum) % 65536
  let bitVals' : Option String :=
    if bitIndex = 32 then
      (CPSCinMotions[reg.InMotion]?).map fun name =>
        bitVals ++ snprintf50 ("[" ++ fmt02d bitIndex ++ "-" ++ fmt02d (bitIndex + 1)
          ++ "] InMotion: " ++ name ++ "\n")
    else if bitIndex = 33 then
      -- MSB of InMotion covered already
      some bitVals
    else if bitIndex = 40 then
      (CPSCshutdowns[reg.ShutdownState]?).map fun name =>
        bitVals ++ snprintf50 ("[" ++ fmt02d bitIndex ++ "-" ++ fmt02d (bitIndex + 1)
          ++ "] ShutdownState: " ++ name ++ "\n")
    else if bitIndex = 41 then
      -- MSB of ShutdownState covered already
      some bitVals
    else
      -- Print only set bits
      if reg.word intNum &&& mask ≠ 0 then
        (CPSCStatusBitStrs[bitIndex]?).map fun name =>
          bitVals ++ snprintf50 ("[" ++ fmt02d bitIndex ++ "] " ++ name ++ "\n")
      else some bitVals
  bitVals'.map fun b => (b, sizeDec bitIndex)

/-- The body of the outer loop of `_cpmStatusRegFlds::StateStr`, on the state
`(retVal, (bitVals, bitIndex))`. -/
def statusWord (reg : cpmStatusReg) (intNum : Nat) (st : String × String × Nat) :
    Option (String × String × Nat) :=
  let retVal := st.1 ++ snprintf50 (fmt04X (reg.word intNum) ++ " ")
  (forUp (statusBit reg intNum) 16 0 st.2).map fun inner => (retVal, inner)

/-- The string `retVal` that `_cpmStatusRegFlds::StateStr` builds (the full report);
`none` when a name is read outside its table. -/
def statusReport (reg : cpmStatusReg) : Option String :=
  let nInts := 3
  (forDown (statusWord reg) nInts ("0x", "", 47)).map fun st =>
    st.1 ++ "\n" ++ st.2.1

/-- The decoder `_cpmStatusRegFlds::StateStr(buffer, size)`: the buffer after the call. -/
def _cpmStatusRegFlds.StateStr (reg : cpmStatusReg) (size : Nat) : Option (List Char) :=
  (statusReport reg).bind fun retVal => strncpyTerminated retVal size

/-! ## The alert register decoder -/

/-- The union `cpmAlertReg`: three 32-bit words `bits[0..2]`. -/
structure cpmAlertReg where
  bits : Fin 3 → Nat

/-- The element `bits.bits[intNum]`, a `Uint32`. -/
def cpmAlertReg.word (reg : cpmAlertReg) (intNum : Nat) : Nat :=
  if h : intNum < 3 then reg.bits ⟨intNum, h⟩ % 4294967296 else 0

/-- The body of the inner loop of `_cpmAlertFlds::StateStr`, on `(bitVals, bitIndex)`. -/
def alertBit (reg : cpmAlertReg) (intNum : Nat) (bitNum : Nat) (st : String × Nat) :
    Option (String × Nat) :=
  let bitVals := st.1
  let bitIndex := st.2
  let mask := (0x80000000 >>> bitNum) % 4294967296
  let bitVals' : Option String :=
    -- Print only set bits
    if reg.word intNum &&& mask ≠ 0 then
      (CPSCalertsBitStrs[bitIndex]?).map fun name =>
        bitVals ++ snprintf50 ("[" ++ fmt02d bitIndex ++ "] " ++ name ++ "\n")
    else some bitVals
  bitVals'.map fun b => (b, sizeDec bitIndex)

/-- The body of the outer loop of `_cpmAlertFlds::StateStr`. -/
def alertWord (reg : cpmAlertReg) (intNum : Nat) (st : String × String × Nat) :
    Option (String × String × Nat) :=
  let retVal := st.1 ++ snprintf50 (fmt04X (reg.word intNum >>> 16) ++ " "
    ++ fmt04X (reg.word intNum &&& 0xFFFF) ++ " ")
  (forUp (alertBit reg intNum) 32 0 st.2).map fun inner => (retVal, inner)

/-- The string `retVal` that `_cpmAlertFlds::StateStr` builds (the full report). -/
def alertReport (reg : cpmAlertReg) : Option String :=
  let nInts := 3
  (forDown (alertWord reg) nInts ("0x", "", 95)).map fun st =>
    st.1 ++ "\n" ++ st.2.1

/-- The decoder `_cpmAlertFlds::StateStr(buffer, size)`: the buffer after the call. -/
def _cpmAlertFlds.StateStr (reg : cpmAlertReg) (size : Nat) : Option (List Char) :=
  (alertReport reg).bind fun retVal => strncpyTerminated retVal size


/-! ## The report as the specification words it -/

/-- The bit indices `n - 1, ..., 0`, in descending order. -/
def descending : Nat → List Nat
  | 0 => []
  | n + 1 => n :: descending n

/-- The bit indices `base + n - 1, ..., base`, in descending order. -/
def descFrom (base : Nat) : Nat → List Nat
  | 0 => []
  | n + 1 => (base + n) :: descFrom base n

/-- The text made of the given lines, each followed by a newline. -/
def joinLines : List String → String
  | [] => ""
  | l :: ls => l ++ "\n" ++ joinLines ls

/-- The lines of a text: the pieces between its newline characters. -/
def splitLines : List Char → List (List Char)
  | [] => [[]]
  | c :: cs =>
    if c = '\n' then [] :: splitLines cs
    else
      match splitLines cs with
      | l :: ls => (c :: l) :: ls
      | [] => [[c]]

/-- The lines of a text, as strings. -/
def textLines (s : String) : List String := (splitLines s.data).map String.mk

/-- Bit `i` of the 48-bit status register is set. -/
def cpmStatusReg.bitSet (reg : cpmStatusReg) (i : Nat) : Bool :=
  (reg.word (i / 16)).testBit (i % 16)

/-- The line the report gives for bit index `i` of the status register, if any: the
two enum fields at 40 and 32, nothing at 41 and 33, `[ii] Name` for a set bit. -/
def statusSpecLine (reg : cpmStatusReg) (i : Nat) : Option String :=
  if i = 40 then some ("[40-41] ShutdownState: " ++ CPSCshutdowns.getD reg.ShutdownState "")
  else if i = 32 then some ("[32-33] InMotion: " ++ CPSCinMotions.getD reg.InMotion "")
  else if i = 41 ∨ i = 33 then none
  else if reg.bitSet i then some ("[" ++ fmt02d i ++ "] " ++ CPSCStatusBitStrs.getD i "")
  else none

/-- The lines of the status bit listing, in descending bit order. -/
def statusSpecLines (reg : cpmStatusReg) : List String :=
  (descending 48).filterMap (statusSpecLine reg)

/-- The hex header of the status report: `0x`, then the three words, most
significant first, each as four hex digits and a space. -/
def statusHeader (reg : cpmStatusReg) : String :=
  "0x" ++ fmt04X (reg.word 2) ++ " " ++ fmt04X (reg.word 1) ++ " " ++ fmt04X (reg.word 0) ++ " "

/-- Bit `i` of the 96-bit alert register is set. -/
def cpmAlertReg.bitSet (reg : cpmAlertReg) (i : Nat) : Bool :=
  (reg.word (i / 32)).testBit (i % 32)

/-- The line the report gives for bit index `i` of the alert register, if any. -/
def alertSpecLine (reg : cpmAlertReg) (i : Nat) : Option String :=
  if reg.bitSet i then some ("[" ++ fmt02d i ++ "] " ++ CPSCalertsBitStrs.getD i "")
  else none

/-- The lines of the alert bit listing, in descending bit order. -/
def alertSpecLines (reg : cpmAlertReg) : List String :=
  (descending 96).filterMap (alertSpecLine reg)

/-- The six 16-bit groups of the alert register, most significant first: every
word as its high half, then its low half. -/
def alertGroups (reg : cpmAlertReg) : List Nat :=
  [reg.word 2 / 65536, reg.word 2 % 65536, reg.word 1 / 65536, reg.word 1 % 65536,
    reg.word 0 / 65536, reg.word 0 % 65536]

/-- The hex header of the alert report: `0x`, then every group as four hex digits
and a space. -/
def alertHeader (reg : cpmAlertReg) : String :=
  "0x" ++ String.join ((alertGroups reg).map fun g => fmt04X g ++ " ")

/-- The value of an uppercase hexadecimal digit (`none` for another character). -/
def hexDigitValue (c : Char) : Option Nat :=
  if '0' ≤ c ∧ c ≤ '9' then some (c.toNat - 48)
  else if 'A' ≤ c ∧ c ≤ 'F' then some (c.toNat - 55)
  else none

/-- The number an uppercase hexadecimal numeral denotes (`none` when a character
is not an uppercase hexadecimal digit). -/
def hexValue (s : String) : Option Nat :=
  s.data.foldl (fun acc c => acc.bind fun a => (hexDigitValue c).map fun d => 16 * a + d) (some 0)

/-- A well-formed report line: it starts with `[` and holds neither a NUL nor a
newline character. -/
def lineOk (l : String) : Bool :=
  (l.data.head? == some '[') && l.data.all (fun c => c != NUL && c != '\n')

/-- A character of a hex header: not NUL, not a newline, not `[`. -/
def headerCharOk (c : Char) : Bool := c != NUL && c != '\n' && c != '['

/-- The all-zero status register. -/
def zeroStatusReg : cpmStatusReg := ⟨fun _ => 0⟩

/-- A status register with bit 16 set and `InMotion = 01`, all other bits clear. -/
def bit16MovingStatusReg : cpmStatusReg := ⟨fun i => if i = 0 then 0 else 1⟩

/-- A status register with only bit 47 set. -/
def bit47StatusReg : cpmStatusReg := ⟨fun i => if i = 2 then 0x8000 else 0⟩

/-- An alert register with only bit 0 set. -/
def bit0AlertReg : cpmAlertReg := ⟨fun i => if i = 0 then 1 else 0⟩

/-! ## Nodes used to evaluate the definitions -/

/-- A node on which every read succeeds and yields `v`. -/
def okNode {α : Type} (v : α) : Node α :=
  { netGetParameterInfo := fun _ => (MN_OK, v)
    netGetParameterDbl := fun _ => (MN_OK, v)
    cpmGetParameter := fun _ => (MN_OK, v)
    cpmGetHwConfigReg := (MN_OK, 0)
    netGetOptionProduct := (MN_OK, 0) }

/-- A node on which every read fails with code 1, leaving `v` in the variable. -/
def failNode {α : Type} (v : α) : Node α :=
  { netGetParameterInfo := fun _ => (1, v)
    netGetParameterDbl := fun _ => (1, v)
    cpmGetParameter := fun _ => (1, v)
    cpmGetHwConfigReg := (1, 0)
    netGetOptionProduct := (1, 0) }

/-- Test-point codes used to evaluate the definitions (pairwise distinct, mask `0x300`). -/
def exampleMonVars : MonVars :=
  ⟨0x300, 1, 2, 3, 4, 5, 6, 7, 8, 9, 10, 11, 12, 13, 14, 15, 16, 17, 18, 19, 20, 21, 22, 23, 24,
    25, 26, 27, 28⟩

/-- A `Libm` on `ℚ` with placeholder functions, for evaluating paths that call none of them. -/
def ratLibm : Libm ℚ := ⟨fun x => x, fun x => x, fun x _ => x⟩

/-- RAS codes used to evaluate the definitions. -/
def exampleRasCodes : RasCodes := ⟨0, 3, 5, 9, 15, 24, 44⟩

/-- The factor `resScale` that `convertMonGain` computes: encoder density over command
density when both are positive, 1 otherwise. -/
def monResScale {α : Type} [LinearOrderedField α] (theMultiAddr : Node α) : α :=
  if 0 < (theMultiAddr.netGetParameterInfo CPM_P_CMD_CNTS_PER_REV).2 then
    if 0 < (theMultiAddr.netGetParameterInfo CPM_P_DRV_ENC_DENS).2 then
      (theMultiAddr.netGetParameterInfo CPM_P_DRV_ENC_DENS).2 /
        (theMultiAddr.netGetParameterInfo CPM_P_CMD_CNTS_PER_REV).2
    else 1
  else 1

/-- The laws of the real logarithm and power that the round trip of the time-constant
converters rests on: `log 1 = 0`, `log` is strictly increasing on the positive numbers,
and `log (a ^ b) = b * log a` for a positive base. -/
structure LogPowLaws {α : Type} [LinearOrderedField α] (M : Libm α) : Prop where
  log_one : M.log 1 = 0
  log_lt : ∀ u v : α, 0 < u → u < v → M.log u < M.log v
  log_pow : ∀ a b : α, 0 < a → M.log (M.pow a b) = b * M.log a

/-- A `Libm` on `ℚ` that obeys `LogPowLaws` with rational values: `log u = u - 1` and
`pow a b = 1 + b * (a - 1)` (`sqrt` is a placeholder). -/
def linLibm : Libm ℚ := ⟨fun x => x, fun u => u - 1, fun a b => 1 + b * (a - 1)⟩

/-- The value claimed for the eng->bits direction of `convertIBRMStc`, as worded in the
specification: `min(32767, round(2^23 * (1 - (8/9)^(Ts/tau))))` with `tau = max(eng, 0.01)`
and `Ts` the sample period in seconds. -/
def ibRMStcClaimed {α : Type} [LinearOrderedField α] [FloorRing α] (M : Libm α) (Ts eng : α) : α :=
  min 32767 ((⌊2 ^ 23 * (1 - M.pow (8 / 9) (Ts / max eng (1 / 100))) + 1 / 2⌋ : Int) : α)

/-- The node `theMultiAddr` seen with a sample period four times shorter: the read of
`CPM_P_SAMPLE_PERIOD` yields a quarter of the value (same error code), every other read
is unchanged. Used to state that the vector-rate filter converter is the 99% filter
converter at a quarter of the sample period. -/
def quarterPeriod {α : Type} [LinearOrderedField α] (theMultiAddr : Node α) : Node α :=
  { theMultiAddr with
    netGetParameterInfo := fun p =>
      if p = CPM_P_SAMPLE_PERIOD then
        ((theMultiAddr.netGetParameterInfo p).1, (theMultiAddr.netGetParameterInfo p).2 / 4)
      else theMultiAddr.netGetParameterInfo p }

/-! ## The parameter descriptor tables -/

/-- The sizes the tables take from header macros that are not part of the source file
(`UDSZ` is defined in the table as `SC_USER_DESCR_CHUNK`). -/
structure TableSizes where
  MN_PART_NUM_SIZE : Int
  MN_USER_NV_SIZE : Int
  ATTN_MASK_OCTETS : Int
  SC_USER_DESCR_CHUNK : Int

/-- The converter functions the descriptors point to. -/
inductive Converter where
  | convertTimeMS
  | spscWatchAttnMask
  | convertSpdLim
  | convertVel
  | convertAcc
  | convertJerk
  | convertRMSFactor
  | convertAmperes
  | convertMeasAmperes
  | convertRMSlevel
  | convertRMSlevelSlow
  | checkPosnLimit
  | convertADCmax
  | convertRMSlimit
  | convertIBRMStc
  | convertAmpsRMS
  | convertRMSlimit32
  | convertRMStc
  | convertMeasVolts
  | convertFilt1TCMilliseconds
  | convertAngle
  | limit2To27
  | convertVectorFilt99pctMilliseconds
  | convertFilt99pctMilliseconds
  | convertRMSSlowtc
  | convertIBRMSSlowtc
  | calcDHeatFact
  deriving DecidableEq, Repr

/-- The descriptor `paramInfoLcl`, by the columns of the tables: `1/x`, signed, type, unit,
size, scale, config key id, param group, description, and the optional converter,
firmware milestone and hardware factory override (`none` where the initializer leaves
them out or gives `NULL`). The enumerators of the header are kept by name. -/
structure paramInfoLcl where
  invert : Bool
  signType : String
  paramType : String
  unitType : String
  paramSize : Int
  scaleFromBase : ℚ
  keyID : String
  paramGroup : String
  description : String
  converter : Option Converter
  fwMilestone : Option String
  hwOverride : Option String

/-- Rows 0 to 15 of `cpmInfoDB` (index comments 0 to 15). -/
def cpmInfoDB.rows0 : List paramInfoLcl := [
  ⟨false, "ST_UNSIGNED", "PT_RO", "DEV_ID", 2, 2 ^ 8, "PARAM_NULL", "PG_NULL", "STR_PARAM_DEVID", none, none, none⟩,
  ⟨false, "ST_SIGNED", "PT_RO", "FW_VERS", 2, 1, "PARAM_FIRMWARE_VERSION", "PG_DRIVE_INFO", "STR_PARAM_FWVERS", none, none, none⟩,
  ⟨false, "ST_UNSIGNED", "PT_FAC", "HW_VERS", 2, 1, "PARAM_HW_REV", "PG_DRIVE_INFO", "STR_PARAM_HWVERS", none, none, none⟩,
  ⟨false, "ST_UNSIGNED", "PT_RO", "NO_UNIT", 2, 1, "PARAM_NULL", "PG_NULL", "STR_PARAM_RESELLERID", none, none, none⟩,
  ⟨false, "ST_SIGNED", "PT_FAC", "NO_UNIT", 4, 1, "PARAM_SERIAL_NUMBER", "PG_DRIVE_INFO", "STR_PARAM_SERIAL_NUM", none, none, none⟩,
  ⟨false, "ST_SIGNED", "PT_FCFG", "BIT_FIELD", 4, 1, "PARAM_OPTION_REG", "PG_FACTORY_SETTINGS", "STR_PARAM_OPT_REG", none, none, none⟩,
  ⟨false, "ST_UNSIGNED", "PT_NV_RW", "NO_UNIT", 2, 1, "PARAM_ROM_UPD_ACK", "PG_NON_DISPLAY", "STR_PARAM_ROMSUM_ACK", none, none, none⟩,
  ⟨false, "ST_UNSIGNED", "PT_RO", "NO_UNIT", 2, 1, "PARAM_ROM_SUM", "PG_NON_DISPLAY", "STR_PARAM_FWSUM", none, none, none⟩,
  ⟨false, "ST_UNSIGNED", "PT_RO", "UNIT_HZ", 4, 1000, "PARAM_SAMP_RATE", "PG_NON_DISPLAY", "STR_PARAM_SAMP_PER", none, none, none⟩,
  ⟨false, "ST_SIGNED", "PT_RO_RT", "BIT_FIELD", 12, 1, "PARAM_ALERT_REG", "PG_STATUS_INFO", "STR_PARAM_ALERT_REG", none, none, none⟩,
  ⟨false, "ST_SIGNED", "PT_CFG", "BIT_FIELD", 2, 1, "PARAM_STOP_TYPE", "PG_SAFETY_INFO", "STR_PARAM_STOPTYPE", none, none, none⟩,
  ⟨false, "ST_UNSIGNED", "PT_CFG", "TIME_MSEC", 2, 1, "PARAM_WATCHDOG_TIME", "PG_SAFETY_INFO", "STR_PARAM_WDTC", some .convertTimeMS, none, none⟩,
  ⟨false, "ST_UNSIGNED", "PT_RO", "NO_UNIT", 2, 1, "PARAM_NULL", "PG_NULL", "STR_PARAM_NETSTAT", none, none, none⟩,
  ⟨false, "ST_SIGNED", "PT_ROC_RT", "BIT_FIELD", 6, 1, "PARAM_STATUS1_ACCUM", "PG_STATUS_INFO", "STR_PARAM_STATUS", none, none, none⟩,
  ⟨false, "ST_SIGNED", "PT_ROC_RT", "BIT_FIELD", 6, 1, "PARAM_STATUS1_ATTN_RISE", "PG_STATUS_INFO", "STR_PARAM_STATUS_ATTN_RISE", none, none, none⟩,
  ⟨false, "ST_SIGNED", "PT_FCFG", "BIT_FIELD", 4, 1, "PARAM_DRV_MODES", "PG_FACTORY_SETTINGS", "STR_UNKNOWN", none, none, none⟩]

/-- Rows 16 to 31 of `cpmInfoDB` (index comments 16 to 31). -/
def cpmInfoDB.rows16 (H : TableSizes) : List paramInfoLcl := [
  ⟨false, "ST_SIGNED", "PT_RO_RT", "BIT_FIELD", 6, 1, "PARAM_STATUS1_RT", "PG_STATUS_INFO", "STR_PARAM_STATUS_RT", none, none, none⟩,
  ⟨false, "ST_UNSIGNED", "PT_RO_RT", "TIME_MSEC", 2, 1, "PARAM_NULL", "PG_NULL", "STR_PARAM_TIMESTAMP16", some .convertTimeMS, none, none⟩,
  ⟨false, "ST_UNSIGNED", "PT_RO_RT", "TIME_MSEC", 1, 1, "PARAM_NULL", "PG_NULL", "STR_PARAM_TIMESTAMP", some .convertTimeMS, none, none⟩,
  ⟨false, "ST_UNSIGNED", "PT_FAC", "STRING", H.MN_PART_NUM_SIZE, 1, "PARAM_PART_NUM", "PG_FACTORY_SETTINGS", "STR_PARAM_PART_NUM", none, none, none⟩,
  ⟨false, "ST_UNSIGNED", "PT_NV_RW", "NO_UNIT", 2, 1, "PARAM_EE_UPD_ACK", "PG_NON_DISPLAY", "STR_PARAM_EE_ACK", none, none, none⟩,
  ⟨false, "ST_UNSIGNED", "PT_RO", "NO_UNIT", 2, 1, "PARAM_EE_VER", "PG_NON_DISPLAY", "STR_PARAM_EE_VER", none, none, none⟩,
  ⟨false, "ST_SIGNED", "PT_ROC_RT", "BIT_FIELD", 6, 1, "PARAM_NULL", "PG_NULL", "STR_PARAM_STATUS_FALL", none, none, none⟩,
  ⟨false, "ST_SIGNED", "PT_CFG", "BIT_FIELD", 4, 1, "PARAM_CFG_HW", "PG_CONFIGURATION_INFO", "STR_PARAM_CFG_HW", none, none, none⟩,
  ⟨false, "ST_SIGNED", "PT_CFG", "BIT_FIELD", 4, 1, "PARAM_CFG_APP", "PG_CONFIGURATION_INFO", "STR_PARAM_CFG_FEAT", none, none, none⟩,
  ⟨false, "ST_SIGNED", "PT_ROC_RT", "BIT_FIELD", 12, 1, "PARAM_WARN_ACCUM_REG", "PG_NON_DISPLAY", "STR_WARN_ACC", none, none, none⟩,
  ⟨false, "ST_UNSIGNED", "PT_ROC_RT", "NO_UNIT", 12, 1, "PARAM_NULL", "PG_NULL", "STR_WARN_RT", none, none, none⟩,
  ⟨false, "ST_UNSIGNED", "PT_VOL", "NO_UNIT", 12, 1, "PARAM_NULL", "PG_NULL", "STR_USER_WARN_MASK_REG", none, none, none⟩,
  ⟨false, "ST_UNSIGNED", "PT_VOL", "NO_UNIT", 12, 1, "PARAM_NULL", "PG_NULL", "STR_USER_ALERT_MASK_REG", none, none, none⟩,
  ⟨false, "ST_UNSIGNED", "PT_FAC_RT", "HOURS", 4, 10 * 60 * 60, "PARAM_ON_TIME", "PG_DRIVE_INFO", "STR_ON_TIME", none, none, none⟩,
  ⟨false, "ST_SIGNED", "PT_RO_RTA", "DX_TICK", 4, 1, "PARAM_POSN_CAP_INA_HI_SPD", "PG_MISCELLANEOUS_INFO", "STR_PARAM_POSN_CAP_INA_HI_SPD", none, none, none⟩,
  ⟨false, "ST_UNSIGNED", "PT_VOL", "NO_UNIT", 2, 1, "PARAM_NULL", "PG_NULL", "STR_PARAM_USER_RAM0", none, none, none⟩]

/-- Rows 32 to 47 of `cpmInfoDB` (index comments 32 to 47). -/
def cpmInfoDB.rows32 (H : TableSizes) : List paramInfoLcl := [
  ⟨false, "ST_UNSIGNED", "PT_NV_RW", "NO_UNIT", H.MN_USER_NV_SIZE, 1, "PARAM_NULL", "PG_NULL", "STR_PARAM_USER_EE0", none, none, none⟩,
  ⟨false, "ST_UNSIGNED", "PT_NV_RW", "NO_UNIT", H.MN_USER_NV_SIZE, 1, "PARAM_NULL", "PG_NULL", "STR_PARAM_USER_EE1", none, none, none⟩,
  ⟨false, "ST_UNSIGNED", "PT_NV_RW", "NO_UNIT", H.MN_USER_NV_SIZE, 1, "PARAM_NULL", "PG_NULL", "STR_PARAM_USER_EE2", none, none, none⟩,
  ⟨false, "ST_UNSIGNED", "PT_NV_RW", "NO_UNIT", H.MN_USER_NV_SIZE, 1, "PARAM_NULL", "PG_NULL", "STR_PARAM_USER_EE3", none, none, none⟩,
  ⟨false, "ST_UNSIGNED", "PT_RO_RT", "NO_UNIT", 2, 1, "PARAM_NULL", "PG_NULL", "STR_NETERR_APP_CHKSUM", none, none, none⟩,
  ⟨false, "ST_UNSIGNED", "PT_RO_RT", "NO_UNIT", 2, 1, "PARAM_NULL", "PG_NULL", "STR_NETERR_APP_FRAG", none, none, none⟩,
  ⟨false, "ST_UNSIGNED", "PT_RO_RT", "NO_UNIT", 2, 1, "PARAM_NULL", "PG_NULL", "STR_NETERR_APP_STRAY", none, none, none⟩,
  ⟨false, "ST_UNSIGNED", "PT_RO_RT", "NO_UNIT", 2, 1, "PARAM_NULL", "PG_NULL", "STR_NETERR_APP_OVERRUN", none, none, none⟩,
  ⟨false, "ST_UNSIGNED", "PT_RO_RT", "NO_UNIT", 2, 1, "PARAM_NULL", "PG_NULL", "STR_NETERR_DIAG_CHKSUM", none, none, none⟩,
  ⟨false, "ST_UNSIGNED", "PT_RO_RT", "NO_UNIT", 2, 1, "PARAM_NULL", "PG_NULL", "STR_NETERR_DIAG_FRAG", none, none, none⟩,
  ⟨false, "ST_UNSIGNED", "PT_RO_RT", "NO_UNIT", 2, 1, "PARAM_NULL", "PG_NULL", "STR_NETERR_DIAG_STRAY", none, none, none⟩,
  ⟨false, "ST_UNSIGNED", "PT_RO_RT", "NO_UNIT", 2, 1, "PARAM_NULL", "PG_NULL", "STR_NETERR_DIAG_OVERRUN", none, none, none⟩,
  ⟨false, "ST_UNSIGNED", "PT_NONE", "NO_UNIT", 0, 1, "PARAM_NULL", "PG_NULL", "STR_UNKNOWN", none, none, none⟩,
  ⟨false, "ST_SIGNED", "PT_VOLA", "BIT_FIELD", H.ATTN_MASK_OCTETS, 1, "PARAM_NULL", "PG_NULL", "STR_PARAM_ATTN_MASK", some .spscWatchAttnMask, none, none⟩,
  ⟨false, "ST_UNSIGNED", "PT_NV_RW", "TIME_MSEC", 2, 1, "PARAM_NULL", "PG_NULL", "STR_PARAM_GP_TIMER", some .convertTimeMS, none, none⟩,
  ⟨false, "ST_SIGNED", "PT_NV_RWA", "DX_TICK", 4, 1, "PARAM_AT_POSN_LOC", "PG_MISCELLANEOUS_INFO", "STR_PARAM_POSN_TRIG_PT", none, none, none⟩]

/-- Rows 48 to 63 of `cpmInfoDB` (index comments 48 to 63). -/
def cpmInfoDB.rows48 (H : TableSizes) : List paramInfoLcl := [
  ⟨false, "ST_POS_ONLY", "PT_NV_RWA", "DX_TICK", 4, 1, "PARAM_A_AFTER_DIST", "PG_MISCELLANEOUS_INFO", "STR_PARAM_A_START", none, none, none⟩,
  ⟨false, "ST_POS_ONLY", "PT_NV_RWA", "DX_TICK", 4, 1, "PARAM_B_BEFORE_DIST", "PG_MISCELLANEOUS_INFO", "STR_PARAM_B_END", none, none, none⟩,
  ⟨false, "ST_SIGNED", "PT_VOL", "BIT_FIELD", 2, 1, "PARAM_XPS_USER_OUT_REG", "PG_IO_INFO", "STR_PARAM_USER_OUT_REG", none, none, none⟩,
  ⟨false, "ST_SIGNED", "PT_FAC_RT", "BIT_FIELD", 12, 1, "PARAM_ALERT_ACCUM_REG", "PG_STATUS_INFO", "STR_UNKNOWN", none, some "FW_MILESTONE_SC_HAS_AC_REG", none⟩,
  ⟨false, "ST_SIGNED", "PT_RO_RT", "BIT_FIELD", 2, 1, "PARAM_OUTPUT_REG", "PG_IO_INFO", "STR_PARAM_OUT_REG", none, none, none⟩,
  ⟨false, "ST_POS_ONLY", "PT_MTR", "VEL_TICKS_S", 2, 2 ^ 2, "PARAM_SPEED_LIM", "PG_MOTOR_INFO", "STR_DRV_SPEED_LIM", some .convertSpdLim, some "FW_MILESTONE_ALL_VERS", some "HW2_NON_OVERRIDE"⟩,
  ⟨false, "ST_UNSIGNED", "PT_RO_RT", "BIT_FIELD", 4, 1, "PARAM_TP_IOP1", "PG_NON_DISPLAY", "STR_DRV_TP_IOP1", none, none, none⟩,
  ⟨false, "ST_UNSIGNED", "PT_VOL", "NO_UNIT", H.ATTN_MASK_OCTETS, 1, "PARAM_ATTN_MASK_DRVR", "PG_NON_DISPLAY", "STR_UNKNOWN", some .spscWatchAttnMask, none, none⟩,
  ⟨false, "ST_SIGNED", "PT_VOL", "BIT_FIELD", 6, 1, "PARAM_GRP_SHUTDOWN_MASK", "PG_NON_DISPLAY", "STR_UNKNOWN", none, none, none⟩,
  ⟨false, "ST_UNSIGNED", "PT_RO_RT", "TIME_MSEC", 2, 1, "PARAM_CMD_TUNE_DELAY", "PG_NON_DISPLAY", "STR_RAS_DELAY", some .convertTimeMS, none, none⟩,
  ⟨false, "ST_POS_ONLY", "PT_NV_RW", "VEL_TICKS_S", 4, 2 ^ 17, "PARAM_JOG_VEL_LIM", "PG_MOTION_CONSTRAINTS", "STR_PARAM_VEL_LIMIT", some .convertVel, none, none⟩,
  ⟨false, "ST_POS_ONLY", "PT_NV_RW", "VEL_TICKS_S2", 4, 2 ^ 17, "PARAM_JOG_ACC_LIM", "PG_MOTION_CONSTRAINTS", "STR_PARAM_ACC_LIMIT", some .convertAcc, none, none⟩,
  ⟨false, "ST_SIGNED", "PT_RO_RT", "VEL_TICKS_S", 4, 2 ^ 18, "PARAM_RAS_MAX_VEL", "PG_NON_DISPLAY", "STR_UNKNOWN", some .convertVel, none, none⟩,
  ⟨false, "ST_POS_ONLY", "PT_NV_RW", "VEL_TICKS_S", 4, 2 ^ 17, "PARAM_VEL_LIM", "PG_MOTION_CONSTRAINTS", "STR_PARAM_VEL_LIMIT", some .convertVel, none, none⟩,
  ⟨false, "ST_POS_ONLY", "PT_NV_RW", "VEL_TICKS_S2", 4, 2 ^ 17, "PARAM_ACC_LIM", "PG_MOTION_CONSTRAINTS", "STR_PARAM_ACC_LIMIT", some .convertAcc, none, none⟩,
  ⟨false, "ST_SIGNED", "PT_CFG_T", "BIT_FIELD", 4, 1, "PARAM_CMD_TUNE_REG", "PG_TUNING_INFO", "STR_PARAM_RAS_CON_REG", some .convertJerk, none, none⟩]

/-- Rows 64 to 79 of `cpmInfoDB` (index comments 64 to 79). -/
def cpmInfoDB.rows64 : List paramInfoLcl := [
  ⟨false, "ST_POS_ONLY", "PT_NV_RWA", "VEL_TICKS_S2", 4, 2 ^ 17, "PARAM_DEC_LIM", "PG_MOTION_CONSTRAINTS", "STR_PARAM_DEC_LIMIT", some .convertAcc, none, none⟩,
  ⟨false, "ST_POS_ONLY", "PT_CFG", "VEL_TICKS_S2", 4, 2 ^ 17, "PARAM_ESTOP_DECEL", "PG_MOTION_CONSTRAINTS", "STR_PARAM_STOPACC_LIM", some .convertAcc, none, none⟩,
  ⟨false, "ST_POS_ONLY", "PT_NV_RWA", "DX_TICK", 4, 1, "PARAM_HEAD_DX", "PG_MOTION_CONSTRAINTS", "STR_PARAM_HEAD_DX", none, none, none⟩,
  ⟨false, "ST_POS_ONLY", "PT_NV_RWA", "DX_TICK", 4, 1, "PARAM_TAIL_DX", "PG_MOTION_CONSTRAINTS", "STR_PARAM_TAIL_DX", none, none, none⟩,
  ⟨false, "ST_POS_ONLY", "PT_NV_RWA", "VEL_TICKS_S", 4, 2 ^ 17, "PARAM_HT_VEL_LIM", "PG_MOTION_CONSTRAINTS", "STR_PARAM_HEADTAIL_VEL", some .convertVel, none, none⟩,
  ⟨false, "ST_UNSIGNED", "PT_NV_RW", "TIME_MSEC", 2, 1, "PARAM_MOVE_DWELL", "PG_NON_DISPLAY", "STR_PARAM_DWELL", some .convertTimeMS, none, none⟩,
  ⟨false, "ST_SIGNED", "PT_RO_RT", "DX_TICK", 4, 1, "PARAM_NULL", "PG_NULL", "STR_PARAM_SOFT_LIM_POS", none, none, none⟩,
  ⟨false, "ST_SIGNED", "PT_RO_RT", "DX_TICK", 4, 1, "PARAM_NULL", "PG_NULL", "STR_PARAM_SOFT_LIM_NEG", none, none, none⟩,
  ⟨false, "ST_POS_ONLY", "PT_CFG", "TIME_MSEC", 2, 1, "PARAM_STOP_QUAL_TC", "PG_SAFETY_INFO", "STR_UNKNOWN", some .convertTimeMS, none, none⟩,
  ⟨false, "ST_SIGNED", "PT_RAM", "PERCENT_MAX", 2, 2 ^ 15 / 100, "PARAM_VOLTSQ_CMD", "PG_NON_DISPLAY", "STR_UNKNOWN", none, none, none⟩,
  ⟨false, "ST_POS_ONLY", "PT_CFG", "VEL_TICKS_S", 4, 2 ^ 18, "PARAM_STOP_QUAL_VEL", "PG_SAFETY_INFO", "STR_UNKNOWN", some .convertVel, none, none⟩,
  ⟨false, "ST_UNSIGNED", "PT_NV_RW", "VEL_TICKS_S", 4, 2 ^ 17, "PARAM_AT_MAX_VEL", "PG_TUNING_INFO", "STR_PARAM_VEL_LIMIT_MAX", some .convertVel, none, none⟩,
  ⟨false, "ST_UNSIGNED", "PT_NV_RW", "VEL_TICKS_S2", 4, 2 ^ 17, "PARAM_AT_MAX_ACC", "PG_NON_DISPLAY", "STR_PARAM_ACC_LIMIT_MAX", some .convertAcc, none, none⟩,
  ⟨false, "ST_POS_ONLY", "PT_NV_RW", "VEL_TICKS_S2", 4, 2 ^ 17, "PARAM_NULL", "PG_NULL", "STR_PARAM_STOPACC_LIM_MAX", some .convertAcc, none, none⟩,
  ⟨false, "ST_POS_ONLY", "PT_FAC", "NO_UNIT", 4, 2 ^ 15, "PARAM_RMS_STOPPED_FACTOR", "PG_FACTORY_SETTINGS", "STR_UNKNOWN", some .convertRMSFactor, some "FW_MILESTONE_INDEX_IB", none⟩,
  ⟨false, "ST_POS_ONLY", "PT_FMTR", "VEL_TICKS_S", 2, 2 ^ 2, "PARAM_RMS_STOPPED_SPEED", "PG_FACTORY_SETTINGS", "STR_UNKNOWN", some .convertSpdLim, some "FW_MILESTONE_INDEX_IB", none⟩]

/-- Rows 80 to 95 of `cpmInfoDB` (index comments 80 to 95). -/
def cpmInfoDB.rows80 : List paramInfoLcl := [
  ⟨false, "ST_SIGNED", "PT_RO_RT", "TORQUE_LIMIT", 2, 2 ^ 15, "PARAM_TRQ_CMD", "PG_STATUS_INFO", "STR_DRV_TRQ_CMD", some .convertAmperes, none, none⟩,
  ⟨false, "ST_SIGNED", "PT_RO_RT", "CURRENT", 2, 2 ^ 15, "PARAM_NULL", "PG_NULL", "STR_DRV_TRQ_MEAS", some .convertMeasAmperes, none, none⟩,
  ⟨false, "ST_POS_ONLY", "PT_RO_RT", "PCNT_SHUTDOWN", 4, 1, "PARAM_RMS_LVL", "PG_STATUS_INFO", "STR_DRV_RMS_LEVEL", some .convertRMSlevel, none, none⟩,
  ⟨false, "ST_SIGNED", "PT_RO_RT", "DX_TICK", 3, 1, "PARAM_POSN_MEAS", "PG_STATUS_INFO", "STR_PARAM_I_MEAS_POSN", none, none, none⟩,
  ⟨false, "ST_SIGNED", "PT_RO_RT", "DX_TICK", 3, 1, "PARAM_POSN_CMD", "PG_STATUS_INFO", "STR_PARAM_I_CMD_POSN", none, none, none⟩,
  ⟨false, "ST_SIGNED", "PT_RO_RT", "VEL_TICKS_S", 4, 2 ^ 18, "PARAM_VEL_MEAS", "PG_STATUS_INFO", "STR_PARAM_MEAS_VEL", some .convertVel, none, none⟩,
  ⟨false, "ST_SIGNED", "PT_RO_RT", "VEL_TICKS_S", 4, 2 ^ 18, "PARAM_VEL_CMD", "PG_STATUS_INFO", "STR_PARAM_CMD_VEL", some .convertVel, none, none⟩,
  ⟨false, "ST_SIGNED", "PT_RO_RT", "DX_TICK", 3, 1, "PARAM_POSN_MTR", "PG_NON_DISPLAY", "STR_PARAM_I_MEAS_POSN_MTR", none, none, none⟩,
  ⟨false, "ST_POS_ONLY", "PT_RO_RT", "PCNT_SHUTDOWN", 4, 1, "PARAM_RMS_SLOW_LVL", "PG_STATUS_INFO", "STR_DRV_RMS_LEVEL", some .convertRMSlevelSlow, some "FW_MILESTONE_DUAL_RMS", none⟩,
  ⟨false, "ST_POS_ONLY", "PT_RO_RT", "VEL_TICKS_S2", 4, 2 ^ 18, "PARAM_NULL", "PG_NULL", "STR_PARAM_ACC_MAX", some .convertAcc, none, none⟩,
  ⟨false, "ST_SIGNED", "PT_RO_RT", "DX_TICK", 4, 1, "PARAM_TRK_ERR", "PG_NON_DISPLAY", "STR_PARAM_POSN_TRK", none, none, none⟩,
  ⟨false, "ST_SIGNED", "PT_CFG", "DX_TICK", 4, 1, "PARAM_IN_RANGE_WIN", "PG_CONFIGURATION_INFO", "STR_PARAM_POS_TRK_RNG", some .checkPosnLimit, none, none⟩,
  ⟨false, "ST_POS_ONLY", "PT_CFG", "TIME_MSEC", 2, 1, "PARAM_MV_DN_TC", "PG_CONFIGURATION_INFO", "STR_DRV_MV_DN_TC", some .convertTimeMS, none, none⟩,
  ⟨false, "ST_SIGNED", "PT_RO_RT", "DX_TICK", 4, 1, "PARAM_POSN_MTR_INDX", "PG_NON_DISPLAY", "STR_PARAM_INDEX_POSN_CAP", none, none, none⟩,
  ⟨false, "ST_SIGNED", "PT_RO_RT", "DX_TICK", 4, 1, "PARAM_NULL", "PG_NULL", "STR_UNKNOWN", none, none, none⟩,
  ⟨false, "ST_SIGNED", "PT_RO_RT", "DX_TICK", 4, 1, "PARAM_NULL", "PG_NULL", "STR_UNKNOWN", none, none, none⟩]

/-- Rows 96 to 111 of `cpmInfoDB` (index comments 96 to 111). -/
def cpmInfoDB.rows96 : List paramInfoLcl := [
  ⟨false, "ST_UNSIGNED", "PT_RO_RT", "NO_UNIT", 4, 1, "PARAM_NULL", "PG_NULL", "STR_UNKNOWN", none, none, none⟩,
  ⟨false, "ST_POS_ONLY", "PT_CFG", "PERCENT_MAX", 2, 2 ^ 15 / 100, "PARAM_IN_RANGE_VEL", "PG_CONFIGURATION_INFO", "STR_UNKNOWN", none, none, none⟩,
  ⟨false, "ST_SIGNED", "PT_NV_RWA", "BIT_FIELD", 2, 1, "PARAM_MOVE_OPTIONS", "PG_MOTION_CONSTRAINTS", "STR_UNKNOWN", none, some "FW_MILESTONE_SC_MOVE_OPTIONS", none⟩,
  ⟨false, "ST_UNSIGNED", "PT_CFG", "TIME_MSEC", 2, 1, "PARAM_IN1_TC", "PG_IO_INFO", "STR_INPUT1_TC", some .convertTimeMS, none, none⟩,
  ⟨false, "ST_SIGNED", "PT_FAC", "SHIPOUT_VERS", 4, 1, "PARAM_SHIPOUT_VERSION", "PG_FACTORY_SETTINGS", "STR_UNKNOWN", none, some "FW_MILESTONE_2R0", none⟩,
  ⟨false, "ST_UNSIGNED", "PT_NONE", "NO_UNIT", 0, 1, "PARAM_NULL", "PG_NULL", "STR_UNKNOWN", none, none, none⟩,
  ⟨false, "ST_UNSIGNED", "PT_CFG", "TIME_MSEC", 2, 1, "PARAM_IN1_IN2_TC", "PG_IO_INFO", "STR_INPUT2_TC", some .convertTimeMS, none, none⟩,
  ⟨false, "ST_POS_ONLY", "PT_NONE", "DEGREES", 4, 1, "PARAM_VECTOR_DRIFT_LIM", "PG_FACTORY_SETTINGS", "STR_UNKNOWN", none, none, none⟩,
  ⟨false, "ST_POS_ONLY", "PT_CFG", "DEGREES", 4, 2 ^ 17 / 360, "PARAM_COMM_ANGLE_LIM", "PG_COMMUTATION_INFO", "STR_DRV_COMM_CHK_ANGLE_LIM", none, none, none⟩,
  ⟨false, "ST_UNSIGNED", "PT_CFG", "TIME_MSEC", 2, 1, "PARAM_HLESS_RAMPUP_TIME", "PG_COMMUTATION_INFO", "STR_DRV_HLESS_RAMPUP_TIME", some .convertTimeMS, none, none⟩,
  ⟨false, "ST_UNSIGNED", "PT_CFG", "TIME_MSEC", 2, 1, "PARAM_HLESS_SWEEP_TIME", "PG_COMMUTATION_INFO", "STR_DRV_HLESS_SWEEP_TIME", some .convertTimeMS, none, none⟩,
  ⟨false, "ST_UNSIGNED", "PT_CFG", "TIME_MSEC", 2, 1, "PARAM_HLESS_SETTLE_TIME", "PG_COMMUTATION_INFO", "STR_DRV_HLESS_SETTLE_TIME", some .convertTimeMS, none, none⟩,
  ⟨false, "ST_UNSIGNED", "PT_FMTR", "VOLT", 2, 2 ^ 5, "PARAM_HLESS_VOLTS", "PG_COMMUTATION_INFO", "STR_DRV_HLESS_VOLTS", none, none, none⟩,
  ⟨false, "ST_UNSIGNED", "PT_FMTR", "TIME_SAMPLE", 2, 1, "PARAM_HLESS_RDG", "PG_COMMUTATION_INFO", "STR_DRV_HLESS_RDG_SAMPLES", none, none, none⟩,
  ⟨false, "ST_UNSIGNED", "PT_FMTR", "TIME_SAMPLE", 2, 1, "PARAM_HLESS_SETUP", "PG_COMMUTATION_INFO", "STR_DRV_HLESS_SETUP_SAMPLES", none, none, none⟩,
  ⟨false, "ST_SIGNED", "PT_CFG", "TIME_MSEC", 2, 1, "PARAM_HLESS_VERIFY_TRQ_TIME", "PG_COMMUTATION_INFO", "STR_UNKNOWN", some .convertTimeMS, none, none⟩]

/-- Rows 112 to 115 of `cpmInfoDB` (index comments 112 to 115). -/
def cpmInfoDB.rows112 : List paramInfoLcl := [
  ⟨false, "ST_UNSIGNED", "PT_RAM_RT", "NO_UNIT", 24, 1, "PARAM_NULL", "PG_NULL", "STR_ENC_QUAL", none, none, none⟩,
  ⟨false, "ST_UNSIGNED", "PT_CFG", "DEGREES", 2, 2 ^ 15 / 360, "PARAM_HLESS_VERIFY_MAX_MOTION", "PG_COMMUTATION_INFO", "STR_UNKNOWN", none, none, none⟩,
  ⟨false, "ST_UNSIGNED", "PT_CFG", "DEGREES", 2, 2 ^ 15 / 360, "PARAM_HLESS_VERIFY_MIN_MOTION", "PG_COMMUTATION_INFO", "STR_UNKNOWN", none, none, none⟩,
  ⟨false, "ST_SIGNED", "PT_CFG", "TIME_MSEC", 2, 1, "PARAM_HLESS_VERIFY_RAMP_TIME", "PG_COMMUTATION_INFO", "STR_UNKNOWN", some .convertTimeMS, none, none⟩]

/-- The table `cpmInfoDB`: the descriptors of bank 0, the core node parameters. -/
def cpmInfoDB (H : TableSizes) : List paramInfoLcl :=
  cpmInfoDB.rows0 ++ cpmInfoDB.rows16 H ++ cpmInfoDB.rows32 H ++ cpmInfoDB.rows48 H ++
    cpmInfoDB.rows64 ++ cpmInfoDB.rows80 ++ cpmInfoDB.rows96 ++ cpmInfoDB.rows112

/-- Rows 0 to 15 of `cpmDrvInfoDB` (index comments 256 to 271). -/
def cpmDrvInfoDB.rows0 : List paramInfoLcl := [
  ⟨false, "ST_SIGNED", "PT_FCFG", "CURRENT", 2, 2 ^ 14, "PARAM_ADC_MAX", "PG_FACTORY_SETTINGS", "STR_DRV_ADC_MAX", some .convertADCmax, none, none⟩,
  ⟨false, "ST_SIGNED", "PT_FCFG", "CURRENT", 2, 2 ^ 9, "PARAM_I_MAX", "PG_DRIVE_INFO", "STR_DRV_DRV_I_MAX", none, none, none⟩,
  ⟨false, "ST_POS_ONLY", "PT_FCFG", "CURRENT", 2, 1, "PARAM_RMS_MAX", "PG_FACTORY_SETTINGS", "STR_DRV_RMS_MAX", some .convertRMSlimit, none, none⟩,
  ⟨false, "ST_UNSIGNED", "PT_FAC", "NO_UNIT", 2, 2 ^ 14, "PARAM_IR_CAL_FACTOR", "PG_FACTORY_SETTINGS", "STR_DRV_IR_CAL", none, none, none⟩,
  ⟨false, "ST_UNSIGNED", "PT_FAC", "NO_UNIT", 2, 2 ^ 14, "PARAM_IS_CAL_FACTOR", "PG_FACTORY_SETTINGS", "STR_DRV_IS_CAL", none, none, none⟩,
  ⟨false, "ST_UNSIGNED", "PT_FAC", "NO_UNIT", 2, 1, "PARAM_KM_FACT", "PG_FACTORY_SETTINGS", "STR_P_DRV_PWR_LIM_EXP", none, none, none⟩,
  ⟨false, "ST_POS_ONLY", "PT_FAC", "OHM", 2, 2 ^ 9, "PARAM_MTR_OHMS_MIN", "PG_FACTORY_SETTINGS", "STR_P_DRV_RES_MIN", none, none, none⟩,
  ⟨false, "ST_POS_ONLY", "PT_FAC", "TIME_MSEC", 2, 1, "PARAM_IB_TC", "PG_FACTORY_SETTINGS", "STR_P_IB_FILT_TC", some .convertIBRMStc, none, none⟩,
  ⟨false, "ST_SIGNED", "PT_FAC", "CURRENT_2", 2, 2 ^ 15, "PARAM_IB_TRIP", "PG_FACTORY_SETTINGS", "STR_P_IB_TRIP", some .convertAmpsRMS, none, none⟩,
  ⟨false, "ST_POS_ONLY", "PT_FAC", "CURRENT", 2, 2 ^ 15, "PARAM_I_TRIP", "PG_FACTORY_SETTINGS", "STR_P_PHASE_TRIP", some .convertMeasAmperes, none, none⟩,
  ⟨false, "ST_POS_ONLY", "PT_FAC", "VOLT", 2, 2 ^ 5, "PARAM_BUS_V_MAX", "PG_FACTORY_SETTINGS", "STR_DRV_BUS_VOLTS", none, none, none⟩,
  ⟨false, "ST_POS_ONLY", "PT_CFG", "CURRENT_2", 2, 2 ^ 15, "PARAM_NO_COMM_START_TRQ", "PG_COMMUTATION_INFO", "STR_DRV_HLESS_TRQ", some .convertAmperes, none, none⟩,
  ⟨false, "ST_POS_ONLY", "PT_FAC", "VOLT", 2, 2 ^ 5, "PARAM_OVER_V_TRIP", "PG_FACTORY_SETTINGS", "STR_OVER_VOLTS_TRIP", none, none, none⟩,
  ⟨false, "ST_UNSIGNED", "PT_FAC", "VOLT", 2, 2 ^ 14, "PARAM_BUS_V_CAL", "PG_FACTORY_SETTINGS", "STR_DRV_VBUS_CAL", none, none, none⟩,
  ⟨false, "ST_POS_ONLY", "PT_MTR_R", "CURRENT_2", 4, 1, "PARAM_RMS_LIM", "PG_MOTOR_INFO", "STR_DRV_RMS_LIM", some .convertRMSlimit32, none, none⟩,
  ⟨false, "ST_POS_ONLY", "PT_MTR", "TIME_S", 2, 1, "PARAM_RMS_TC", "PG_MOTOR_INFO", "STR_DRV_RMS_TC", some .convertRMStc, none, none⟩]

/-- Rows 16 to 31 of `cpmDrvInfoDB` (index comments 272 to 287). -/
def cpmDrvInfoDB.rows16 : List paramInfoLcl := [
  ⟨false, "ST_POS_ONLY", "PT_CFG_T", "DX_TICK", 4, 1, "PARAM_TRK_ERR_LIM", "PG_SAFETY_INFO", "STR_DRV_TRK_ERR_LIM", some .checkPosnLimit, none, none⟩,
  ⟨false, "ST_SIGNED", "PT_CFG", "PCNT_SHUTDOWN", 2, 2 ^ 15 / 100, "PARAM_RMS_INIT", "PG_MOTOR_INFO", "STR_DRV_RMS_INIT", none, none, none⟩,
  ⟨false, "ST_POS_ONLY", "PT_RO_RT", "CURRENT", 4, 2 ^ 31, "PARAM_IB_PEAK", "PG_STATUS_INFO", "STR_P_IB_RT", some .convertAmpsRMS, some "FW_MILESTONE_SC_HAS_IBPEAK", none⟩,
  ⟨false, "ST_POS_ONLY", "PT_MTR_R", "CURRENT_2", 4, 1, "PARAM_RMS_SLOW_LIM", "PG_MOTOR_INFO", "STR_DRV_RMS_LIM", some .convertRMSlimit32, some "FW_MILESTONE_DUAL_RMS", none⟩,
  ⟨false, "ST_UNSIGNED", "PT_RO_RT", "VOLT", 2, 32768 / (33 / 10), "PARAM_NULL", "PG_NULL", "STR_UNKNOWN", none, none, none⟩,
  ⟨false, "ST_SIGNED", "PT_RO_RTA", "DX_TICK", 4, 1, "PARAM_POSN_CAP_INB", "PG_MISCELLANEOUS_INFO", "STR_PARAM_POSN_CAP_INB", none, none, none⟩,
  ⟨false, "ST_POS_ONLY", "PT_RO_RT", "VOLT", 2, 2 ^ 15, "PARAM_BUS_AT_ENBL", "PG_NON_DISPLAY", "STR_BUS_AT_ENBL", some .convertMeasVolts, none, none⟩,
  ⟨false, "ST_UNSIGNED", "PT_RO_RT", "VOLT", 2, 32768 / (66 / 10), "PARAM_TP5V", "PG_STATUS_INFO", "STR_PARAM_TP_5V", none, none, none⟩,
  ⟨false, "ST_POS_ONLY", "PT_RO_RT", "VOLT", 2, 2 ^ 15, "PARAM_BUS_V_MEAS", "PG_DRIVE_INFO", "STR_DRV_BUS_VOLTS", some .convertMeasVolts, none, none⟩,
  ⟨false, "ST_UNSIGNED", "PT_RW_RT_T", "NO_UNIT", 2, 1, "PARAM_NV_MODIFIED", "PG_NON_DISPLAY", "STR_DRV_DIRTY", none, none, none⟩,
  ⟨false, "ST_UNSIGNED", "PT_RO", "NO_UNIT", 2, 1, "PARAM_NULL", "PG_NULL", "STR_DRV_VECTOR_RATE", none, none, none⟩,
  ⟨false, "ST_UNSIGNED", "PT_RO_RT", "VOLT", 2, 32768 / (33 / 10), "PARAM_TP1_65V", "PG_STATUS_INFO", "STR_PARAM_TP_REF", none, none, none⟩,
  ⟨false, "ST_UNSIGNED", "PT_RO_RT", "VOLT", 2, 32768 / (363 / 10), "PARAM_TP12V", "PG_STATUS_INFO", "STR_PARAM_TP_12V", none, none, none⟩,
  ⟨false, "ST_SIGNED", "PT_RO_RT", "BIT_FIELD", 4, 1, "PARAM_TP_IOP", "PG_NON_DISPLAY", "STR_DRV_TP_IOP", none, none, none⟩,
  ⟨false, "ST_SIGNED", "PT_RO_RT", "CURRENT", 2, 2 ^ 15, "PARAM_NULL", "PG_NULL", "STR_DRV_TP_IR", some .convertMeasAmperes, none, none⟩,
  ⟨false, "ST_SIGNED", "PT_RO_RT", "CURRENT", 2, 2 ^ 15, "PARAM_NULL", "PG_NULL", "STR_DRV_TP_IS", some .convertMeasAmperes, none, none⟩]

/-- Rows 32 to 47 of `cpmDrvInfoDB` (index comments 288 to 303). -/
def cpmDrvInfoDB.rows32 : List paramInfoLcl := [
  ⟨false, "ST_UNSIGNED", "PT_FAC", "TIME_MSEC", 2, 1, "PARAM_I_TP_FILT", "PG_FACTORY_SETTINGS", "STR_P_IR_IS_TP_FILT_TC", some .convertFilt1TCMilliseconds, none, none⟩,
  ⟨false, "ST_SIGNED", "PT_RO_RT", "CURRENT", 2, 2 ^ 15, "PARAM_TP_IR", "PG_NON_DISPLAY", "STR_DRV_TP_IR_FILT", some .convertMeasAmperes, none, none⟩,
  ⟨false, "ST_SIGNED", "PT_RO_RT", "CURRENT", 2, 2 ^ 15, "PARAM_TP_IS", "PG_NON_DISPLAY", "STR_DRV_TP_IS_FILT", some .convertMeasAmperes, none, none⟩,
  ⟨false, "ST_SIGNED", "PT_RO_RT", "DEG_C", 2, 1, "PARAM_DRV_TEMP", "PG_STATUS_INFO", "STR_P_PWBA_TEMP", none, none, none⟩,
  ⟨false, "ST_SIGNED", "PT_VOL", "NO_UNIT", 2, 1, "PARAM_NULL", "PG_NULL", "STR_P_TEMP_SIM", none, none, none⟩,
  ⟨false, "ST_UNSIGNED", "PT_RO", "NO_UNIT", 2, 1, "PARAM_NULL", "PG_NULL", "STR_P_DSP_INFO", none, none, none⟩,
  ⟨false, "ST_UNSIGNED", "PT_RO_RT", "CURRENT", 4, 2 ^ 31, "PARAM_IB", "PG_STATUS_INFO", "STR_P_IB_RMS", some .convertAmpsRMS, none, none⟩,
  ⟨false, "ST_UNSIGNED", "PT_RO_RT", "TIME_USEC", 4, 1000, "PARAM_TSPD", "PG_NON_DISPLAY", "STR_P_TSPD", none, none, none⟩,
  ⟨false, "ST_UNSIGNED", "PT_RO_RT", "NO_UNIT", 4, 1, "PARAM_NULL", "PG_NULL", "STR_P_BAD_TSPD_CNT", none, none, none⟩,
  ⟨false, "ST_UNSIGNED", "PT_RO_RT", "NO_UNIT", 4, 1, "PARAM_NULL", "PG_NULL", "STR_P_BAD_SLOT_CNT", none, none, none⟩,
  ⟨false, "ST_UNSIGNED", "PT_RO_RT", "NO_UNIT", 4, 1, "PARAM_NULL", "PG_NULL", "STR_P_LOAD_SLOT0", none, none, none⟩,
  ⟨false, "ST_UNSIGNED", "PT_RO_RT", "NO_UNIT", 4, 1, "PARAM_NULL", "PG_NULL", "STR_P_LOAD_SLOT1", none, none, none⟩,
  ⟨false, "ST_UNSIGNED", "PT_RO_RT", "NO_UNIT", 4, 1, "PARAM_NULL", "PG_NULL", "STR_P_LOAD_SLOT2", none, none, none⟩,
  ⟨false, "ST_UNSIGNED", "PT_RO_RT", "NO_UNIT", 4, 1, "PARAM_NULL", "PG_NULL", "STR_P_LOAD_SLOT3", none, none, none⟩,
  ⟨false, "ST_UNSIGNED", "PT_RO_RT", "NO_UNIT", 4, 1, "PARAM_NULL", "PG_NULL", "STR_P_AVG_LOAD", none, none, none⟩,
  ⟨false, "ST_SIGNED", "PT_NONE", "NO_UNIT", 4, 1, "PARAM_NULL", "PG_NULL", "STR_UNKNOWN", none, none, none⟩]

/-- Rows 48 to 63 of `cpmDrvInfoDB` (index comments 304 to 319). -/
def cpmDrvInfoDB.rows48 : List paramInfoLcl := [
  ⟨false, "ST_UNSIGNED", "PT_RO_RT", "NO_UNIT", 2, 1, "PARAM_NULL", "PG_NULL", "STR_UNKNOWN", none, none, none⟩,
  ⟨false, "ST_UNSIGNED", "PT_RO_RT", "NO_UNIT", 4, 1, "PARAM_NULL", "PG_NULL", "STR_UNKNOWN", none, none, none⟩,
  ⟨false, "ST_UNSIGNED", "PT_RO_RT", "NO_UNIT", 4, 1, "PARAM_NULL", "PG_NULL", "STR_P_IR_OFFSET", none, none, none⟩,
  ⟨false, "ST_UNSIGNED", "PT_RO_RT", "NO_UNIT", 4, 1, "PARAM_NULL", "PG_NULL", "STR_P_IS_OFFSET", none, none, none⟩,
  ⟨false, "ST_POS_ONLY", "PT_FAC", "DEG_C", 2, 1, "PARAM_TEMP_LIM", "PG_FACTORY_SETTINGS", "STR_P_OVER_TEMP", none, none, none⟩,
  ⟨false, "ST_SIGNED", "PT_CFG_T", "NO_UNIT", 2, 1, "PARAM_KIP_ADJ", "PG_TUNING_INFO", "STR_DRV_KIP", none, none, none⟩,
  ⟨false, "ST_POS_ONLY", "PT_MTR", "CNTS_PER_REV", 4, 1, "PARAM_ENC_DENS", "PG_MOTOR_INFO", "STR_DRV_ENC_DENS", none, some "FW_MILESTONE_ALL_VERS", some "HW2_NON_OVERRIDE"⟩,
  ⟨false, "ST_POS_ONLY", "PT_MTR", "NO_UNIT", 2, 1, "PARAM_POLES", "PG_MOTOR_INFO", "STR_DRV_POLES", none, some "FW_MILESTONE_ALL_VERS", some "HW2_NON_OVERRIDE"⟩,
  ⟨false, "ST_POS_ONLY", "PT_MTR", "VPEAK_PER_KRPM", 4, 2 ^ 7, "PARAM_MTR_KE", "PG_MOTOR_INFO", "STR_DRV_MTR_KE", none, some "FW_MILESTONE_ALL_VERS", some "HW2_NON_OVERRIDE"⟩,
  ⟨false, "ST_POS_ONLY", "PT_MTR", "OHM", 2, 2 ^ 9, "PARAM_MTR_OHMS", "PG_MOTOR_INFO", "STR_DRV_MTR_OHMS", none, some "FW_MILESTONE_ALL_VERS", some "HW2_NON_OVERRIDE"⟩,
  ⟨false, "ST_POS_ONLY", "PT_MTR", "TIME_MSEC", 2, 2 ^ 9, "PARAM_MTR_ELECT_TC", "PG_MOTOR_INFO", "STR_DRV_MTR_ELEC_TC", none, some "FW_MILESTONE_ALL_VERS", some "HW2_NON_OVERRIDE"⟩,
  ⟨false, "ST_SIGNED", "PT_FMTR", "DEGREES", 2, 32768 / 360, "PARAM_RO", "PG_MOTOR_INFO", "STR_DRV_RO", none, none, none⟩,
  ⟨false, "ST_UNSIGNED", "PT_NONE", "NO_UNIT", 0, 1, "PARAM_NULL", "PG_NULL", "STR_NULL", none, none, none⟩,
  ⟨false, "ST_POS_ONLY", "PT_FAC_RT", "DEGREES", 4, 1, "PARAM_MECH_ANGLE", "PG_NON_DISPLAY", "STR_DRV_ANGLE", some .convertAngle, none, none⟩,
  ⟨false, "ST_POS_ONLY", "PT_CFG_T", "NO_UNIT", 2, 1, "PARAM_KIP", "PG_TUNING_INFO", "STR_DRV_KIP", none, none, none⟩,
  ⟨false, "ST_POS_ONLY", "PT_CFG_T", "NO_UNIT", 2, 1, "PARAM_KII", "PG_TUNING_INFO", "STR_DRV_KII", none, none, none⟩]

/-- Rows 64 to 79 of `cpmDrvInfoDB` (index comments 320 to 335). -/
def cpmDrvInfoDB.rows64 : List paramInfoLcl := [
  ⟨false, "ST_POS_ONLY", "PT_CFG", "CNTS_PER_REV", 4, 1, "PARAM_STEP_RES", "PG_MODE_INFO", "STR_DRV_CMD_DENS", none, none, none⟩,
  ⟨false, "ST_SIGNED", "PT_FMTR", "VEL_TICKS_S", 2, 2 ^ 2, "PARAM_INDEX_DETECT_SPEED", "PG_FACTORY_SETTINGS", "STR_DRV_SPEED_LIM", some .convertSpdLim, some "FW_MILESTONE_INDEX_IB", some "HW2_NON_OVERRIDE"⟩,
  ⟨false, "ST_POS_ONLY", "PT_FMTR", "CNTS_PER_REV", 4, 1, "PARAM_STEP_RES_ACTIVE", "PG_DRIVE_INFO", "STR_UNKNOWN", none, some "FW_MILESTONE_ALL_VERS", some "HW2_NON_OVERRIDE"⟩,
  ⟨false, "ST_POS_ONLY", "PT_CFG_T", "NO_UNIT", 2, 2 ^ 9, "PARAM_KR", "PG_TUNING_INFO", "STR_DRV_KR", none, none, none⟩,
  ⟨false, "ST_SIGNED", "PT_CFG_T", "NO_UNIT", 2, 1, "PARAM_KII_ADJ", "PG_TUNING_INFO", "STR_DRV_KII", none, none, none⟩,
  ⟨false, "ST_SIGNED", "PT_CFG_T", "BIT_FIELD", 4, 1, "PARAM_CFG_TUNE", "PG_TUNING_INFO", "STR_PARAM_CFG_TUNE", none, none, none⟩,
  ⟨false, "ST_POS_ONLY", "PT_CFG_T", "NO_UNIT", 4, 1, "PARAM_KV", "PG_TUNING_INFO", "STR_DRV_KV", none, none, none⟩,
  ⟨false, "ST_POS_ONLY", "PT_CFG_T", "NO_UNIT", 4, 1, "PARAM_KP_OUT", "PG_TUNING_INFO", "STR_DRV_KP", none, none, none⟩,
  ⟨false, "ST_POS_ONLY", "PT_CFG_T", "NO_UNIT", 4, 1, "PARAM_KI_OUT", "PG_TUNING_INFO", "STR_DRV_KI", none, none, none⟩,
  ⟨false, "ST_SIGNED", "PT_CFG_T", "NO_UNIT", 4, 1, "PARAM_KFV", "PG_TUNING_INFO", "STR_DRV_KFV", none, none, none⟩,
  ⟨false, "ST_POS_ONLY", "PT_CFG_T", "NO_UNIT", 4, 1, "PARAM_KFA", "PG_TUNING_INFO", "STR_DRV_KFA", some .limit2To27, none, none⟩,
  ⟨false, "ST_POS_ONLY", "PT_CFG_T", "NO_UNIT", 4, 1, "PARAM_KFJ", "PG_TUNING_INFO", "STR_DRV_KFJ", some .limit2To27, none, none⟩,
  ⟨false, "ST_SIGNED", "PT_RO_RT", "BIT_FIELD", 4, 1, "PARAM_NULL", "PG_NULL", "STR_UNKNOWN", none, none, none⟩,
  ⟨false, "ST_POS_ONLY", "PT_CFG_T", "NO_UNIT", 4, 1, "PARAM_KNV", "PG_TUNING_INFO", "STR_DRV_KNV", none, none, none⟩,
  ⟨false, "ST_UNSIGNED", "PT_CFG_T", "TIME_MSEC", 2, 1, "PARAM_AH_VOLT_FILT_TC", "PG_TUNING_INFO", "STR_DRV_AH_FILT_TC", some .convertVectorFilt99pctMilliseconds, none, none⟩,
  ⟨false, "ST_SIGNED", "PT_CFG_T", "TORQUE_LIMIT", 2, 2 ^ 15, "PARAM_TRQ_BIAS", "PG_TUNING_INFO", "STR_DRV_TRQ_BIAS", some .convertAmperes, none, none⟩]

/-- Rows 80 to 95 of `cpmDrvInfoDB` (index comments 336 to 351). -/
def cpmDrvInfoDB.rows80 : List paramInfoLcl := [
  ⟨false, "ST_POS_ONLY", "PT_CFG_T", "DX_TICK", 2, 1, "PARAM_FUZZY_APERTURE", "PG_TUNING_INFO", "STR_DRV_FUZZ_AP", none, none, none⟩,
  ⟨false, "ST_POS_ONLY", "PT_CFG_T", "DX_TICK", 2, 1, "PARAM_ANTI_HUNT_HYSTERESIS", "PG_TUNING_INFO", "STR_DRV_FUZZ_HYST", none, none, none⟩,
  ⟨false, "ST_POS_ONLY", "PT_CFG_T", "TIME_MSEC", 2, 1, "PARAM_AH_HOLDOFF", "PG_TUNING_INFO", "STR_DRV_AH_HOLDOFF", some .convertTimeMS, none, none⟩,
  ⟨false, "ST_POS_ONLY", "PT_CFG_T", "NO_UNIT", 4, 1, "PARAM_KP_ZERO", "PG_TUNING_INFO", "STR_DRV_KZERO", none, none, none⟩,
  ⟨false, "ST_POS_ONLY", "PT_CFG_T", "NO_UNIT", 4, 1, "PARAM_KI_ZERO", "PG_TUNING_INFO", "STR_DRV_IZERO", none, none, none⟩,
  ⟨false, "ST_POS_ONLY", "PT_CFG_T", "DX_TICK", 2, 1, "PARAM_TGT_WIN", "PG_TUNING_INFO", "STR_DRV_TARGET_WIN", none, none, none⟩,
  ⟨false, "ST_POS_ONLY", "PT_CFG_T", "DX_TICK", 2, 1, "PARAM_STAB_WIN", "PG_TUNING_INFO", "STR_DRV_STAB_WIN", none, none, none⟩,
  ⟨false, "ST_UNSIGNED", "PT_NV_RW", "NO_UNIT", 4, 1, "PARAM_NULL", "PG_NULL", "STR_MTR_INERTIA", none, none, none⟩,
  ⟨false, "ST_UNSIGNED", "PT_NV_RW", "NO_UNIT", 4, 1, "PARAM_NULL", "PG_NULL", "STR_MTR_STAT_FRICTION", none, none, none⟩,
  ⟨false, "ST_UNSIGNED", "PT_NV_RW", "NO_UNIT", 4, 1, "PARAM_NULL", "PG_NULL", "STR_MTR_VISC_FRICTION", none, none, none⟩,
  ⟨false, "ST_POS_ONLY", "PT_CFG_T", "NO_UNIT", 4, 2 ^ 16, "PARAM_DRV_KP_FACTOR", "PG_TUNING_INFO", "STR_UNKNOWN", none, none, none⟩,
  ⟨false, "ST_POS_ONLY", "PT_CFG_T", "NO_UNIT", 4, 2 ^ 16, "PARAM_DRV_KPZ_FACTOR", "PG_TUNING_INFO", "STR_UNKNOWN", none, none, none⟩,
  ⟨false, "ST_POS_ONLY", "PT_CFG_T", "NO_UNIT", 4, 2 ^ 16, "PARAM_DRV_KI_FACTOR", "PG_TUNING_INFO", "STR_UNKNOWN", none, none, none⟩,
  ⟨false, "ST_UNSIGNED", "PT_CFG_T", "NO_UNIT", 2, 1, "PARAM_DRV_FINE_TUNE", "PG_TUNING_INFO", "STR_UNKNOWN", none, none, none⟩,
  ⟨false, "ST_POS_ONLY", "PT_CFG", "TORQUE_LIMIT", 2, 2 ^ 15, "PARAM_TRQ_LIM", "PG_SAFETY_INFO", "STR_DRV_TRQ_LIM", some .convertAmperes, none, none⟩,
  ⟨false, "ST_POS_ONLY", "PT_CFGA", "TORQUE_LIMIT", 2, 2 ^ 15, "PARAM_TRQ_FLDBACK_POS", "PG_FOLDBACK_INFO", "STR_DRV_TRQ_FLDBACK_POS", some .convertAmperes, none, none⟩]

/-- Rows 96 to 111 of `cpmDrvInfoDB` (index comments 352 to 367). -/
def cpmDrvInfoDB.rows96 : List paramInfoLcl := [
  ⟨false, "ST_POS_ONLY", "PT_CFGA", "TIME_MSEC", 2, 1, "PARAM_TRQ_FLDBACK_POS_TC", "PG_FOLDBACK_INFO", "STR_DRV_TRQ_FB_POS_TC", some .convertFilt99pctMilliseconds, none, none⟩,
  ⟨false, "ST_POS_ONLY", "PT_CFGA", "TORQUE_LIMIT", 2, 2 ^ 15, "PARAM_TRQ_FLDBACK_NEG", "PG_FOLDBACK_INFO", "STR_DRV_TRQ_FLDBACK_NEG", some .convertAmperes, none, none⟩,
  ⟨false, "ST_POS_ONLY", "PT_CFGA", "TIME_MSEC", 2, 1, "PARAM_TRQ_FLDBACK_NEG_TC", "PG_FOLDBACK_INFO", "STR_DRV_TRQ_FB_NEG_TC", some .convertFilt99pctMilliseconds, none, none⟩,
  ⟨false, "ST_UNSIGNED", "PT_NONE", "NO_UNIT", 0, 1, "PARAM_NULL", "PG_NULL", "STR_UNKNOWN", none, none, none⟩,
  ⟨false, "ST_UNSIGNED", "PT_NONE", "NO_UNIT", 0, 1, "PARAM_NULL", "PG_NULL", "STR_UNKNOWN", none, none, none⟩,
  ⟨false, "ST_POS_ONLY", "PT_CFG", "TORQUE_LIMIT", 2, 2 ^ 15, "PARAM_TRQ_FLDBACK_HS", "PG_FOLDBACK_INFO", "STR_DRV_HS_FLDBACK", some .convertAmperes, none, none⟩,
  ⟨false, "ST_POS_ONLY", "PT_CFG", "TIME_MSEC", 2, 1, "PARAM_TRQ_FLDBACK_HS_TC", "PG_FOLDBACK_INFO", "STR_DRV_HS_FB_TC", some .convertFilt99pctMilliseconds, none, none⟩,
  ⟨false, "ST_POS_ONLY", "PT_CFG", "VEL_TICKS_S", 4, 2 ^ 18, "PARAM_HS_STOP_VEL", "PG_HOMING", "STR_DRV_HS_QUAL_SPEED", some .convertVel, none, none⟩,
  ⟨false, "ST_POS_ONLY", "PT_CFG", "PCNT_TRQ_LIM", 2, 2 ^ 15 / 100, "PARAM_HS_THRESHOLD", "PG_HOMING", "STR_DRV_HS_TRQ_TRIP", none, none, none⟩,
  ⟨false, "ST_POS_ONLY", "PT_CFG", "TIME_MSEC", 2, 1, "PARAM_HS_TC", "PG_HOMING", "STR_DRV_HS_TC", some .convertTimeMS, none, none⟩,
  ⟨false, "ST_POS_ONLY", "PT_CFG", "VOLT", 2, 2 ^ 5, "PARAM_REGEN_OFF_V", "PG_SPECIAL_FUNCTIONS", "STR_UNKNOWN", none, some "FW_MILESTONE_AC_GREEN", none⟩,
  ⟨false, "ST_POS_ONLY", "PT_CFG", "TORQUE_LIMIT", 2, 2 ^ 15, "PARAM_HOMING_TRQ_LIM", "PG_HOMING", "STR_DRV_HS_TRQ_LIM", some .convertAmperes, none, none⟩,
  ⟨false, "ST_POS_ONLY", "PT_MTR", "TIME_MIN", 2, 1, "PARAM_RMS_SLOW_TC", "PG_MOTOR_INFO", "STR_DRV_RMS_TC", some .convertRMSSlowtc, some "FW_MILESTONE_DUAL_RMS", none⟩,
  ⟨false, "ST_SIGNED", "PT_ML_FAC", "DX_TICK", 4, 1, "PARAM_ACC_ENH_PHASE", "PG_FACTORY_SETTINGS", "STR_UNKNOWN", none, none, none⟩,
  ⟨false, "ST_SIGNED", "PT_ML_FAC", "DX_TICK", 4, 1, "PARAM_ACC_ENH_AMPL", "PG_FACTORY_SETTINGS", "STR_UNKNOWN", none, none, none⟩,
  ⟨false, "ST_POS_ONLY", "PT_RO_RT", "NO_UNIT", 4, 1, "PARAM_MECH_POSN", "PG_NON_DISPLAY", "STR_UNKNOWN", none, none, none⟩]

/-- Rows 112 to 127 of `cpmDrvInfoDB` (index comments 368 to 383). -/
def cpmDrvInfoDB.rows112 : List paramInfoLcl := [
  ⟨false, "ST_UNSIGNED", "PT_CFG", "TIME_MSEC", 2, 1, "PARAM_DLY_TO_DISABLE", "PG_SAFETY_INFO", "STR_UNKNOWN", some .convertTimeMS, none, none⟩,
  ⟨false, "ST_SIGNED", "PT_FAC", "UNIT_HZ", 4, 1, "PARAM_SOFT_START_FREQ", "PG_FACTORY_SETTINGS", "STR_UNKNOWN", none, some "FW_MILESTONE_SC_VBUS_ADJ", none⟩,
  ⟨false, "ST_POS_ONLY", "PT_CFG", "TIME_MSEC", 2, 1, "PARAM_REGEN_PWR_TC", "PG_SPECIAL_FUNCTIONS", "STR_UNKNOWN", some .convertFilt99pctMilliseconds, some "FW_MILESTONE_AC_GREEN", none⟩,
  ⟨false, "ST_POS_ONLY", "PT_CFG", "VOLT", 2, 2 ^ 5, "PARAM_REGEN_ON_V", "PG_SPECIAL_FUNCTIONS", "STR_UNKNOWN", none, some "FW_MILESTONE_AC_GREEN", none⟩,
  ⟨false, "ST_POS_ONLY", "PT_CFG", "TIME_MSEC", 2, 1, "PARAM_BUSV_ADJ_RATE", "PG_SPECIAL_FUNCTIONS", "STR_UNKNOWN", none, some "FW_MILESTONE_SC_VBUS_ADJ", none⟩,
  ⟨false, "ST_POS_ONLY", "PT_RAM_RT", "NO_UNIT", 4, 2 ^ 16, "PARAM_NULL", "PG_NON_DISPLAY", "STR_UNKNOWN", some .convertVel, none, none⟩,
  ⟨false, "ST_POS_ONLY", "PT_RAM_RT", "NO_UNIT", 2, 1, "PARAM_NULL", "PG_NON_DISPLAY", "STR_UNKNOWN", none, none, none⟩,
  ⟨false, "ST_SIGNED", "PT_RAM_RT", "BIT_FIELD", 4, 1, "PARAM_SET_FLAGS", "PG_NON_DISPLAY", "STR_UNKNOWN", none, none, none⟩,
  ⟨false, "ST_UNSIGNED", "PT_RAM", "VOLT", 2, 32768 / (33 / 10), "PARAM_NULL", "PG_NULL", "STR_PARAM_TP_REF_SIM", none, none, none⟩,
  ⟨false, "ST_UNSIGNED", "PT_RAM", "VOLT", 2, 2 ^ 15, "PARAM_NULL", "PG_NULL", "STR_DRV_BUS_VOLTS_SIM", some .convertMeasVolts, none, none⟩,
  ⟨false, "ST_UNSIGNED", "PT_RAM", "BIT_FIELD", 4, 1, "PARAM_RUNTIME_FLAGS", "PG_NON_DISPLAY", "STR_UNKNOWN", none, none, none⟩,
  ⟨false, "ST_SIGNED", "PT_RO", "DEG_C", 2, 2 ^ 6, "PARAM_UNDER_TEMP_TRIP", "PG_FACTORY_SETTINGS", "STR_UNKNOWN", none, none, none⟩,
  ⟨false, "ST_SIGNED", "PT_RO_RT", "DEG_C", 2, 2 ^ 6, "PARAM_ENCODER_TEMP", "PG_STATUS_INFO", "STR_UNKNOWN", none, none, none⟩,
  ⟨false, "ST_SIGNED", "PT_RO_RT", "DEG_C", 2, 2 ^ 6, "PARAM_STATOR_TEMP", "PG_STATUS_INFO", "STR_UNKNOWN", none, none, none⟩,
  ⟨false, "ST_SIGNED", "PT_RO", "DEG_C", 2, 2 ^ 6, "PARAM_STATOR_TEMP_TRIP", "PG_FACTORY_SETTINGS", "STR_UNKNOWN", none, none, none⟩,
  ⟨false, "ST_SIGNED", "PT_RO", "DEG_C", 2, 2 ^ 6, "PARAM_STATOR_TEMP_WARN", "PG_FACTORY_SETTINGS", "STR_UNKNOWN", none, none, none⟩]

/-- The table `cpmDrvInfoDB`: the descriptors of bank 1, the drive parameters. -/
def cpmDrvInfoDB : List paramInfoLcl :=
  cpmDrvInfoDB.rows0 ++ cpmDrvInfoDB.rows16 ++ cpmDrvInfoDB.rows32 ++
    cpmDrvInfoDB.rows48 ++ cpmDrvInfoDB.rows64 ++ cpmDrvInfoDB.rows80 ++
    cpmDrvInfoDB.rows96 ++ cpmDrvInfoDB.rows112

/-- Rows 0 to 15 of `cpmAppInfoDB` (index comments 512 to 527). -/
def cpmAppInfoDB.rows0 : List paramInfoLcl := [
  ⟨false, "ST_SIGNED", "PT_CFG", "VEL_TICKS_S", 4, 2 ^ 17, "PARAM_ABSPOSN_HOMING_VEL", "PG_HOMING", "STR_HOME_VEL", some .convertVel, none, none⟩,
  ⟨false, "ST_POS_ONLY", "PT_CFG", "DX_TICK", 4, 1, "PARAM_HOMING_OFFSET", "PG_HOMING", "STR_HOME_OFFS", none, none, none⟩,
  ⟨false, "ST_POS_ONLY", "PT_CFG", "VEL_TICKS_S2", 4, 2 ^ 17, "PARAM_HOMING_ACCEL", "PG_HOMING", "STR_HOME_ACCEL", some .convertAcc, none, none⟩,
  ⟨false, "ST_UNSIGNED", "PT_NONE", "NO_UNIT", 0, 1, "PARAM_NULL", "PG_NULL", "STR_UNKNOWN", none, none, none⟩,
  ⟨false, "ST_POS_ONLY", "PT_CFG", "TIME_MSEC", 2, 1, "PARAM_HS_DELAY_TIME", "PG_HOMING", "STR_HOME_DELAY", some .convertTimeMS, none, none⟩,
  ⟨false, "ST_SIGNED", "PT_CFG", "BIT_FIELD", 12, 1, "PARAM_EVENT_SHUTDOWN_MASK", "PG_CONFIGURATION_INFO", "STR_UNKNOWN", none, some "FW_MILESTONE_CL_MIN_VOLT", none⟩,
  ⟨false, "ST_POS_ONLY", "PT_CFG", "TIME_MSEC", 2, 1, "PARAM_PWR_AC_LOSS_TC", "PG_SAFETY_INFO", "STR_UNKNOWN", some .convertTimeMS, some "FW_MILESTONE_CL_MIN_VOLT", none⟩,
  ⟨false, "ST_POS_ONLY", "PT_CFG", "TIME_MSEC", 2, 1, "PARAM_PWR_AC_WIRING_ERROR_TC", "PG_SAFETY_INFO", "STR_UNKNOWN", some .convertTimeMS, some "FW_MILESTONE_CL_MIN_VOLT", none⟩,
  ⟨false, "ST_POS_ONLY", "PT_FAC", "VOLT", 2, 2 ^ 5, "PARAM_BUS_V_LOW", "PG_DRIVE_INFO", "STR_SLESS_MIN_VOLTS", none, none, none⟩,
  ⟨false, "ST_POS_ONLY", "PT_CFG", "TIME_MSEC", 2, 1, "PARAM_POWERUP_HOLDOFF_TIME", "PG_MISCELLANEOUS_INFO", "STR_UNKNOWN", some .convertTimeMS, none, none⟩,
  ⟨false, "ST_UNSIGNED", "PT_FAC", "VOLT", 2, 2 ^ 5, "PARAM_COMM_LOW_V", "PG_FACTORY_SETTINGS", "STR_COMM_LOW_V", none, some "FW_MILESTONE_SC_HAS_LPB", none⟩,
  ⟨false, "ST_POS_ONLY", "PT_FAC", "TIME_MSEC", 2, 1, "PARAM_IB_TC_SLOW", "PG_FACTORY_SETTINGS", "STR_P_IB_FILT_TC", some .convertIBRMSSlowtc, some "FW_MILESTONE_SC_MIN_VOLT", none⟩,
  ⟨false, "ST_UNSIGNED", "PT_NONE", "NO_UNIT", 0, 1, "PARAM_NULL", "PG_NULL", "STR_UNKNOWN", none, none, none⟩,
  ⟨false, "ST_UNSIGNED", "PT_NONE", "NO_UNIT", 0, 1, "PARAM_NULL", "PG_NULL", "STR_UNKNOWN", none, none, none⟩,
  ⟨false, "ST_UNSIGNED", "PT_NONE", "NO_UNIT", 0, 1, "PARAM_NULL", "PG_NULL", "STR_UNKNOWN", none, none, none⟩,
  ⟨false, "ST_UNSIGNED", "PT_NONE", "NO_UNIT", 0, 1, "PARAM_NULL", "PG_NULL", "STR_UNKNOWN", none, none, none⟩]

/-- Rows 16 to 31 of `cpmAppInfoDB` (index comments 528 to 543). -/
def cpmAppInfoDB.rows16 (H : TableSizes) : List paramInfoLcl := [
  ⟨false, "ST_UNSIGNED", "PT_NONE", "NO_UNIT", 0, 1, "PARAM_NULL", "PG_NULL", "STR_UNKNOWN", none, none, none⟩,
  ⟨false, "ST_UNSIGNED", "PT_NONE", "NO_UNIT", 0, 1, "PARAM_NULL", "PG_NULL", "STR_UNKNOWN", none, none, none⟩,
  ⟨false, "ST_UNSIGNED", "PT_NONE", "NO_UNIT", 0, 1, "PARAM_NULL", "PG_NULL", "STR_UNKNOWN", none, none, none⟩,
  ⟨false, "ST_UNSIGNED", "PT_NONE", "NO_UNIT", 0, 1, "PARAM_NULL", "PG_NULL", "STR_UNKNOWN", none, none, none⟩,
  ⟨false, "ST_UNSIGNED", "PT_NONE", "NO_UNIT", 0, 1, "PARAM_NULL", "PG_NULL", "STR_UNKNOWN", none, none, none⟩,
  ⟨false, "ST_SIGNED", "PT_RO_RT", "NO_UNIT", 4, 1, "PARAM_INDEX_COUNT", "PG_DRIVE_INFO", "STR_UNKNOWN", none, none, none⟩,
  ⟨false, "ST_UNSIGNED", "PT_NONE", "NO_UNIT", 0, 1, "PARAM_NULL", "PG_NULL", "STR_UNKNOWN", none, none, none⟩,
  ⟨false, "ST_UNSIGNED", "PT_NONE", "NO_UNIT", 0, 1, "PARAM_NULL", "PG_NULL", "STR_UNKNOWN", none, none, none⟩,
  ⟨false, "ST_UNSIGNED", "PT_NONE", "NO_UNIT", 0, 1, "PARAM_NULL", "PG_NULL", "STR_UNKNOWN", none, none, none⟩,
  ⟨false, "ST_UNSIGNED", "PT_NONE", "NO_UNIT", 0, 1, "PARAM_NULL", "PG_NULL", "STR_UNKNOWN", none, none, none⟩,
  ⟨false, "ST_UNSIGNED", "PT_NONE", "NO_UNIT", 0, 1, "PARAM_NULL", "PG_NULL", "STR_UNKNOWN", none, none, none⟩,
  ⟨false, "ST_UNSIGNED", "PT_NONE", "NO_UNIT", 0, 1, "PARAM_NULL", "PG_NULL", "STR_UNKNOWN", none, none, none⟩,
  ⟨false, "ST_UNSIGNED", "PT_NV_RW", "NO_UNIT", H.SC_USER_DESCR_CHUNK, 1, "PARAM_NULL", "PG_NULL", "STR_USR_DESC0", none, none, none⟩,
  ⟨false, "ST_UNSIGNED", "PT_NV_RW", "NO_UNIT", H.SC_USER_DESCR_CHUNK, 1, "PARAM_NULL", "PG_NULL", "STR_USR_DESC1", none, none, none⟩,
  ⟨false, "ST_UNSIGNED", "PT_NV_RW", "NO_UNIT", H.SC_USER_DESCR_CHUNK, 1, "PARAM_NULL", "PG_NULL", "STR_USR_DESC2", none, none, none⟩,
  ⟨false, "ST_UNSIGNED", "PT_NV_RW", "NO_UNIT", H.SC_USER_DESCR_CHUNK, 1, "PARAM_NULL", "PG_NULL", "STR_USR_DESC3", none, none, none⟩]

/-- Rows 32 to 47 of `cpmAppInfoDB` (index comments 544 to 559). -/
def cpmAppInfoDB.rows32 (H : TableSizes) : List paramInfoLcl := [
  ⟨false, "ST_UNSIGNED", "PT_NV_RW", "NO_UNIT", H.SC_USER_DESCR_CHUNK, 1, "PARAM_NULL", "PG_NULL", "STR_USR_DESC4", none, none, none⟩,
  ⟨false, "ST_SIGNED", "PT_CFG", "BIT_FIELD", 2, 1, "PARAM_XPS_OUT_SRC_REG", "PG_NON_DISPLAY", "STR_XPS_OUTPUT_SRC_REG", none, none, none⟩,
  ⟨false, "ST_SIGNED", "PT_CFG", "BIT_FIELD", 2, 1, "PARAM_XPS_IN_SRC_REG", "PG_IO_INFO", "STR_UNKNOWN", none, none, none⟩,
  ⟨false, "ST_UNSIGNED", "PT_NONE", "NO_UNIT", 2, 1, "PARAM_NULL", "PG_NULL", "STR_UNKNOWN", none, none, none⟩,
  ⟨false, "ST_SIGNED", "PT_CFG", "BIT_FIELD", 2, 1, "PARAM_XPS_USER_IN_REG", "PG_IO_INFO", "STR_UNKNOWN", none, none, none⟩,
  ⟨false, "ST_SIGNED", "PT_RO_RT", "BIT_FIELD", 2, 1, "PARAM_XPS_ACTUAL_IN_REG", "PG_NON_DISPLAY", "STR_UNKNOWN", none, none, none⟩,
  ⟨false, "ST_SIGNED", "PT_CFG", "BIT_FIELD", 2, 1, "PARAM_XPS_INVERT_INPUT", "PG_NON_DISPLAY", "STR_XPS_INVERT_INPUT", none, none, none⟩,
  ⟨false, "ST_SIGNED", "PT_CFG", "BIT_FIELD", 2, 1, "PARAM_XPS_INVERT_OUTPUT", "PG_NON_DISPLAY", "STR_XPS_INVERT_OUTPUT", none, none, none⟩,
  ⟨false, "ST_UNSIGNED", "PT_NV_RW", "NO_UNIT", 2, 1, "PARAM_NULL", "PG_NULL", "STR_XPS_FEAT_00", none, none, none⟩,
  ⟨false, "ST_UNSIGNED", "PT_NV_RW", "NO_UNIT", 2, 1, "PARAM_NULL", "PG_NULL", "STR_XPS_FEAT_01", none, none, none⟩,
  ⟨false, "ST_SIGNED", "PT_CFG", "BIT_FIELD", 2, 1, "PARAM_XPS_FEAT_ENABLE", "PG_NON_DISPLAY", "STR_XPS_FEAT_02", none, none, none⟩,
  ⟨false, "ST_UNSIGNED", "PT_NV_RW", "NO_UNIT", 2, 1, "PARAM_NULL", "PG_NULL", "STR_XPS_FEAT_03", none, none, none⟩,
  ⟨false, "ST_SIGNED", "PT_CFGA", "BIT_FIELD", 2, 1, "PARAM_XPS_FEAT_TRIGGER", "PG_NON_DISPLAY", "STR_XPS_FEAT_04", none, none, none⟩,
  ⟨false, "ST_SIGNED", "PT_CFG", "BIT_FIELD", 2, 1, "PARAM_XPS_FEAT_NODE_STOP", "PG_NON_DISPLAY", "STR_XPS_FEAT_05", none, none, none⟩,
  ⟨false, "ST_SIGNED", "PT_CFG", "BIT_FIELD", 2, 1, "PARAM_XPS_FEAT_RESET_TIMER", "PG_NON_DISPLAY", "STR_XPS_FEAT_06", none, none, none⟩,
  ⟨false, "ST_SIGNED", "PT_CFG", "BIT_FIELD", 2, 1, "PARAM_XPS_FEAT_ATTN0", "PG_NON_DISPLAY", "STR_XPS_FEAT_07", none, none, none⟩]

/-- Rows 48 to 63 of `cpmAppInfoDB` (index comments 560 to 575). -/
def cpmAppInfoDB.rows48 : List paramInfoLcl := [
  ⟨false, "ST_SIGNED", "PT_CFG", "BIT_FIELD", 2, 1, "PARAM_XPS_FEAT_ATTN1", "PG_NON_DISPLAY", "STR_XPS_FEAT_08", none, none, none⟩,
  ⟨false, "ST_UNSIGNED", "PT_NV_RW", "NO_UNIT", 2, 1, "PARAM_NULL", "PG_NULL", "STR_XPS_FEAT_09", none, none, none⟩,
  ⟨false, "ST_UNSIGNED", "PT_NV_RW", "NO_UNIT", 2, 1, "PARAM_NULL", "PG_NULL", "STR_XPS_FEAT_10", none, none, none⟩,
  ⟨false, "ST_SIGNED", "PT_CFG", "BIT_FIELD", 2, 1, "PARAM_XPS_FEAT_AT_HOME", "PG_NON_DISPLAY", "STR_XPS_FEAT_11", none, none, none⟩,
  ⟨false, "ST_SIGNED", "PT_CFG", "BIT_FIELD", 2, 1, "PARAM_XPS_FEAT_POS_TRQ_FLBK", "PG_NON_DISPLAY", "STR_XPS_FEAT_12", none, none, none⟩,
  ⟨false, "ST_SIGNED", "PT_CFG", "BIT_FIELD", 2, 1, "PARAM_XPS_FEAT_NEG_TRQ_FLBK", "PG_NON_DISPLAY", "STR_XPS_FEAT_13", none, none, none⟩,
  ⟨false, "ST_SIGNED", "PT_CFG", "BIT_FIELD", 2, 1, "PARAM_XPS_FEAT_IN_POS_LIM", "PG_NON_DISPLAY", "STR_XPS_FEAT_14", none, none, none⟩,
  ⟨false, "ST_SIGNED", "PT_CFG", "BIT_FIELD", 2, 1, "PARAM_XPS_FEAT_IN_NEG_LIM", "PG_NON_DISPLAY", "STR_XPS_FEAT_15", none, none, none⟩,
  ⟨false, "ST_SIGNED", "PT_CFG", "DX_TICK", 4, 1, "PARAM_SOFT_LIM_POSN_1", "PG_MOTION_CONSTRAINTS", "STR_UNKNOWN", none, none, none⟩,
  ⟨false, "ST_SIGNED", "PT_CFG", "DX_TICK", 4, 1, "PARAM_SOFT_LIM_POSN_2", "PG_MOTION_CONSTRAINTS", "STR_UNKNOWN", none, none, none⟩,
  ⟨false, "ST_UNSIGNED", "PT_RAM_RT", "NO_UNIT", 2, 1, "PARAM_NULL", "PG_NULL", "STR_UNKNOWN", none, none, none⟩,
  ⟨false, "ST_UNSIGNED", "PT_RAM_RT", "NO_UNIT", 2, 1, "PARAM_NULL", "PG_NULL", "STR_UNKNOWN", none, none, none⟩,
  ⟨false, "ST_SIGNED", "PT_RO_RT", "BIT_FIELD", 4, 1, "PARAM_PWR_STATUS", "PG_STATUS_INFO", "STR_UNKNOWN", none, some "FW_MILESTONE_SC_HAS_AC_REG", none⟩,
  ⟨false, "ST_UNSIGNED", "PT_NONE", "NO_UNIT", 0, 1, "PARAM_NULL", "PG_NULL", "STR_UNKNOWN", none, none, none⟩,
  ⟨false, "ST_SIGNED", "PT_FAC", "NO_UNIT", 4, 1, "PARAM_DRV_PB_SER_NUM", "PG_DRIVE_INFO", "STR_UNKNOWN", none, none, none⟩,
  ⟨false, "ST_UNSIGNED", "PT_FAC", "HW_VERS", 2, 1, "PARAM_DRV_PB_REV", "PG_DRIVE_INFO", "STR_UNKNOWN", none, none, none⟩]

/-- Rows 64 to 71 of `cpmAppInfoDB` (index comments 576 to 583). -/
def cpmAppInfoDB.rows64 : List paramInfoLcl := [
  ⟨false, "ST_SIGNED", "PT_VOL", "NO_UNIT", 2, 1, "PARAM_NULL", "PG_NULL", "STR_P_TEMP_SIM", none, none, none⟩,
  ⟨false, "ST_UNSIGNED", "PT_NONE", "NO_UNIT", 0, 1, "PARAM_NULL", "PG_NULL", "STR_UNKNOWN", none, none, none⟩,
  ⟨false, "ST_POS_ONLY", "PT_CFG", "VOLT", 2, 2 ^ 5, "PARAM_DRV_MIN_OPER_VOLTS", "PG_DRIVE_INFO", "STR_UNKNOWN", none, some "FW_MILESTONE_SC_MIN_VOLT", none⟩,
  ⟨false, "ST_POS_ONLY", "PT_CFG", "DEG_C", 2, 1, "PARAM_TEMP_LIM_USER", "PG_DRIVE_INFO", "STR_UNKNOWN", none, some "FW_MILESTONE_SC_USER_TEMP", none⟩,
  ⟨false, "ST_SIGNED", "PT_CFG", "CURRENT_2", 2, 2 ^ 15, "PARAM_IB_TRIP_USER", "PG_DRIVE_INFO", "STR_P_IB_TRIP", some .convertAmpsRMS, some "FW_MILESTONE_INDEX_IB", none⟩,
  ⟨false, "ST_UNSIGNED", "PT_RAM_RT", "NO_UNIT", 2, 1, "PARAM_NULL", "PG_NULL", "STR_UNKNOWN", none, none, none⟩,
  ⟨false, "ST_UNSIGNED", "PT_RAM_RT", "NO_UNIT", 2, 1, "PARAM_NULL", "PG_NULL", "STR_UNKNOWN", none, none, none⟩,
  ⟨false, "ST_POS_ONLY", "PT_CFG", "DX_TICK", 4, 1, "PARAM_NULL", "PG_HOMING", "STR_UNKNOWN", none, some "FW_MILESTONE_2R0", none⟩]

/-- The table `cpmAppInfoDB`: the descriptors of bank 2, the application parameters. -/
def cpmAppInfoDB (H : TableSizes) : List paramInfoLcl :=
  cpmAppInfoDB.rows0 ++ cpmAppInfoDB.rows16 H ++ cpmAppInfoDB.rows32 H ++
    cpmAppInfoDB.rows48 ++ cpmAppInfoDB.rows64

/-- Rows 0 to 13 of `cpmApp20InfoDB` (index comments 768 to 781). -/
def cpmApp20InfoDB.rows0 : List paramInfoLcl := [
  ⟨false, "ST_SIGNED", "PT_NV_RW", "DX_TICK", 4, 1, "PARAM_SHAFT_HOME_TARGET", "PG_HOMING", "STR_UNKNOWN", none, some "FW_MILESTONE_2R0", none⟩,
  ⟨false, "ST_SIGNED", "PT_NV_RW_RT", "DX_TICK", 4, 1, "PARAM_PRECISION_HOME_POSN", "PG_HOMING", "STR_UNKNOWN", none, some "FW_MILESTONE_2R0", none⟩,
  ⟨false, "ST_SIGNED", "PT_RO_RT", "DX_TICK", 4, 1, "PARAM_PRECISION_HOME_LAST", "PG_HOMING", "STR_UNKNOWN", none, some "FW_MILESTONE_2R0", none⟩,
  ⟨false, "ST_UNSIGNED", "PT_NONE", "NO_UNIT", 0, 1, "PARAM_NULL", "PG_NULL", "STR_UNKNOWN", none, none, none⟩,
  ⟨false, "ST_UNSIGNED", "PT_NONE", "NO_UNIT", 0, 1, "PARAM_NULL", "PG_NULL", "STR_UNKNOWN", none, none, none⟩,
  ⟨false, "ST_UNSIGNED", "PT_NONE", "NO_UNIT", 0, 1, "PARAM_NULL", "PG_NULL", "STR_UNKNOWN", none, none, none⟩,
  ⟨false, "ST_UNSIGNED", "PT_NONE", "NO_UNIT", 0, 1, "PARAM_NULL", "PG_NULL", "STR_UNKNOWN", none, none, none⟩,
  ⟨false, "ST_UNSIGNED", "PT_NONE", "NO_UNIT", 0, 1, "PARAM_NULL", "PG_NULL", "STR_UNKNOWN", none, none, none⟩,
  ⟨false, "ST_UNSIGNED", "PT_NONE", "NO_UNIT", 0, 1, "PARAM_NULL", "PG_NULL", "STR_UNKNOWN", none, none, none⟩,
  ⟨false, "ST_UNSIGNED", "PT_NONE", "NO_UNIT", 0, 1, "PARAM_NULL", "PG_NULL", "STR_UNKNOWN", none, none, none⟩,
  ⟨false, "ST_POS_ONLY", "PT_NV_RW", "NO_UNIT", 4, 2 ^ 15, "PARAM_DHEAT_I", "PG_DRIVE_INFO", "STR_UNKNOWN", some .calcDHeatFact, some "FW_MILESTONE_2R0", none⟩,
  ⟨false, "ST_POS_ONLY", "PT_NV_RW", "NO_UNIT", 4, 2 ^ 15, "PARAM_DHEAT_K", "PG_DRIVE_INFO", "STR_UNKNOWN", none, some "FW_MILESTONE_2R0", none⟩,
  ⟨false, "ST_SIGNED", "PT_RO_RT", "BIT_FIELD", 4, 1, "PARAM_ML_MTR_STATUS_REG", "PG_STATUS_INFO", "STR_UNKNOWN", none, some "FW_MILESTONE_2R0", none⟩,
  ⟨false, "ST_POS_ONLY", "PT_RO_RT", "OHM", 2, 2 ^ 9, "PARAM_ML_PHS_RESISTANCE", "PG_MOTOR_INFO", "STR_UNKNOWN", none, some "FW_MILESTONE_2R0", none⟩]

/-- The table `cpmApp20InfoDB`: the descriptors of bank 3. -/
def cpmApp20InfoDB : List paramInfoLcl :=
  cpmApp20InfoDB.rows0

/-! ## The node database: `cpmClassDelete` and `cpmClassSetup` -/

/-- The cache entry `paramValue`: the field `value` the source file reads. -/
structure paramValue (α : Type) where
  value : α

/-- The bank `paramBank`: descriptor count, descriptor table, value cache (`none`: `NULL`). -/
structure paramBank (α : Type) where
  nParams : Nat
  fixedInfoDB : List paramInfoLcl
  valueDB : Option (List (paramValue α))

/-- The fields `fld.devType` and `fld.devModel` of the device id `devID_t`. -/
structure devID_t where
  devType : Nat
  devModel : Nat
  deriving DecidableEq, Repr

/-- The destructor a node record can point to. -/
inductive DelFunc where
  | cpmClassDelete
  deriving DecidableEq, Repr

/-- The class database a node record can point to. -/
inductive ClassInfo where
  | cpmClassDB
  deriving DecidableEq, Repr

/-- The node record `byNodeDB` (`SysInventory[cNum].NodeInfo[addr]`), by the fields the
source file touches; `none` is the null pointer. `pNodeSpecific` points to the `iscState`
of the node, of which the source uses the member `MonState`. -/
structure byNodeDB (α : Type) where
  paramBankList : Option (List (paramBank α))
  bankCount : Nat
  theID : devID_t
  pNodeSpecific : Option (monState α)
  delFunc : Option DelFunc
  pClassInfo : Option ClassInfo

/-- The constants of the header that the two functions use: the device types of a
ClearPath-SC, the id whose `devCode` is `NODEID_UNK`, and the wrong-node-type error. -/
structure NodeConsts where
  NODEID_CS : Nat
  NODEID_GS : Nat
  NODEID_EP : Nat
  NODEID_UNK : devID_t
  MN_ERR_WRONG_NODE_TYPE : cnErrCode

/-- What `cpmClassSetup` gets from outside the source file during one call: the answers
to the reads of `MN_P_NODEID` and `CPM_P_FW_VERS`, the `iscState` that `new iscState`
constructs, and the function `coreUpdateParamInfo` (code and node record after it). -/
structure SetupNet (α : Type) where
  nodeId : cnErrCode × devID_t
  fwVers : cnErrCode
  newIscState : monState α
  coreUpdateParamInfo : byNodeDB α → cnErrCode × byNodeDB α

/-- The zero-initialized node record. -/
def emptyNodeDB {α : Type} : byNodeDB α :=
  { paramBankList := none, bankCount := 0, theID := ⟨0, 0⟩, pNodeSpecific := none,
    delFunc := none, pClassInfo := none }

/-- One step of the loop of `cpmClassDelete`: `free(paramBankList[iBank].valueDB)` and
the store of `NULL`; `none` when `iBank` is outside the bank list. -/
def freeValueDB {α : Type} (iBank : Nat) (banks : List (paramBank α)) :
    Option (List (paramBank α)) :=
  if h : iBank < banks.length then
    some (banks.set iBank { banks[iBank] with valueDB := none })
  else none

/-- The function `cpmClassDelete`: delete any memory this node allocated. -/
def cpmClassDelete {α : Type} (C : NodeConsts) (pNodeDB : byNodeDB α) : Option (byNodeDB α) :=
  -- Delete if no one else has
  match pNodeDB.paramBankList with
  | some banks =>
    match forUp freeValueDB pNodeDB.bankCount 0 banks with
    | none => none
    | some _ =>
      some { pNodeDB with
        bankCount := 0
        theID := C.NODEID_UNK
        paramBankList := none
        pNodeSpecific := none }
  | none => some pNodeDB

/-- A bank as `cpmClassSetup` creates it: the table, its length (`sizeof` quotient) and a
zeroed value cache of that length. -/
def newBank {α : Type} [Zero α] (fixedInfoDB : List paramInfoLcl) : paramBank α :=
  { nParams := fixedInfoDB.length
    fixedInfoDB := fixedInfoDB
    valueDB := some (List.replicate fixedInfoDB.length ⟨0⟩) }

/-- The four banks `cpmClassSetup` installs: `PARAM_BASE_COUNT`, `PARAM_DRV_COUNT`,
`PARAM_APP_COUNT` and `PARAM_APP20_COUNT` descriptors. -/
def cpmBanks {α : Type} [Zero α] (H : TableSizes) : List (paramBank α) :=
  [newBank (cpmInfoDB H), newBank cpmDrvInfoDB, newBank (cpmAppInfoDB H),
    newBank cpmApp20InfoDB]

/-- The function `cpmClassSetup`: set up the parameter manager and node database for this
node. The result is the returned code and the node record; `none` when the call leaves
the bank list (in `cpmClassDelete`). The four reads that reset the node's diagnostics
do not touch the record. -/
def cpmClassSetup {α : Type} [Zero α] (C : NodeConsts) (H : TableSizes) (E : SetupNet α)
    (pNodeDB : byNodeDB α) : Option (cnErrCode × byNodeDB α) :=
  -- Stop using old memory
  match cpmClassDelete C pNodeDB with
  | none => none
  | some pNodeDB =>
    -- Make sure this is a Integrated Servo Controller
    let errRet := E.nodeId.1
    if errRet = MN_OK then
      let errRet := E.fwVers
      if errRet = MN_OK then
        let DEVID := E.nodeId.2
        -- Fill in the database from the node if this is a ClearPath-SC
        if DEVID.devType = C.NODEID_CS ∨ DEVID.devType = C.NODEID_GS ∨
            DEVID.devType = C.NODEID_EP then
          let pNodeDB : byNodeDB α :=
            { pNodeDB with
              -- Wire in our destructor
              delFunc := some DelFunc.cpmClassDelete
              -- Initialize the per node database
              bankCount := 4
              -- Update the ID area
              theID := { devType := DEVID.devType, devModel := DEVID.devModel }
              -- Create and initialize the parameter banks
              paramBankList := some (cpmBanks H)
              -- Create by node information
              pNodeSpecific := some E.newIscState
              -- Initialize the class specific items
              pClassInfo := some ClassInfo.cpmClassDB }
          some (E.coreUpdateParamInfo pNodeDB)
        else some (C.MN_ERR_WRONG_NODE_TYPE, pNodeDB)
      else some (errRet, pNodeDB)
    else some (errRet, pNodeDB)

/-- What is assumed of the external `coreUpdateParamInfo` in a run of setups and
deletes: it leaves the shape of the database alone (bank list present or not and its
length, `bankCount`, node-specific state present or not). -/
def KeepsShape {α : Type} (E : SetupNet α) : Prop :=
  ∀ d : byNodeDB α,
    ((E.coreUpdateParamInfo d).2.paramBankList.map List.length = d.paramBankList.map List.length) ∧
    (E.coreUpdateParamInfo d).2.bankCount = d.bankCount ∧
    (E.coreUpdateParamInfo d).2.pNodeSpecific.isSome = d.pNodeSpecific.isSome

/-- The node records reachable from the empty record through calls of `cpmClassSetup`
and `cpmClassDelete`. -/
inductive Reachable {α : Type} [Zero α] (C : NodeConsts) (H : TableSizes) : byNodeDB α → Prop
  | empty : Reachable C H emptyNodeDB
  | delete (s s' : byNodeDB α) : Reachable C H s → cpmClassDelete C s = some s' →
      Reachable C H s'
  | setup (s : byNodeDB α) (E : SetupNet α) (r : cnErrCode × byNodeDB α) :
      Reachable C H s → KeepsShape E → cpmClassSetup C H E s = some r → Reachable C H r.2

/-- The parameter ids of bank `k` with `nParams` descriptors: `256 * k + i` for
`i < nParams` (the numbering of the index comments of the tables). -/
def bankIds (k nParams : Nat) : List Nat := (List.range nParams).map (fun i => 256 * k + i)

/-- The ids of all the banks of a bank list, bank `k` at base `256 * k`. -/
def allBankIds {α : Type} (banks : List (paramBank α)) : List Nat :=
  (banks.enum.map (fun kb => bankIds kb.1 kb.2.nParams)).flatten

/-- Header constants used to evaluate the definitions. -/
def exampleTableSizes : TableSizes := ⟨32, 32, 4, 13⟩

/-- Node constants used to evaluate the definitions. -/
def exampleNodeConsts : NodeConsts := ⟨1, 2, 3, ⟨0, 0⟩, 7⟩

/-- A call environment: both reads succeed, the device type is `devType`, and
`coreUpdateParamInfo` succeeds without touching the record. -/
def exampleSetupNet (devType : Nat) : SetupNet ℚ :=
  { nodeId := (MN_OK, ⟨devType, 0⟩), fwVers := MN_OK, newIscState := ⟨0, 0, false⟩,
    coreUpdateParamInfo := fun d => (MN_OK, d) }

/-- The node record after a successful setup of a device of type 1 in the example
environment. -/
def exampleSetUpNode : byNodeDB ℚ :=
  { paramBankList := some (cpmBanks exampleTableSizes), bankCount := 4, theID := ⟨1, 0⟩,
    pNodeSpecific := some ⟨0, 0, false⟩, delFunc := some DelFunc.cpmClassDelete,
    pClassInfo := some ClassInfo.cpmClassDB }

/-- The converter `convertMonGain` run with a bound on the depth of its calls: every
call, the outermost one included, takes one unit of `fuel`, and the result is `none`
when a call finds no fuel left. The body is the one of `convertMonGain`. -/
def convertMonGainFuel {α : Type} [LinearOrderedField α] (K : MonVars) (M : Libm α) :
    Nat → Bool → Node α → Option (monState α) → Nat → α → Option (α × Option (monState α))
  | 0, _, _, _, _, _ => none
  | fuel + 1, valIsBits, theMultiAddr, pState, theVar, convVal =>
    match pState with
    | none => some (0, none)
    | some st =>
      -- Assume failure until we get to the end
      let monNow : monState α := { st with TestPoint := theVar, Set := false }
      match monGainBase K M valIsBits theMultiAddr theVar convVal with
      | .error r => some (r, some monNow)
      | .ok baseVal =>
        if valIsBits = false then
          let baseVal := baseVal * 65536             -- Scale to (16.16)
          -- Put at maximum number
          let baseVal := if baseVal > 2147483647 then 2147483647 else baseVal
          let baseVal := if baseVal < 1 then 1 else baseVal
          -- Get rescaled value
          match convertMonGainFuel K M fuel true theMultiAddr (some monNow) theVar baseVal with
          | none => none
          | some r =>
            match r.2 with
            | some m => some (baseVal, some { m with FullScale := r.1, Set := true })
            | none => some (baseVal, none)
        else
          some (baseVal, some { monNow with FullScale := baseVal, Set := true })

/-- Whether the wire format of a descriptor matches the clamp of its converter: size 2 and
scale `2^15` for `convertAmperes` and `convertMeasAmperes` (clamp `32767/32768`), size 2
and scale 1 for the time-constant and filter converters (clamp 32767); no condition on
the other descriptors. -/
def wireFormatOk (d : paramInfoLcl) : Bool :=
  match d.converter with
  | some .convertAmperes | some .convertMeasAmperes =>
    decide (d.paramSize = 2) && decide (d.scaleFromBase = 2 ^ 15)
  | some .convertRMStc | some .convertRMSSlowtc | some .convertIBRMStc
  | some .convertIBRMSSlowtc | some .convertFilt99pctMilliseconds
  | some .convertFilt1TCMilliseconds | some .convertVectorFilt99pctMilliseconds =>
    decide (d.paramSize = 2) && decide (d.scaleFromBase = 1)
  | _ => true

/-! ## The motor file name -/

/-- The library function `strncpy(dst, src, n)`: the characters of `src` before its first
NUL, at most `n` of them, then NULs up to `n` characters in all, written over the start
of `dst`; `none` when `n` characters do not fit into `dst`. -/
def strncpy (dst src : List Char) (n : Nat) : Option (List Char) :=
  if n ≤ dst.length then
    let copied := (src.takeWhile (· ≠ NUL)).take n
    some (copied ++ List.replicate (n - copied.length) NUL ++ dst.drop n)
  else none

/-- The store `buffer[i] = 0`; `none` when `i` is outside the buffer. -/
def storeNul (buffer : List Char) (i : Nat) : Option (List Char) :=
  if i < buffer.length then some (buffer.set i NUL) else none

/-- The function `cpmGetMotorFileName`. `netRunCommand` is the answer to the command: the
code, the length `nameBuf.Fld.PktLen` and the characters of `nameBuf.Byte.Buffer` from
`CMD_LOC` on; `pMotorFileNameStr` is the caller's buffer as it is before the call. The
result is the returned code and the buffer after the call, `none` when a write falls
outside the buffer. -/
def cpmGetMotorFileName (netRunCommand : cnErrCode × Nat × List Char)
    (pMotorFileNameStr : List Char) (maxBufSize : Nat) : cnErrCode × Option (List Char) :=
  let theErr := netRunCommand.1
  let PktLen := netRunCommand.2.1
  let nameBuf := netRunCommand.2.2
  if theErr = MN_OK then
    -- Limit return size to buffer size
    let i := if PktLen < maxBufSize then PktLen else maxBufSize
    (theErr, (strncpy pMotorFileNameStr nameBuf i).bind fun buffer =>
      storeNul buffer i)               -- Insure term'd
  else
    (theErr, storeNul pMotorFileNameStr 0)

/-! ## The stimulus generator: `cpmGetStimulus` and `cpmSetStimulus` -/

/-- The constants of the header that the two functions use: the stimulus modes
(`stimModes`), the full-scale velocity, the packet sizes, two error codes and the limits
of `<limits.h>`. -/
structure StimConsts (α : Type) where
  STIM_OFF : Int
  STIM_VEL : Int
  STIM_CAL : Int
  STIM_TRQ : Int
  STIM_POSN : Int
  STIM_MOVE_ONCE : Int
  STIM_MOVE_RECP : Int
  STIM_MOVE_REPEAT : Int
  CP_MON_MAX_VEL : α
  CP_STIM_RESP_STATUS_OCTETS : Nat
  CP_STIM_CMD_PKT_PROF_SIZE : Nat
  CP_STIM_CMD_PKT_SIZE : Nat
  MN_ERR_RESP_FMT : cnErrCode
  MN_ERR_BADARG : cnErrCode
  LONG_MAX : Int
  INT_MAX : Int

/-- The packet `iscStimCmdPkt`, by the fields the source file uses. -/
structure iscStimCmdPkt where
  Mode : Int
  Period : Int
  Amplitude : Int
  Slew : Int
  Dwell : Int
  Status : Int
  deriving DecidableEq, Repr

/-- The state `iscStimState`, by the fields the source file uses; the amplitude is a
double, the other fields are integers. -/
structure iscStimState (α : Type) where
  mode : Int
  period : Int
  amplitude : α
  slew : Int
  dwell : Int
  bits : Int

/-- The cast `(nodeshort)z` of an integer: the value modulo `2^16`, as a signed 16-bit
number. -/
def toNodeshort (z : Int) : Int := (z + 32768) % 65536 - 32768

/-- The function `cpmGetStimulus`: get the current stimulus generator settings.
`netRunCommand` is the answer to the command: code, `theResp.Fld.PktLen` and the packet
at `RESP_LOC`; the result is the returned code and `*pState` after the call. -/
def cpmGetStimulus {α : Type} [LinearOrderedField α] [FloorRing α] (S : StimConsts α)
    (theMultiAddr : Node α) (netRunCommand : cnErrCode × Nat × iscStimCmdPkt)
    (pState : iscStimState α) : cnErrCode × iscStimState α :=
  -- Get sample rate conversion factor
  let theErr := (theMultiAddr.netGetParameterInfo CPM_P_SAMPLE_PERIOD).1
  let sampleTime := (theMultiAddr.netGetParameterInfo CPM_P_SAMPLE_PERIOD).2
  if theErr ≠ MN_OK ∨ sampleTime = 0 then (S.MN_ERR_RESP_FMT, pState)
  else
    let sampleTime := sampleTime * (1 / 1000)   -- Convert microseconds to milliseconds
    let theErr := netRunCommand.1
    if theErr ≠ MN_OK then (theErr, pState)
    -- Properly formatted response?
    else if netRunCommand.2.1 ≠ S.CP_STIM_RESP_STATUS_OCTETS then (S.MN_ERR_RESP_FMT, pState)
    else
      let pStimData := netRunCommand.2.2
      -- Crack the return buffer into standard units
      let pState : iscStimState α :=
        { pState with
          mode := pStimData.Mode
          period := toNodelong (1 / 2 + (pStimData.Period : α) * sampleTime)
          bits := pStimData.Status }
      if pState.mode = S.STIM_OFF then
        (theErr, { pState with amplitude := 0 })
      else if pState.mode = S.STIM_VEL then
        (theErr, { pState with
          amplitude := (S.CP_MON_MAX_VEL * (pStimData.Amplitude : α) / sampleTime) / 32767 })
      else if pState.mode = S.STIM_CAL ∨ pState.mode = S.STIM_TRQ then
        (theErr, { pState with amplitude := (pStimData.Amplitude : α) / (32767 / 100) })
      else if pState.mode = S.STIM_POSN then
        (theErr, { pState with amplitude := (pStimData.Amplitude : α) })
      else if pState.mode = S.STIM_MOVE_ONCE ∨ pState.mode = S.STIM_MOVE_RECP ∨
          pState.mode = S.STIM_MOVE_REPEAT then
        (theErr, { pState with
          amplitude := (pStimData.Amplitude : α)
          slew := pStimData.Slew
          -- Convert dwell back to milliseconds
          dwell := if sampleTime ≠ 0 then toNodelong ((pStimData.Dwell : α) / sampleTime)
            else 0 })
      else (S.MN_ERR_BADARG, pState)

/-- The function `cpmSetStimulus`: change the stimulus generator setting.
`netRunCommand` answers the command (`theCmd.Fld.PktLen` and the packet) with a code and
`theResp.Fld.PktLen`; the result is the returned code and the command sent, `none` when
the function returns before sending. -/
def cpmSetStimulus {α : Type} [LinearOrderedField α] [FloorRing α] (S : StimConsts α)
    (theMultiAddr : Node α) (netRunCommand : Nat × iscStimCmdPkt → cnErrCode × Nat)
    (pNewState : iscStimState α) : cnErrCode × Option (Nat × iscStimCmdPkt) :=
  -- Get sample rate conversion factor
  let theErr := (theMultiAddr.netGetParameterInfo CPM_P_SAMPLE_PERIOD).1
  let sampleTime := (theMultiAddr.netGetParameterInfo CPM_P_SAMPLE_PERIOD).2
  if theErr ≠ MN_OK ∨ sampleTime = 0 then (S.MN_ERR_BADARG, none)
  else
    let sampleTime := sampleTime * (1 / 1000)   -- Convert microseconds to milliseconds
    let isMove : Bool := decide (pNewState.mode = S.STIM_MOVE_ONCE) ||
      decide (pNewState.mode = S.STIM_MOVE_RECP) || decide (pNewState.mode = S.STIM_MOVE_REPEAT)
    let PktLen := if isMove then S.CP_STIM_CMD_PKT_PROF_SIZE else S.CP_STIM_CMD_PKT_SIZE
    -- Set the 0.5*period(ms) in sample-time(us) counts
    let lVal := toNodelong (1 / 2 + (pNewState.period : α) / sampleTime)
    -- Saturate @ largest value
    let lVal := if lVal > 32767 then 32767 else lVal
    -- Set the mode, the period, and zero out potentially unused fields
    let pSimCmd : iscStimCmdPkt :=
      { Mode := toNodeshort pNewState.mode, Period := toNodeshort lVal, Amplitude := 0,
        Slew := 0, Dwell := 0, Status := 0 }
    -- Figure out the scaling for the amplitude based on the mode
    let scaled : Option (Int × iscStimCmdPkt) :=
      if pNewState.mode = S.STIM_OFF then some (0, pSimCmd)
      else if pNewState.mode = S.STIM_VEL then
        let lVal := toNodelong (32767 * pNewState.amplitude * sampleTime / S.CP_MON_MAX_VEL
          + (if pNewState.amplitude < 0 then -(1 / 2) else 1 / 2))
        some (if lVal > 32767 then 32767 else lVal, pSimCmd)
      else if pNewState.mode = S.STIM_CAL ∨ pNewState.mode = S.STIM_TRQ then
        let lVal := toNodelong ((32767 / 100) * pNewState.amplitude)
        some (if lVal > 32767 then 32767 else lVal, pSimCmd)
      else if pNewState.mode = S.STIM_POSN then
        some (if pNewState.amplitude < 32767 then toNodelong pNewState.amplitude else 32767,
          pSimCmd)
      else if isMove then
        let lVal := toNodelong pNewState.amplitude
        -- Saturate @ largest value
        let lVal := if pNewState.amplitude > (S.LONG_MAX : α) then S.LONG_MAX else lVal
        -- Convert request milliseconds to sample-counts
        let tVal := toNodelong (1 / 2 + (pNewState.dwell : α) / sampleTime)
        let tVal := if tVal > S.INT_MAX then S.INT_MAX else tVal
        some (lVal, { pSimCmd with
          Period := toNodeshort pNewState.period
          Slew := toNodeshort pNewState.slew
          Dwell := toNodeshort tVal })
      else none
    match scaled with
    | none => (S.MN_ERR_BADARG, none)
    | some (lVal, pSimCmd) =>
      let theCmd := (PktLen, { pSimCmd with Amplitude := lVal })
      -- Make it so, wait for return
      let theErr := (netRunCommand theCmd).1
      if theErr = MN_OK then
        if (netRunCommand theCmd).2 ≠ 0 then (S.MN_ERR_RESP_FMT, some theCmd)
        else (theErr, some theCmd)
      else (theErr, some theCmd)

/-- Stimulus constants used to evaluate the definitions: modes 0 to 7. -/
def exampleStimConsts : StimConsts ℚ :=
  { STIM_OFF := 0, STIM_VEL := 1, STIM_CAL := 2, STIM_TRQ := 3, STIM_POSN := 4,
    STIM_MOVE_ONCE := 5, STIM_MOVE_RECP := 6, STIM_MOVE_REPEAT := 7,
    CP_MON_MAX_VEL := 8192, CP_STIM_RESP_STATUS_OCTETS := 12,
    CP_STIM_CMD_PKT_PROF_SIZE := 13, CP_STIM_CMD_PKT_SIZE := 7,
    MN_ERR_RESP_FMT := 2, MN_ERR_BADARG := 3, LONG_MAX := 2147483647,
    INT_MAX := 2147483647 }

/-- A profiled-move request (mode `STIM_MOVE_ONCE` of the example constants) with the
dwell `dwell` in milliseconds. -/
def exampleMoveOnce (dwell : Int) : iscStimState ℚ :=
  { mode := 5, period := 100, amplitude := 1000, slew := 0, dwell := dwell, bits := 0 }

/-- The read `netGetParameterInfo(theMultiAddr, p, ...)` fails on the node. -/
abbrev infoFails {α : Type} (theMultiAddr : Node α) (p : cpmParams) : Prop :=
  (theMultiAddr.netGetParameterInfo p).1 ≠ MN_OK

/-! ## Theorems: converters -/

section ConverterTheorems

/-- C1: with a successfully read max current `iMax > 0`, every engineering value
above `iMax` is encoded by `convertAmperes` as exactly `32767/32768`. -/
theorem convertAmperes_saturates {α : Type} [LinearOrderedField α] (theMultiAddr : Node α) (eng : α)
    (hok : (theMultiAddr.netGetParameterInfo CPM_P_DRV_I_MAX).1 = MN_OK)
    (hpos : 0 < (theMultiAddr.netGetParameterInfo CPM_P_DRV_I_MAX).2)
    (hgt : (theMultiAddr.netGetParameterInfo CPM_P_DRV_I_MAX).2 < eng) :
    convertAmperes false theMultiAddr eng = 32767 / 32768 := by
  have h1 : (1 : α) < eng / (theMultiAddr.netGetParameterInfo CPM_P_DRV_I_MAX).2 :=
    (one_lt_div hpos).2 hgt
  have h2 : (Q15_MAX : α) < eng / (theMultiAddr.netGetParameterInfo CPM_P_DRV_I_MAX).2 := by
    have : (Q15_MAX : α) < 1 := by unfold Q15_MAX; norm_num
    exact lt_trans this h1
  simp only [convertAmperes, hok, ne_eq, not_true_eq_false, false_or, not_le.2 hpos,
    if_false, Bool.false_eq_true, gt_iff_lt, h2, if_true]
  rfl

/-- Witness of C1: max current 2, engineering value 5. -/
theorem convertAmperes_saturates_witness :
    convertAmperes false (okNode (2 : ℚ)) 5 = 32767 / 32768 :=
  convertAmperes_saturates (okNode (2 : ℚ)) 5 rfl (by norm_num [okNode]) (by norm_num [okNode])

/-- C3 fails as stated: on a node whose firmware-version read fails, `checkPosnLimit`
returns its input 5, not 0. -/
theorem checkPosnLimit_failed_read_not_zero :
    ((failNode (0 : ℚ)).netGetParameterDbl CPM_P_FW_VERS).1 ≠ MN_OK ∧
      checkPosnLimit (0 : ℚ) false (failNode 0) 5 ≠ 0 ∧
      checkPosnLimit (0 : ℚ) true (failNode 0) 5 ≠ 0 := by
  refine ⟨by decide, ?_, ?_⟩ <;> norm_num [checkPosnLimit, failNode, MN_OK]

/-- C3, amended: in both directions and for every input value, a failed auxiliary read
makes `convertAmperes`, `convertAmpsRMS`, `calcDHeatFact`, `convertMeasAmperes`,
`convertMeasVolts`, `convertRMSlevel(Slow)`, `convertRMSlimit(32)`, the four RMS
time-constant converters, `convertAngle` and `convertSpdLim` return 0; `convertMonGain`
returns 0 when the read of max current, ADC max, command density or encoder density
fails; `convertJerk` returns the code `ISC_RAS_OFF`; `checkPosnLimit` returns its input
unchanged. -/
theorem converters_failed_read {α : Type} [LinearOrderedField α] [FloorRing α]
    (K : MonVars) (M : Libm α) (R : RasCodes) (FW_MILESTONE_DUAL_RMS : α)
    (VectorLock : VectorLockFld α) (valIsBits : Bool) (theMultiAddr : Node α)
    (pState : Option (monState α)) (theVar : Nat) (convVal : α) :
    (infoFails theMultiAddr CPM_P_DRV_I_MAX → convertAmperes valIsBits theMultiAddr convVal = 0) ∧
    (infoFails theMultiAddr CPM_P_DRV_ADC_MAX →
      convertAmpsRMS M valIsBits theMultiAddr convVal = 0) ∧
    (infoFails theMultiAddr CPM_P_DRV_I_MAX ∨ infoFails theMultiAddr CPM_P_DRV_MTR_OHMS →
      calcDHeatFact M valIsBits theMultiAddr convVal = 0) ∧
    (infoFails theMultiAddr CPM_P_DRV_ADC_MAX →
      convertMeasAmperes valIsBits theMultiAddr convVal = 0) ∧
    (infoFails theMultiAddr CPM_P_DRV_FACT_FS_BUSV →
      convertMeasVolts valIsBits theMultiAddr convVal = 0) ∧
    (infoFails theMultiAddr CPM_P_DRV_ADC_MAX ∨ infoFails theMultiAddr CPM_P_DRV_RMS_LIM →
      convertRMSlevel M valIsBits theMultiAddr convVal = 0) ∧
    (infoFails theMultiAddr CPM_P_DRV_ADC_MAX ∨ infoFails theMultiAddr CPM_P_DRV_RMS_SLOW_LIM →
      convertRMSlevelSlow M valIsBits theMultiAddr convVal = 0) ∧
    (infoFails theMultiAddr CPM_P_DRV_ADC_MAX →
      convertRMSlimit M valIsBits theMultiAddr convVal = 0 ∧
      convertRMSlimit32 M valIsBits theMultiAddr convVal = 0) ∧
    (infoFails theMultiAddr CPM_P_SAMPLE_PERIOD →
      convertRMStc M valIsBits theMultiAddr convVal = 0 ∧
      convertRMSSlowtc M valIsBits theMultiAddr convVal = 0 ∧
      convertIBRMStc M valIsBits theMultiAddr convVal = 0 ∧
      convertIBRMSSlowtc M valIsBits theMultiAddr convVal = 0) ∧
    (infoFails theMultiAddr CPM_P_DRV_MTR_POLES ∨ infoFails theMultiAddr CPM_P_DRV_ENC_DENS ∨
        theMultiAddr.cpmGetHwConfigReg.1 ≠ MN_OK ∨
        (theMultiAddr.cpmGetParameter CPM_P_OPTION_REG).1 ≠ MN_OK →
      convertAngle VectorLock valIsBits theMultiAddr convVal = 0) ∧
    (infoFails theMultiAddr CPM_P_SAMPLE_PERIOD ∨ infoFails theMultiAddr CPM_P_DRV_ENC_DENS ∨
        infoFails theMultiAddr CPM_P_CMD_CNTS_PER_REV →
      convertSpdLim valIsBits theMultiAddr convVal = 0) ∧
    (infoFails theMultiAddr CPM_P_DRV_I_MAX ∨ infoFails theMultiAddr CPM_P_DRV_ADC_MAX ∨
        infoFails theMultiAddr CPM_P_CMD_CNTS_PER_REV ∨
        infoFails theMultiAddr CPM_P_DRV_ENC_DENS →
      (convertMonGain K M valIsBits theMultiAddr pState theVar convVal).1 = 0) ∧
    ((theMultiAddr.cpmGetParameter CPM_P_SAMPLE_PERIOD).1 ≠ MN_OK ∨
        (theMultiAddr.cpmGetParameter CPM_P_FW_VERS).1 ≠ MN_OK →
      convertJerk R valIsBits theMultiAddr convVal = (R.ISC_RAS_OFF : α)) ∧
    ((theMultiAddr.netGetParameterDbl CPM_P_FW_VERS).1 ≠ MN_OK →
      checkPosnLimit FW_MILESTONE_DUAL_RMS valIsBits theMultiAddr convVal = convVal) := by
  simp only [infoFails]
  refine ⟨?_, ?_, ?_, ?_, ?_, ?_, ?_, ?_, ?_, ?_, ?_, ?_, ?_, ?_⟩
  · intro h; simp [convertAmperes, h]
  · intro h; simp [convertAmpsRMS, h]
  · intro h
    by_cases h1 : (theMultiAddr.netGetParameterInfo CPM_P_DRV_I_MAX).1 = MN_OK
    · have h2 := h.resolve_left (not_not.2 h1)
      simp [calcDHeatFact, h1, h2]
    · simp [calcDHeatFact, h1]
  · intro h; simp [convertMeasAmperes, h]
  · intro h; simp [convertMeasVolts, h]
  · intro h
    by_cases h1 : (theMultiAddr.netGetParameterInfo CPM_P_DRV_ADC_MAX).1 = MN_OK
    · have h2 := h.resolve_left (not_not.2 h1)
      simp [convertRMSlevel, convertRMSlevelBody, h1, h2]
    · simp [convertRMSlevel, convertRMSlevelBody, h1]
  · intro h
    by_cases h1 : (theMultiAddr.netGetParameterInfo CPM_P_DRV_ADC_MAX).1 = MN_OK
    · have h2 := h.resolve_left (not_not.2 h1)
      simp [convertRMSlevelSlow, convertRMSlevelBody, h1, h2]
    · simp [convertRMSlevelSlow, convertRMSlevelBody, h1]
  · intro h; simp [convertRMSlimit, convertRMSlimit32, convertRMSlimitBody, h]
  · intro h; simp [convertRMStc, convertRMSSlowtc, convertIBRMStc, convertIBRMSSlowtc, h]
  · intro h
    unfold convertAngle
    by_cases h1 : (theMultiAddr.netGetParameterInfo CPM_P_DRV_MTR_POLES).1 = MN_OK
    · by_cases h2 : (theMultiAddr.netGetParameterInfo CPM_P_DRV_ENC_DENS).1 = MN_OK
      · by_cases h3 : theMultiAddr.cpmGetHwConfigReg.1 = MN_OK
        · have h4 : (theMultiAddr.cpmGetParameter CPM_P_OPTION_REG).1 ≠ MN_OK := by tauto
          simp [h1, h2, h3, h4]
        · simp [h1, h2, h3]
      · simp [h1, h2]
    · simp [h1]
  · intro h
    unfold convertSpdLim
    by_cases h1 : (theMultiAddr.netGetParameterInfo CPM_P_SAMPLE_PERIOD).1 = MN_OK
    · by_cases h2 : (theMultiAddr.netGetParameterInfo CPM_P_DRV_ENC_DENS).1 = MN_OK
      · have h3 : (theMultiAddr.netGetParameterInfo CPM_P_CMD_CNTS_PER_REV).1 ≠ MN_OK := by tauto
        simp [h1, h2, h3]
      · simp [h1, h2]
    · simp [h1]
  · intro h
    have hb : monGainBase K M valIsBits theMultiAddr theVar convVal = .error 0 := by
      unfold monGainBase
      by_cases h1 : (theMultiAddr.netGetParameterInfo CPM_P_DRV_I_MAX).1 = MN_OK
      · by_cases h2 : (theMultiAddr.netGetParameterInfo CPM_P_DRV_ADC_MAX).1 = MN_OK
        · by_cases h3 : (theMultiAddr.netGetParameterInfo CPM_P_CMD_CNTS_PER_REV).1 = MN_OK
          · have h4 : (theMultiAddr.netGetParameterInfo CPM_P_DRV_ENC_DENS).1 ≠ MN_OK := by tauto
            simp only [h1, h2, h3, h4, ne_eq, not_true_eq_false, not_false_eq_true, if_true,
              if_false]
            split <;> rfl
          · simp only [h1, h2, h3, ne_eq, not_true_eq_false, not_false_eq_true, if_true,
              if_false]
            split <;> rfl
        · simp [h1, h2]
      · simp [h1]
    unfold convertMonGain
    cases pState with
    | none => rfl
    | some st => simp only [hb]
  · intro h
    unfold convertJerk
    by_cases h1 : (theMultiAddr.cpmGetParameter CPM_P_SAMPLE_PERIOD).1 = MN_OK
    · have h2 := h.resolve_left (not_not.2 h1)
      simp [h1, h2]
    · simp [h1]
  · intro h; simp [checkPosnLimit, h]

/-- Witness of C3 (amended): on a node whose reads all fail, the eng->bits
`convertAmperes` of 5 is 0. -/
theorem converters_failed_read_witness :
    convertAmperes false (failNode (1 : ℚ)) 5 = 0 :=
  (converters_failed_read exampleMonVars ratLibm exampleRasCodes 0 (fun _ => false)
    false (failNode (1 : ℚ)) none 0 5).1 (by decide)



/-- An `if` whose branches both differ from `x` differs from `x`. -/
theorem ite_ne_of {β : Type} (c : Prop) [Decidable c] (a b x : β) (ha : c → a ≠ x)
    (hb : ¬c → b ≠ x) : (if c then a else b) ≠ x := by
  by_cases hc : c
  · rw [if_pos hc]; exact ha hc
  · rw [if_neg hc]; exact hb hc

/-- The `switch` yields a value whenever the bus full-scale read succeeds. -/
theorem monGainSwitch_ne_error {α : Type} [LinearOrderedField α] (K : MonVars) (M : Libm α)
    (valIsBits : Bool) (theMultiAddr : Node α) (theVar : Nat)
    (sampleTime iMax adcMax resScale convVal : α)
    (hV : (theMultiAddr.netGetParameterDbl CPM_P_DRV_FACT_FS_BUSV).1 = MN_OK) (e : cnErrCode) :
    monGainSwitch K M valIsBits theMultiAddr theVar sampleTime iMax adcMax resScale convVal
      ≠ .error e := by
  unfold monGainSwitch
  repeat' first
    | exact fun h => Except.noConfusion h
    | exact fun _ h => Except.noConfusion h
    | exact fun h _ => absurd hV h
    | apply ite_ne_of
    | intro _

/-- The value returned in the bits direction does not depend on the record. -/
theorem convertMonGain_bits_fst {α : Type} [LinearOrderedField α] (K : MonVars) (M : Libm α)
    (theMultiAddr : Node α) (s : monState α) (theVar : Nat) (convVal : α) :
    (convertMonGain K M true theMultiAddr (some s) theVar convVal).1 =
      match monGainBase K M true theMultiAddr theVar convVal with
      | .error r => r
      | .ok b => b := by
  rw [convertMonGain]
  cases monGainBase K M true theMultiAddr theVar convVal <;> simp

/-- A call in the bits direction on an existing record leaves a record whose
`TestPoint` is the requested test point. -/
theorem convertMonGain_bits_snd {α : Type} [LinearOrderedField α] (K : MonVars) (M : Libm α)
    (theMultiAddr : Node α) (s : monState α) (theVar : Nat) (convVal : α) :
    ∃ m, (convertMonGain K M true theMultiAddr (some s) theVar convVal).2 = some m ∧
      m.TestPoint = theVar := by
  rw [convertMonGain]
  cases monGainBase K M true theMultiAddr theVar convVal <;> simp

/-- With valid auxiliary parameters and an input that is not "off", the body of
`convertMonGain` reaches the final `if (!valIsBits)`. -/
theorem monGainBase_ok {α : Type} [LinearOrderedField α] (K : MonVars) (M : Libm α)
    (theMultiAddr : Node α) (theVar : Nat) (eng : α)
    (hI : (theMultiAddr.netGetParameterInfo CPM_P_DRV_I_MAX).1 = MN_OK)
    (hA : (theMultiAddr.netGetParameterInfo CPM_P_DRV_ADC_MAX).1 = MN_OK)
    (hC : (theMultiAddr.netGetParameterInfo CPM_P_CMD_CNTS_PER_REV).1 = MN_OK)
    (hE : (theMultiAddr.netGetParameterInfo CPM_P_DRV_ENC_DENS).1 = MN_OK)
    (hV : (theMultiAddr.netGetParameterDbl CPM_P_DRV_FACT_FS_BUSV).1 = MN_OK)
    (hIpos : 0 < (theMultiAddr.netGetParameterInfo CPM_P_DRV_I_MAX).2)
    (hApos : 0 < (theMultiAddr.netGetParameterInfo CPM_P_DRV_ADC_MAX).2)
    (hT : 1 / 1000 ≤ |(theMultiAddr.netGetParameterInfo CPM_P_SAMPLE_PERIOD).2|)
    (hx : 1 / 10000 ≤ |eng|) :
    ∃ b, monGainBase K M false theMultiAddr theVar eng = .ok b := by
  unfold monGainBase
  simp only [hI, hA, hC, hE, ne_eq, not_true_eq_false, if_false, not_le.2 hIpos,
    not_le.2 hApos, or_self, not_lt.2 hT, Bool.false_eq_true, not_lt.2 hx]
  generalize hsw : monGainSwitch K M false theMultiAddr theVar _ _ _ _ _ = sw
  cases sw with
  | error e => exact absurd hsw (monGainSwitch_ne_error K M false theMultiAddr theVar _ _ _ _ _ hV e)
  | ok b => exact ⟨b, rfl⟩

/-- C10 fails as stated: with every read succeeding (all values 1, so max current,
ADC max and sample period are valid) and an existing record, converting the
engineering value 0 leaves the record marked invalid (`Set = false`). -/
theorem convertMonGain_off_leaves_invalid :
    (convertMonGain exampleMonVars ratLibm false (okNode (1 : ℚ)) (some ⟨0, 0, true⟩) 1 0).2
      = some ⟨1, 0, false⟩ := by
  have hb : monGainBase exampleMonVars ratLibm false (okNode (1 : ℚ)) 1 0 = .error 0 := by
    norm_num [monGainBase, okNode, MN_OK]
  rw [convertMonGain]
  simp only [hb]

/-- C10, amended: in the engineering-units direction, when the record exists, the reads
of max current, ADC max, command density, encoder density and bus full-scale voltage
succeed, max current > 0, ADC max > 0, |sample period| >= 0.001 and the engineering
value is not "off" (|eng| >= 0.0001), the call leaves the record with `Set = true`,
`TestPoint` the requested test point and `FullScale` the bits->eng conversion of the
returned value. -/
theorem convertMonGain_eng_marks_valid {α : Type} [LinearOrderedField α] (K : MonVars)
    (M : Libm α) (theMultiAddr : Node α) (st : monState α) (theVar : Nat) (eng : α)
    (hI : (theMultiAddr.netGetParameterInfo CPM_P_DRV_I_MAX).1 = MN_OK)
    (hA : (theMultiAddr.netGetParameterInfo CPM_P_DRV_ADC_MAX).1 = MN_OK)
    (hC : (theMultiAddr.netGetParameterInfo CPM_P_CMD_CNTS_PER_REV).1 = MN_OK)
    (hE : (theMultiAddr.netGetParameterInfo CPM_P_DRV_ENC_DENS).1 = MN_OK)
    (hV : (theMultiAddr.netGetParameterDbl CPM_P_DRV_FACT_FS_BUSV).1 = MN_OK)
    (hIpos : 0 < (theMultiAddr.netGetParameterInfo CPM_P_DRV_I_MAX).2)
    (hApos : 0 < (theMultiAddr.netGetParameterInfo CPM_P_DRV_ADC_MAX).2)
    (hT : 1 / 1000 ≤ |(theMultiAddr.netGetParameterInfo CPM_P_SAMPLE_PERIOD).2|)
    (hx : 1 / 10000 ≤ |eng|) :
    ∃ m, (convertMonGain K M false theMultiAddr (some st) theVar eng).2 = some m ∧
      m.Set = true ∧ m.TestPoint = theVar ∧
      m.FullScale = (convertMonGain K M true theMultiAddr (some st) theVar
        (convertMonGain K M false theMultiAddr (some st) theVar eng).1).1 := by
  obtain ⟨b, hb⟩ := monGainBase_ok K M theMultiAddr theVar eng hI hA hC hE hV hIpos hApos hT hx
  rw [convertMonGain]
  simp only [hb, if_true]
  generalize hB : (if (if b * 65536 > 2147483647 then (2147483647 : α) else b * 65536) < 1 then 1
    else if b * 65536 > 2147483647 then (2147483647 : α) else b * 65536) = B
  obtain ⟨m, hm, htp⟩ := convertMonGain_bits_snd K M theMultiAddr
    { TestPoint := theVar, FullScale := st.FullScale, Set := false } theVar B
  simp only [hm]
  refine ⟨_, rfl, rfl, htp, ?_⟩
  simp only [convertMonGain_bits_fst]

/-- Witness of C10 (amended): all reads succeed with value 1, test point 1,
engineering value 1. -/
theorem convertMonGain_eng_marks_valid_witness :
    ∃ m, (convertMonGain exampleMonVars ratLibm false (okNode (1 : ℚ)) (some ⟨0, 0, false⟩)
        1 1).2 = some m ∧
      m.Set = true ∧ m.TestPoint = 1 ∧
      m.FullScale = (convertMonGain exampleMonVars ratLibm true (okNode (1 : ℚ))
        (some ⟨0, 0, false⟩) 1
        (convertMonGain exampleMonVars ratLibm false (okNode (1 : ℚ)) (some ⟨0, 0, false⟩)
          1 1).1).1 :=
  convertMonGain_eng_marks_valid exampleMonVars ratLibm (okNode (1 : ℚ)) ⟨0, 0, false⟩ 1 1
    rfl rfl rfl rfl rfl (by norm_num [okNode]) (by norm_num [okNode]) (by norm_num [okNode])
    (by norm_num)

end ConverterTheorems


/-! ## Theorems: register decoders -/

set_option maxRecDepth 100000

section DecoderTheorems

theorem and_two_pow_ne_zero (w k : Nat) : w &&& 2 ^ k ≠ 0 ↔ w.testBit k = true := by
  constructor
  · intro h
    by_contra hb
    apply h
    apply Nat.eq_of_testBit_eq
    intro i
    simp only [Nat.testBit_and, Nat.testBit_two_pow, Nat.zero_testBit]
    by_cases hi : k = i
    · subst hi; simp [hb]
    · simp [hi]
  · intro hb h
    have := congrArg (fun n => n.testBit k) h
    simp [Nat.testBit_and, Nat.testBit_two_pow, hb] at this

theorem status_mask (k : Nat) (hk : k < 16) : (0x8000 >>> k) % 65536 = 2 ^ (15 - k) := by
  interval_cases k <;> rfl

theorem alert_mask (k : Nat) (hk : k < 32) : (0x80000000 >>> k) % 4294967296 = 2 ^ (31 - k) := by
  interval_cases k <;> rfl

theorem joinLines_toList (o : Option String) :
    joinLines o.toList = match o with | some l => l ++ "\n" | none => "" := by
  cases o with
  | none => rfl
  | some l => simp [joinLines, Option.toList]

theorem status_token (i : Nat) (hi : i < 47) :
    (CPSCStatusBitStrs[i]?).map (fun name => snprintf50 ("[" ++ fmt02d i ++ "] " ++ name ++ "\n"))
      = some ("[" ++ fmt02d i ++ "] " ++ CPSCStatusBitStrs.getD i "" ++ "\n") := by
  revert i
  decide

theorem inMotion_token (v : Nat) (hv : v < 4) :
    (CPSCinMotions[v]?).map (fun name => snprintf50 ("[" ++ fmt02d 32 ++ "-" ++ fmt02d (32 + 1)
          ++ "] InMotion: " ++ name ++ "\n"))
      = some ("[32-33] InMotion: " ++ CPSCinMotions.getD v "" ++ "\n") := by
  revert v
  decide

theorem shutdown_token (v : Nat) (hv : v < 4) :
    (CPSCshutdowns[v]?).map (fun name => snprintf50 ("[" ++ fmt02d 40 ++ "-" ++ fmt02d (40 + 1)
          ++ "] ShutdownState: " ++ name ++ "\n"))
      = some ("[40-41] ShutdownState: " ++ CPSCshutdowns.getD v "" ++ "\n") := by
  revert v
  decide


theorem map_append_token (o : Option String) (f : String → String) (bv t : String)
    (h : o.map f = some t) : o.map (fun name => bv ++ f name) = some (bv ++ t) := by
  cases o with
  | none => simp at h
  | some a => simp only [Option.map_some', Option.some.injEq] at h ⊢; rw [h]

theorem statusBit_eq (reg : cpmStatusReg) (intNum m : Nat) (hi : intNum < 3) (hm : m < 16)
    (bv : String) (h47 : reg.bitSet 47 = false) :
    statusBit reg intNum (15 - m) (bv, 16 * intNum + m) =
      some (bv ++ joinLines (statusSpecLine reg (16 * intNum + m)).toList,
        sizeDec (16 * intNum + m)) := by
  have hdiv : (16 * intNum + m) / 16 = intNum := by omega
  have hmod : (16 * intNum + m) % 16 = m := by omega
  have hmask : (0x8000 >>> (15 - m)) % 65536 = 2 ^ m := by
    rw [status_mask _ (by omega)]; congr 1; omega
  rw [joinLines_toList]
  unfold statusBit statusSpecLine
  simp only [hmask]
  by_cases h32 : 16 * intNum + m = 32
  · rw [h32]
    simp only [if_true]
    rw [map_append_token _ _ bv _ (inMotion_token reg.InMotion (Nat.mod_lt _ (by norm_num)))]
    simp
  · by_cases h33 : 16 * intNum + m = 33
    · rw [h33]; simp
    · by_cases h40 : 16 * intNum + m = 40
      · rw [h40]
        simp only [if_true, (by decide : ¬ (40 = 32)), (by decide : ¬ (40 = 33)), if_false]
        rw [map_append_token _ _ bv _
          (shutdown_token reg.ShutdownState (Nat.mod_lt _ (by norm_num)))]
        simp
      · by_cases h41 : 16 * intNum + m = 41
        · rw [h41]; simp
        · simp only [h32, h33, h40, h41, if_false, or_self]
          by_cases hb : reg.bitSet (16 * intNum + m) = true
          · have hlt : 16 * intNum + m < 47 := by
              by_contra hge
              have : 16 * intNum + m = 47 := by omega
              rw [this, h47] at hb
              exact absurd hb (by decide)
            have hw : reg.word intNum &&& 2 ^ m ≠ 0 := by
              rw [and_two_pow_ne_zero]
              simpa [cpmStatusReg.bitSet, hdiv, hmod] using hb
            rw [if_pos hw, map_append_token _ _ bv _ (status_token _ hlt)]
            simp [hb]
          · have hw : ¬ (reg.word intNum &&& 2 ^ m ≠ 0) := by
              rw [and_two_pow_ne_zero]
              simpa [cpmStatusReg.bitSet, hdiv, hmod] using hb
            rw [if_neg hw]
            simp [hb]


theorem joinLines_append (a b : List String) :
    joinLines (a ++ b) = joinLines a ++ joinLines b := by
  induction a with
  | nil => simp [joinLines]
  | cons l ls ih => simp [joinLines, ih, String.append_assoc]

theorem joinLines_filterMap_cons (f : Nat → Option String) (i : Nat) (rest : List Nat) :
    joinLines ((i :: rest).filterMap f) =
      joinLines (f i).toList ++ joinLines (rest.filterMap f) := by
  cases h : f i with
  | none => simp [List.filterMap_cons, h, joinLines]
  | some l => simp [List.filterMap_cons, h, joinLines, String.append_assoc]

theorem sizeDec_pos (n : Nat) (h : 0 < n) (h2 : n < 2 ^ 64) : sizeDec n = n - 1 := by
  unfold sizeDec
  have : n + 2 ^ 64 - 1 = (n - 1) + 2 ^ 64 := by omega
  rw [this, Nat.add_mod_right, Nat.mod_eq_of_lt (by omega)]

theorem status_forUp (reg : cpmStatusReg) (intNum : Nat) (hi : intNum < 3)
    (h47 : reg.bitSet 47 = false) :
    ∀ (m : Nat) (bv : String) (bi : Nat), m ≤ 16 → (0 < m → bi = 16 * intNum + (m - 1)) →
      forUp (statusBit reg intNum) m (16 - m) (bv, bi) =
        some (bv ++ joinLines ((descFrom (16 * intNum) m).filterMap (statusSpecLine reg)),
          sizeDec^[m] bi) := by
  intro m
  induction m with
  | zero => intro bv bi _ _; simp [forUp, descFrom, joinLines]
  | succ m ih =>
    intro bv bi hm hbi
    have hbi' : bi = 16 * intNum + m := by simpa using hbi (Nat.succ_pos m)
    subst hbi'
    have h1 : 16 - (m + 1) = 15 - m := by omega
    have h2 : 15 - m + 1 = 16 - m := by omega
    rw [forUp, h1, statusBit_eq reg intNum m hi (by omega) bv h47, Option.some_bind, h2,
      ih _ _ (by omega)]
    · rw [descFrom, joinLines_filterMap_cons, Function.iterate_succ_apply, String.append_assoc]
    · intro hpos
      rw [sizeDec_pos _ (by omega) (by omega)]
      omega

theorem hdr_token (w : Nat) (h : w < 65536) : snprintf50 (fmt04X w ++ " ") = fmt04X w ++ " " := by
  unfold fmt04X
  rw [if_pos h]
  rfl

theorem statusWord_lt (reg : cpmStatusReg) (i : Nat) : reg.word i < 65536 := by
  unfold cpmStatusReg.word
  split
  · exact Nat.mod_lt _ (by norm_num)
  · norm_num

theorem statusReport_eq (reg : cpmStatusReg) (h47 : reg.bitSet 47 = false) :
    statusReport reg = some (statusHeader reg ++ "\n" ++ joinLines (statusSpecLines reg)) := by
  have e2 := status_forUp reg 2 (by norm_num) h47 16 "" 47 (le_refl _) (fun _ => rfl)
  have e1 := fun bv => status_forUp reg 1 (by norm_num) h47 16 bv 31 (le_refl _) (fun _ => rfl)
  have e0 := fun bv => status_forUp reg 0 (by norm_num) h47 16 bv 15 (le_refl _) (fun _ => rfl)
  have i2 : sizeDec^[16] 47 = 31 := by decide
  have i1 : sizeDec^[16] 31 = 15 := by decide
  have hd : descending 48 = descFrom (16 * 2) 16 ++ (descFrom (16 * 1) 16 ++ descFrom (16 * 0) 16) := by
    decide
  simp only [Nat.sub_self] at e2 e1 e0
  unfold statusReport
  simp only [forDown, statusWord, e2, e1, e0, i2, i1, Option.map_some', Option.bind_eq_bind,
    Option.some_bind, hdr_token _ (statusWord_lt reg _)]
  simp only [statusHeader, statusSpecLines, hd, List.filterMap_append, joinLines_append,
    String.append_assoc, String.empty_append]


theorem alert_token (i : Nat) (hi : i < 96) :
    (CPSCalertsBitStrs[i]?).map (fun name => snprintf50 ("[" ++ fmt02d i ++ "] " ++ name ++ "\n"))
      = some ("[" ++ fmt02d i ++ "] " ++ CPSCalertsBitStrs.getD i "" ++ "\n") := by
  revert i
  decide

theorem alertBit_eq (reg : cpmAlertReg) (intNum m : Nat) (hi : intNum < 3) (hm : m < 32)
    (bv : String) :
    alertBit reg intNum (31 - m) (bv, 32 * intNum + m) =
      some (bv ++ joinLines (alertSpecLine reg (32 * intNum + m)).toList,
        sizeDec (32 * intNum + m)) := by
  have hdiv : (32 * intNum + m) / 32 = intNum := by omega
  have hmod : (32 * intNum + m) % 32 = m := by omega
  have hmask : (0x80000000 >>> (31 - m)) % 4294967296 = 2 ^ m := by
    rw [alert_mask _ (by omega)]; congr 1; omega
  rw [joinLines_toList]
  unfold alertBit alertSpecLine
  simp only [hmask]
  by_cases hb : reg.bitSet (32 * intNum + m) = true
  · have hw : reg.word intNum &&& 2 ^ m ≠ 0 := by
      rw [and_two_pow_ne_zero]
      simpa [cpmAlertReg.bitSet, hdiv, hmod] using hb
    rw [if_pos hw, map_append_token _ _ bv _ (alert_token _ (by omega))]
    simp [hb]
  · have hw : ¬ (reg.word intNum &&& 2 ^ m ≠ 0) := by
      rw [and_two_pow_ne_zero]
      simpa [cpmAlertReg.bitSet, hdiv, hmod] using hb
    rw [if_neg hw]
    simp [hb]

theorem alert_forUp (reg : cpmAlertReg) (intNum : Nat) (hi : intNum < 3) :
    ∀ (m : Nat) (bv : String) (bi : Nat), m ≤ 32 → (0 < m → bi = 32 * intNum + (m - 1)) →
      forUp (alertBit reg intNum) m (32 - m) (bv, bi) =
        some (bv ++ joinLines ((descFrom (32 * intNum) m).filterMap (alertSpecLine reg)),
          sizeDec^[m] bi) := by
  intro m
  induction m with
  | zero => intro bv bi _ _; simp [forUp, descFrom, joinLines]
  | succ m ih =>
    intro bv bi hm hbi
    have hbi' : bi = 32 * intNum + m := by simpa using hbi (Nat.succ_pos m)
    subst hbi'
    have h1 : 32 - (m + 1) = 31 - m := by omega
    have h2 : 31 - m + 1 = 32 - m := by omega
    rw [forUp, h1, alertBit_eq reg intNum m hi (by omega) bv, Option.some_bind, h2,
      ih _ _ (by omega)]
    · rw [descFrom, joinLines_filterMap_cons, Function.iterate_succ_apply, String.append_assoc]
    · intro hpos
      rw [sizeDec_pos _ (by omega) (by omega)]
      omega

theorem alertWord_lt (reg : cpmAlertReg) (i : Nat) : reg.word i < 4294967296 := by
  unfold cpmAlertReg.word
  split
  · exact Nat.mod_lt _ (by norm_num)
  · norm_num

theorem alert_hdr_token (w : Nat) (h : w < 4294967296) :
    snprintf50 (fmt04X (w >>> 16) ++ " " ++ fmt04X (w &&& 0xFFFF) ++ " ") =
      (fmt04X (w / 65536) ++ " ") ++ (fmt04X (w % 65536) ++ " ") := by
  have h1 : w >>> 16 = w / 65536 := by rw [Nat.shiftRight_eq_div_pow]
  have h2 : w &&& 0xFFFF = w % 65536 := Nat.and_pow_two_sub_one_eq_mod w 16
  have h3 : w / 65536 < 65536 := by omega
  have h4 : w % 65536 < 65536 := Nat.mod_lt _ (by norm_num)
  rw [h1, h2]
  unfold fmt04X
  rw [if_pos h3, if_pos h4]
  rfl

theorem alertReport_eq (reg : cpmAlertReg) :
    alertReport reg = some (alertHeader reg ++ "\n" ++ joinLines (alertSpecLines reg)) := by
  have e2 := alert_forUp reg 2 (by norm_num) 32 "" 95 (le_refl _) (fun _ => rfl)
  have e1 := fun bv => alert_forUp reg 1 (by norm_num) 32 bv 63 (le_refl _) (fun _ => rfl)
  have e0 := fun bv => alert_forUp reg 0 (by norm_num) 32 bv 31 (le_refl _) (fun _ => rfl)
  have i2 : sizeDec^[32] 95 = 63 := by decide
  have i1 : sizeDec^[32] 63 = 31 := by decide
  have hd : descending 96 = descFrom (32 * 2) 32 ++ (descFrom (32 * 1) 32 ++ descFrom (32 * 0) 32) := by
    decide
  simp only [Nat.sub_self] at e2 e1 e0
  unfold alertReport
  simp only [forDown, alertWord, e2, e1, e0, i2, i1, Option.map_some', Option.bind_eq_bind,
    Option.some_bind, alert_hdr_token _ (alertWord_lt reg _)]
  simp only [alertHeader, alertGroups, alertSpecLines, hd, List.filterMap_append,
    joinLines_append, String.append_assoc, String.empty_append, List.map, String.join,
    List.foldl]

end DecoderTheorems

section BufferTheorems

theorem takeWhile_ne_nul (A R : List Char) (h : NUL ∉ A) :
    (A ++ NUL :: R).takeWhile (fun c => decide (c ≠ NUL)) = A := by
  induction A with
  | nil => simp [List.takeWhile]
  | cons a A ih =>
    have ha : a ≠ NUL := fun e => h (by simp [e])
    have hA : NUL ∉ A := fun e => h (by simp [e])
    rw [List.cons_append, List.takeWhile_cons, if_pos (by simpa using ha), ih hA]

theorem strncpyTerminated_eq (src : String) (size : Nat) (h : 0 < size) :
    ∃ k, strncpyTerminated src size =
      some (src.data.take (size - 1) ++ NUL :: List.replicate k NUL) ∧
      (src.data.take (size - 1) ++ NUL :: List.replicate k NUL).length = size := by
  unfold strncpyTerminated
  rw [if_neg (by omega)]
  have hlen : (src.data.take size ++ List.replicate (size - src.data.length) NUL).length = size := by
    simp only [List.length_append, List.length_take, List.length_replicate]; omega
  refine ⟨min (size - 1 - min size src.data.length) (size - src.data.length), ?_, ?_⟩
  · simp only [Option.some.injEq]
    rw [List.set_eq_take_append_cons_drop, if_pos (by omega)]
    have hdrop : List.drop (size - 1 + 1)
        (src.data.take size ++ List.replicate (size - src.data.length) NUL) = [] := by
      apply List.drop_eq_nil_of_le; omega
    rw [hdrop, List.take_append_eq_append_take, List.take_take, List.length_take,
      List.take_replicate, List.append_assoc]
    have hmin : min (size - 1) size = size - 1 := by omega
    rw [hmin]
    congr 1
    rw [← List.replicate_succ, List.replicate_succ']
  · simp only [List.length_append, List.length_take, List.length_cons, List.length_replicate]
    omega

theorem cString_strncpyTerminated (src : String) (size : Nat) (h : 0 < size)
    (hnul : NUL ∉ src.data) :
    ∃ buf, strncpyTerminated src size = some buf ∧ buf.length = size ∧
      buf[size - 1]? = some NUL ∧ (cString buf).data = src.data.take (size - 1) := by
  obtain ⟨k, hk, hlen⟩ := strncpyTerminated_eq src size h
  refine ⟨_, hk, hlen, ?_, ?_⟩
  · have hA : (src.data.take (size - 1)).length ≤ size - 1 := by
      rw [List.length_take]; omega
    simp only [List.length_append, List.length_cons, List.length_replicate] at hlen
    rw [List.getElem?_append_right hA, ← List.replicate_succ, List.getElem?_replicate,
      if_pos (by omega)]
  · unfold cString
    simp only
    exact takeWhile_ne_nul _ _ (fun hm => hnul (List.mem_of_mem_take hm))

end BufferTheorems

section ReportTheorems

theorem hexDigit_ok (d : Nat) (hd : d < 16) :
    headerCharOk (hexDigit d) = true ∧ hexDigitValue (hexDigit d) = some d := by
  revert d
  decide

theorem fmt04X_data (w : Nat) (h : w < 65536) :
    (fmt04X w).data = [hexDigit (w / 4096 % 16), hexDigit (w / 256 % 16), hexDigit (w / 16 % 16),
      hexDigit (w % 16)] := by
  unfold fmt04X
  rw [if_pos h]

theorem fmt04X_ok (w : Nat) (h : w < 65536) :
    ∀ c ∈ (fmt04X w).data, headerCharOk c = true := by
  intro c hc
  rw [fmt04X_data w h] at hc
  simp only [List.mem_cons, List.mem_singleton, List.not_mem_nil, or_false] at hc
  rcases hc with rfl | rfl | rfl | rfl <;>
    exact (hexDigit_ok _ (Nat.mod_lt _ (by norm_num))).1

theorem statusHeader_ok (reg : cpmStatusReg) :
    ∀ c ∈ (statusHeader reg).data, headerCharOk c = true := by
  intro c hc
  unfold statusHeader at hc
  simp only [String.data_append, List.mem_append] at hc
  rcases hc with (((((hc | hc) | hc) | hc) | hc) | hc) | hc
  · revert c; decide
  · exact fmt04X_ok _ (statusWord_lt reg 2) c hc
  · revert c; decide
  · exact fmt04X_ok _ (statusWord_lt reg 1) c hc
  · revert c; decide
  · exact fmt04X_ok _ (statusWord_lt reg 0) c hc
  · revert c; decide

theorem statusHeader_length (reg : cpmStatusReg) : (statusHeader reg).data.length = 17 := by
  unfold statusHeader
  simp only [String.data_append, List.length_append, fmt04X_data _ (statusWord_lt reg _)]
  rfl

theorem alertGroups_lt (reg : cpmAlertReg) : ∀ g ∈ alertGroups reg, g < 65536 := by
  intro g hg
  have h2 := alertWord_lt reg 2
  have h1 := alertWord_lt reg 1
  have h0 := alertWord_lt reg 0
  simp only [alertGroups, List.mem_cons, List.mem_singleton, List.not_mem_nil, or_false] at hg
  rcases hg with rfl | rfl | rfl | rfl | rfl | rfl <;> omega

theorem alertHeader_data (reg : cpmAlertReg) :
    (alertHeader reg).data = "0x".data ++
      ((fmt04X (reg.word 2 / 65536)).data ++ " ".data ++
      ((fmt04X (reg.word 2 % 65536)).data ++ " ".data ++
      ((fmt04X (reg.word 1 / 65536)).data ++ " ".data ++
      ((fmt04X (reg.word 1 % 65536)).data ++ " ".data ++
      ((fmt04X (reg.word 0 / 65536)).data ++ " ".data ++
      ((fmt04X (reg.word 0 % 65536)).data ++ " ".data)))))) := by
  simp [alertHeader, alertGroups, String.join, List.foldl, String.data_append]

theorem alertHeader_ok (reg : cpmAlertReg) :
    ∀ c ∈ (alertHeader reg).data, headerCharOk c = true := by
  intro c hc
  have hlt := alertGroups_lt reg
  simp only [alertGroups, List.mem_cons, List.mem_singleton, List.not_mem_nil, or_false,
    forall_eq_or_imp, forall_eq] at hlt
  obtain ⟨g5, g4, g3, g2, g1, g0⟩ := hlt
  rw [alertHeader_data] at hc
  simp only [List.mem_append] at hc
  rcases hc with hc | (hc | hc) | (hc | hc) | (hc | hc) | (hc | hc) | (hc | hc) | (hc | hc)
  · revert c; decide
  · exact fmt04X_ok _ g5 c hc
  · revert c; decide
  · exact fmt04X_ok _ g4 c hc
  · revert c; decide
  · exact fmt04X_ok _ g3 c hc
  · revert c; decide
  · exact fmt04X_ok _ g2 c hc
  · revert c; decide
  · exact fmt04X_ok _ g1 c hc
  · revert c; decide
  · exact fmt04X_ok _ g0 c hc
  · revert c; decide

theorem alertHeader_length (reg : cpmAlertReg) : (alertHeader reg).data.length = 32 := by
  have hlt := alertGroups_lt reg
  simp only [alertGroups, List.mem_cons, List.mem_singleton, List.not_mem_nil, or_false,
    forall_eq_or_imp, forall_eq] at hlt
  obtain ⟨g5, g4, g3, g2, g1, g0⟩ := hlt
  rw [alertHeader_data]
  simp only [List.length_append, fmt04X_data _ g5, fmt04X_data _ g4, fmt04X_data _ g3,
    fmt04X_data _ g2, fmt04X_data _ g1, fmt04X_data _ g0]
  rfl


theorem mem_descending (n i : Nat) : i ∈ descending n ↔ i < n := by
  induction n with
  | zero => simp [descending]
  | succ n ih => simp only [descending, List.mem_cons, ih]; omega

theorem status_bitLine_ok (i : Nat) (hi : i < 48) :
    lineOk ("[" ++ fmt02d i ++ "] " ++ CPSCStatusBitStrs.getD i "") = true := by
  revert i
  decide

theorem status_enumLine_ok (v : Nat) (hv : v < 4) :
    lineOk ("[40-41] ShutdownState: " ++ CPSCshutdowns.getD v "") = true ∧
      lineOk ("[32-33] InMotion: " ++ CPSCinMotions.getD v "") = true := by
  revert v
  decide

theorem alert_bitLine_ok (i : Nat) (hi : i < 96) :
    lineOk ("[" ++ fmt02d i ++ "] " ++ CPSCalertsBitStrs.getD i "") = true := by
  revert i
  decide

theorem statusSpecLine_ok (reg : cpmStatusReg) (i : Nat) (l : String) (hi : i < 48)
    (h : statusSpecLine reg i = some l) : lineOk l = true := by
  unfold statusSpecLine at h
  split_ifs at h with h1 h2 h3 h4
  · cases h; exact (status_enumLine_ok _ (Nat.mod_lt _ (by norm_num))).1
  · cases h; exact (status_enumLine_ok _ (Nat.mod_lt _ (by norm_num))).2
  · cases h; exact status_bitLine_ok i hi

theorem alertSpecLine_ok (reg : cpmAlertReg) (i : Nat) (l : String) (hi : i < 96)
    (h : alertSpecLine reg i = some l) : lineOk l = true := by
  unfold alertSpecLine at h
  split_ifs at h
  cases h; exact alert_bitLine_ok i hi

theorem statusSpecLines_ok (reg : cpmStatusReg) : ∀ l ∈ statusSpecLines reg, lineOk l = true := by
  intro l hl
  obtain ⟨i, hi, h⟩ := List.mem_filterMap.1 hl
  exact statusSpecLine_ok reg i l ((mem_descending _ _).1 hi) h

theorem alertSpecLines_ok (reg : cpmAlertReg) : ∀ l ∈ alertSpecLines reg, lineOk l = true := by
  intro l hl
  obtain ⟨i, hi, h⟩ := List.mem_filterMap.1 hl
  exact alertSpecLine_ok reg i l ((mem_descending _ _).1 hi) h

theorem lineOk_head (l : String) (h : lineOk l = true) : ∃ t, l.data = '[' :: t := by
  unfold lineOk at h
  simp only [Bool.and_eq_true, beq_iff_eq] at h
  cases hd : l.data with
  | nil => rw [hd] at h; simp at h
  | cons a t =>
    rw [hd] at h
    simp only [List.head?_cons, Option.some.injEq] at h
    exact ⟨t, by rw [h.1]⟩

theorem lineOk_chars (l : String) (h : lineOk l = true) :
    ∀ c ∈ l.data, c ≠ NUL ∧ c ≠ '\n' := by
  unfold lineOk at h
  simp only [Bool.and_eq_true, List.all_eq_true, bne_iff_ne, ne_eq] at h
  exact fun c hc => h.2 c hc

theorem joinLines_data_cons (l : String) (ls : List String) :
    (joinLines (l :: ls)).data = l.data ++ '\n' :: (joinLines ls).data := by
  simp [joinLines, String.data_append]

theorem joinLines_nul (L : List String) (h : ∀ l ∈ L, lineOk l = true) :
    NUL ∉ (joinLines L).data := by
  induction L with
  | nil => simp [joinLines]
  | cons l ls ih =>
    rw [joinLines_data_cons]
    intro hm
    rcases List.mem_append.1 hm with hm | hm
    · exact (lineOk_chars l (h l (List.mem_cons_self _ _)) _ hm).1 rfl
    · rcases List.mem_cons.1 hm with hm | hm
      · exact absurd hm (by decide)
      · exact ih (fun l' hl' => h l' (List.mem_cons_of_mem _ hl')) hm

theorem joinLines_head (L : List String) (h : ∀ l ∈ L, lineOk l = true) :
    (joinLines L).data = [] ∨ ∃ t, (joinLines L).data = '[' :: t := by
  cases L with
  | nil => left; rfl
  | cons l ls =>
    right
    obtain ⟨t, ht⟩ := lineOk_head l (h l (List.mem_cons_self _ _))
    exact ⟨t ++ '\n' :: (joinLines ls).data, by rw [joinLines_data_cons, ht]; rfl⟩

theorem headerOk_nul (h : List Char) (hh : ∀ c ∈ h, headerCharOk c = true) : NUL ∉ h := by
  intro hm
  have := hh _ hm
  revert this
  decide

theorem report_nul (hdr : String) (L : List String) (hh : ∀ c ∈ hdr.data, headerCharOk c = true)
    (hL : ∀ l ∈ L, lineOk l = true) : NUL ∉ (hdr ++ "\n" ++ joinLines L).data := by
  simp only [String.data_append, List.mem_append, not_or]
  exact ⟨⟨headerOk_nul _ hh, by decide⟩, joinLines_nul L hL⟩

end ReportTheorems

section LineTheorems

theorem splitLines_ne_nil (cs : List Char) : splitLines cs ≠ [] := by
  induction cs with
  | nil => simp [splitLines]
  | cons c cs ih =>
    unfold splitLines
    split
    · simp
    · split <;> simp

theorem splitLines_append_newline (a b : List Char) :
    splitLines (a ++ '\n' :: b) = splitLines a ++ splitLines b := by
  induction a with
  | nil => simp [splitLines]
  | cons c a ih =>
    rw [List.cons_append, splitLines, splitLines, ih]
    by_cases hc : c = '\n'
    · simp [hc]
    · simp only [hc, if_false]
      cases hs : splitLines a with
      | nil => exact absurd hs (splitLines_ne_nil a)
      | cons l ls => simp

theorem splitLines_line (l : List Char) (h : ∀ c ∈ l, c ≠ '\n') : splitLines l = [l] := by
  induction l with
  | nil => rfl
  | cons c l ih =>
    have hc : c ≠ '\n' := h c (List.mem_cons_self _ _)
    rw [splitLines, if_neg hc, ih (fun c' hc' => h c' (List.mem_cons_of_mem _ hc'))]

theorem mem_splitLines_joinLines (L : List String) (hL : ∀ l ∈ L, lineOk l = true) :
    ∀ (pre : List Char) (l : String), l ∈ L →
      l.data ∈ splitLines (pre ++ '\n' :: (joinLines L).data) := by
  induction L with
  | nil => intro pre l hl; simp at hl
  | cons l1 ls ih =>
    intro pre l hl
    rw [splitLines_append_newline, joinLines_data_cons]
    apply List.mem_append_right
    rcases List.mem_cons.1 hl with rfl | hl
    · rw [splitLines_append_newline,
        splitLines_line _ (fun c hc => (lineOk_chars l (hL l (List.mem_cons_self _ _)) c hc).2)]
      simp
    · exact ih (fun l' hl' => hL l' (List.mem_cons_of_mem _ hl')) l1.data l hl

theorem mem_textLines_report (hdr : String) (L : List String) (hL : ∀ l ∈ L, lineOk l = true)
    (l : String) (hl : l ∈ L) : l ∈ textLines (hdr ++ "\n" ++ joinLines L) := by
  unfold textLines
  have h := mem_splitLines_joinLines L hL hdr.data l hl
  have hd : (hdr ++ "\n" ++ joinLines L).data = hdr.data ++ '\n' :: (joinLines L).data := by
    simp [String.data_append]
  rw [hd]
  exact List.mem_map.2 ⟨l.data, h, rfl⟩

/-- With a buffer larger than the text, `strncpy` and the terminating store leave the
whole text in the buffer. -/
theorem cString_of_large (src : String) (size : Nat) (hnul : NUL ∉ src.data)
    (hsize : src.length < size) : (strncpyTerminated src size).map cString = some src := by
  obtain ⟨buf, hb, _, _, hc⟩ := cString_strncpyTerminated src size (by omega) hnul
  rw [hb, Option.map_some']
  congr 1
  apply String.ext
  rw [hc]
  apply List.take_of_length_le
  have : src.data.length = src.length := rfl
  omega

/-- The status decoder with a large enough buffer: header, newline, bit listing. -/
theorem statusStateStr_eq (reg : cpmStatusReg) (size : Nat) (h47 : reg.bitSet 47 = false)
    (hsize : (statusHeader reg ++ "\n" ++ joinLines (statusSpecLines reg)).length < size) :
    (_cpmStatusRegFlds.StateStr reg size).map cString =
      some (statusHeader reg ++ "\n" ++ joinLines (statusSpecLines reg)) := by
  unfold _cpmStatusRegFlds.StateStr
  rw [statusReport_eq reg h47, Option.some_bind]
  exact cString_of_large _ _ (report_nul _ _ (statusHeader_ok reg) (statusSpecLines_ok reg)) hsize

/-- The alert decoder with a large enough buffer: header, newline, bit listing. -/
theorem alertStateStr_eq (reg : cpmAlertReg) (size : Nat)
    (hsize : (alertHeader reg ++ "\n" ++ joinLines (alertSpecLines reg)).length < size) :
    (_cpmAlertFlds.StateStr reg size).map cString =
      some (alertHeader reg ++ "\n" ++ joinLines (alertSpecLines reg)) := by
  unfold _cpmAlertFlds.StateStr
  rw [alertReport_eq reg, Option.some_bind]
  exact cString_of_large _ _ (report_nul _ _ (alertHeader_ok reg) (alertSpecLines_ok reg)) hsize

end LineTheorems

section StatusDecoder

/-- C4 fails as stated: for the register with bit 16 set and `InMotion = 01` (all other
bits clear) the report has the lines `[40-41] ShutdownState: OK`, `[32-33] InMotion: +`
and `[16] MoveCanceled`; there is no line `[16] Enabled`. -/
theorem status_bit16_not_Enabled :
    bit16MovingStatusReg.bitSet 16 = true ∧ bit16MovingStatusReg.InMotion = 1 ∧
      (_cpmStatusRegFlds.StateStr bit16MovingStatusReg 100).map (fun b => textLines (cString b)) =
        some ["0x0001 0001 0000 ", "[40-41] ShutdownState: OK", "[32-33] InMotion: +",
          "[16] MoveCanceled", ""] ∧
      "[16] Enabled" ∉ ["0x0001 0001 0000 ", "[40-41] ShutdownState: OK", "[32-33] InMotion: +",
          "[16] MoveCanceled", ""] := by
  decide

/-- C4, amended: for a status register with bit 16 set and `InMotion = 01` (bit 47 clear,
buffer large enough), the report has a line `[16] MoveCanceled` and a line
`[32-33] InMotion: +`; the line `[15] Enabled` is there when bit 15 is set. -/
theorem status_bit16_MoveCanceled (reg : cpmStatusReg) (size : Nat)
    (h16 : reg.bitSet 16 = true) (hmot : reg.InMotion = 1) (h47 : reg.bitSet 47 = false)
    (hsize : (statusHeader reg ++ "\n" ++ joinLines (statusSpecLines reg)).length < size) :
    ∃ text, (_cpmStatusRegFlds.StateStr reg size).map cString = some text ∧
      "[16] MoveCanceled" ∈ textLines text ∧ "[32-33] InMotion: +" ∈ textLines text ∧
      (reg.bitSet 15 = true → "[15] Enabled" ∈ textLines text) := by
  refine ⟨_, statusStateStr_eq reg size h47 hsize, ?_, ?_, ?_⟩
  · apply mem_textLines_report _ _ (statusSpecLines_ok reg)
    exact List.mem_filterMap.2 ⟨16, (mem_descending _ _).2 (by norm_num), by
      simp [statusSpecLine, h16]; decide⟩
  · apply mem_textLines_report _ _ (statusSpecLines_ok reg)
    exact List.mem_filterMap.2 ⟨32, (mem_descending _ _).2 (by norm_num), by
      simp [statusSpecLine, hmot]; decide⟩
  · intro h15
    apply mem_textLines_report _ _ (statusSpecLines_ok reg)
    exact List.mem_filterMap.2 ⟨15, (mem_descending _ _).2 (by norm_num), by
      simp [statusSpecLine, h15]; decide⟩

/-- Witness of C4 (amended): the register with only bit 16 and `InMotion = 01`, buffer
of 100 characters. -/
theorem status_bit16_MoveCanceled_witness :
    ∃ text, (_cpmStatusRegFlds.StateStr bit16MovingStatusReg 100).map cString = some text ∧
      "[16] MoveCanceled" ∈ textLines text ∧ "[32-33] InMotion: +" ∈ textLines text ∧
      (bit16MovingStatusReg.bitSet 15 = true → "[15] Enabled" ∈ textLines text) :=
  status_bit16_MoveCanceled bit16MovingStatusReg 100 (by decide) (by decide) (by decide)
    (by decide)

/-- C5: for a status register with bit 47 clear and a buffer large enough for the whole
report, the decoder returns the hex header, a newline, and then exactly the lines of
`statusSpecLines`: going through the bit indices 47, ..., 0 in strictly descending order,
the `ShutdownState` line at 40, the `InMotion` line at 32, nothing at 41 and 33, and
`[ii] Name` for every other bit that is set (nothing for a bit that is clear). -/
theorem statusStateStr_listing (reg : cpmStatusReg) (size : Nat) (h47 : reg.bitSet 47 = false)
    (hsize : (statusHeader reg ++ "\n" ++ joinLines (statusSpecLines reg)).length < size) :
    (_cpmStatusRegFlds.StateStr reg size).map cString =
        some (statusHeader reg ++ "\n" ++ joinLines (statusSpecLines reg)) ∧
      statusSpecLines reg = (descending 48).filterMap (fun i =>
        if i = 40 then
          some ("[40-41] ShutdownState: " ++ CPSCshutdowns.getD reg.ShutdownState "")
        else if i = 32 then some ("[32-33] InMotion: " ++ CPSCinMotions.getD reg.InMotion "")
        else if i = 41 ∨ i = 33 then none
        else if reg.bitSet i then some ("[" ++ fmt02d i ++ "] " ++ CPSCStatusBitStrs.getD i "")
        else none) ∧
      List.Pairwise (fun i j => i > j) (descending 48) ∧
      reg.ShutdownState < CPSCshutdowns.length ∧ reg.InMotion < CPSCinMotions.length :=
  ⟨statusStateStr_eq reg size h47 hsize, rfl, by decide, Nat.mod_lt _ (by norm_num),
    Nat.mod_lt _ (by norm_num)⟩

/-- Witness of C5: the register with only bit 16 and `InMotion = 01`, buffer of 100
characters. -/
theorem statusStateStr_listing_witness :
    (_cpmStatusRegFlds.StateStr bit16MovingStatusReg 100).map cString =
      some (statusHeader bit16MovingStatusReg ++ "\n" ++
        joinLines (statusSpecLines bit16MovingStatusReg)) :=
  (statusStateStr_listing bit16MovingStatusReg 100 (by decide) (by decide)).1

/-- C6: for the all-zero status register and a buffer of more than 70 characters, the
decoder returns the header `0x0000 0000 0000 `, a newline, and exactly two lines: the
`ShutdownState` field reporting `OK` and the `InMotion` field reporting `Stopped`. -/
theorem statusStateStr_zero (size : Nat) (hsize : 70 < size) :
    (_cpmStatusRegFlds.StateStr zeroStatusReg size).map cString =
        some "0x0000 0000 0000 \n[40-41] ShutdownState: OK\n[32-33] InMotion: Stopped\n" ∧
      statusHeader zeroStatusReg = "0x0000 0000 0000 " ∧
      statusSpecLines zeroStatusReg =
        ["[40-41] ShutdownState: OK", "[32-33] InMotion: Stopped"] := by
  have h := statusStateStr_eq zeroStatusReg size (by decide)
  have e : statusHeader zeroStatusReg ++ "\n" ++ joinLines (statusSpecLines zeroStatusReg) =
      "0x0000 0000 0000 \n[40-41] ShutdownState: OK\n[32-33] InMotion: Stopped\n" := by decide
  rw [e] at h
  exact ⟨h hsize, by decide, by decide⟩

/-- Witness of C6: a buffer of 71 characters. -/
theorem statusStateStr_zero_witness :
    (_cpmStatusRegFlds.StateStr zeroStatusReg 71).map cString =
      some "0x0000 0000 0000 \n[40-41] ShutdownState: OK\n[32-33] InMotion: Stopped\n" :=
  (statusStateStr_zero 71 (by decide)).1

end StatusDecoder

section BufferTruncation

theorem take_header (hdr rest : List Char) (n size : Nat) (hn : hdr.length = n) (hs : n < size) :
    ((hdr ++ rest).take (size - 1)).take n = hdr := by
  rw [List.take_take, Nat.min_eq_left (by omega), ← hn, List.take_left']
  rfl

theorem report_data (hdr listing : String) :
    (hdr ++ "\n" ++ listing).data = hdr.data ++ ('\n' :: listing.data) := by
  simp [String.data_append]

/-- C7 fails as stated: with a buffer of 5 characters both decoders return `0x00`, which
does not hold the complete hex header; and for the status register with bit 47 set the
decoder reads entry 47 of the 47-entry name table, so no text is defined at all. -/
theorem stateStr_small_buffer_cuts_header :
    (_cpmStatusRegFlds.StateStr zeroStatusReg 5).map cString = some "0x00" ∧
      statusHeader zeroStatusReg = "0x0000 0000 0000 " ∧
      (_cpmAlertFlds.StateStr bit0AlertReg 5).map cString = some "0x00" ∧
      alertHeader bit0AlertReg = "0x0000 0000 0000 0000 0000 0001 " ∧
      CPSCStatusBitStrs.length = 47 ∧
      _cpmStatusRegFlds.StateStr bit47StatusReg 100 = none := by
  decide

/-- C7, amended: for every status register with bit 47 clear, every alert register and
every buffer size >= 1, the decoder fills the buffer of `size` characters, its last
character is NUL, and the returned text is the first `size - 1` characters of the full
report (the whole report when it is shorter); the hex header (17 characters for the
status register, 32 for the alert register) is complete as soon as the buffer is
larger than it. -/
theorem stateStr_truncates (reg : cpmStatusReg) (areg : cpmAlertReg) (size : Nat)
    (hsize : 1 ≤ size) (h47 : reg.bitSet 47 = false) :
    (∃ report buf, statusReport reg = some report ∧
      _cpmStatusRegFlds.StateStr reg size = some buf ∧ buf.length = size ∧
      buf[size - 1]? = some NUL ∧ (cString buf).data = report.data.take (size - 1) ∧
      (17 < size → (cString buf).data.take 17 = (statusHeader reg).data)) ∧
    (∃ report buf, alertReport areg = some report ∧
      _cpmAlertFlds.StateStr areg size = some buf ∧ buf.length = size ∧
      buf[size - 1]? = some NUL ∧ (cString buf).data = report.data.take (size - 1) ∧
      (32 < size → (cString buf).data.take 32 = (alertHeader areg).data)) := by
  constructor
  · obtain ⟨buf, hb, hlen, hlast, hc⟩ := cString_strncpyTerminated
      (statusHeader reg ++ "\n" ++ joinLines (statusSpecLines reg)) size (by omega)
      (report_nul _ _ (statusHeader_ok reg) (statusSpecLines_ok reg))
    refine ⟨_, buf, statusReport_eq reg h47, ?_, hlen, hlast, hc, ?_⟩
    · unfold _cpmStatusRegFlds.StateStr
      rw [statusReport_eq reg h47, Option.some_bind, hb]
    · intro h
      rw [hc, report_data]
      exact take_header _ _ 17 size (statusHeader_length reg) h
  · obtain ⟨buf, hb, hlen, hlast, hc⟩ := cString_strncpyTerminated
      (alertHeader areg ++ "\n" ++ joinLines (alertSpecLines areg)) size (by omega)
      (report_nul _ _ (alertHeader_ok areg) (alertSpecLines_ok areg))
    refine ⟨_, buf, alertReport_eq areg, ?_, hlen, hlast, hc, ?_⟩
    · unfold _cpmAlertFlds.StateStr
      rw [alertReport_eq areg, Option.some_bind, hb]
    · intro h
      rw [hc, report_data]
      exact take_header _ _ 32 size (alertHeader_length areg) h

/-- Witness of C7 (amended): the all-zero status register and the alert register with
bit 0 set, buffer of 5 characters. -/
theorem stateStr_truncates_witness :
    ∃ report buf, statusReport zeroStatusReg = some report ∧
      _cpmStatusRegFlds.StateStr zeroStatusReg 5 = some buf ∧ buf.length = 5 ∧
      buf[5 - 1]? = some NUL ∧ (cString buf).data = report.data.take (5 - 1) ∧
      (17 < 5 → (cString buf).data.take 17 = (statusHeader zeroStatusReg).data) :=
  (stateStr_truncates zeroStatusReg bit0AlertReg 5 (by decide) (by decide)).1

theorem takeWhile_header (hdr listing : List Char) (hh : ∀ c ∈ hdr, headerCharOk c = true)
    (hl : listing = [] ∨ ∃ t, listing = '[' :: t) :
    (hdr ++ ('\n' :: listing)).takeWhile (fun c => decide (c ≠ '[')) = hdr ++ ['\n'] := by
  have e : hdr ++ ('\n' :: listing) = (hdr ++ ['\n']) ++ listing := by simp
  have hp : ∀ c ∈ hdr ++ ['\n'], (fun c => decide (c ≠ '[')) c = true := by
    intro c hc
    rcases List.mem_append.1 hc with hc | hc
    · have := hh c hc
      revert this
      unfold headerCharOk
      simp only [Bool.and_eq_true, bne_iff_ne, ne_eq, decide_not, Bool.not_eq_true',
        decide_eq_false_iff_not]
      exact fun h => h.2
    · simp only [List.mem_singleton] at hc
      subst hc
      decide
  rw [e, List.takeWhile_append_of_pos hp]
  rcases hl with rfl | ⟨t, rfl⟩
  · simp
  · simp [List.takeWhile]

theorem count_newline_header (hdr : List Char) (hh : ∀ c ∈ hdr, headerCharOk c = true) :
    (hdr ++ ['\n']).count '\n' = 1 := by
  have h0 : hdr.count '\n' = 0 := by
    apply List.count_eq_zero.2
    intro hm
    have := hh _ hm
    revert this
    decide
  rw [List.count_append, h0]
  rfl

/-- C8 fails as stated: in the report of the all-zero status register, and in that of
the alert register with bit 0 set, the text before the first `[` is the hex header
followed by one newline character, not two. -/
theorem report_has_no_blank_line :
    (statusReport zeroStatusReg).map (fun r => r.data.takeWhile (fun c => decide (c ≠ '['))) =
        some "0x0000 0000 0000 \n".data ∧
      "0x0000 0000 0000 \n".data.count '\n' = 1 ∧
      (alertReport bit0AlertReg).map (fun r => r.data.takeWhile (fun c => decide (c ≠ '['))) =
        some "0x0000 0000 0000 0000 0000 0001 \n".data ∧
      "0x0000 0000 0000 0000 0000 0001 \n".data.count '\n' = 1 := by
  decide

/-- C8, amended: the full report of both decoders is the hex header (which ends in a
space and holds no newline), one newline character, and the bit listing; the text
before the first `[` is the header followed by that single newline, so no blank line
separates the header from the first bit line. -/
theorem report_header_then_listing (reg : cpmStatusReg) (areg : cpmAlertReg)
    (h47 : reg.bitSet 47 = false) :
    (statusReport reg = some (statusHeader reg ++ "\n" ++ joinLines (statusSpecLines reg)) ∧
      (statusHeader reg ++ "\n" ++ joinLines (statusSpecLines reg)).data.takeWhile
        (fun c => decide (c ≠ '[')) = (statusHeader reg).data ++ ['\n'] ∧
      ((statusHeader reg).data ++ ['\n']).count '\n' = 1) ∧
    (alertReport areg = some (alertHeader areg ++ "\n" ++ joinLines (alertSpecLines areg)) ∧
      (alertHeader areg ++ "\n" ++ joinLines (alertSpecLines areg)).data.takeWhile
        (fun c => decide (c ≠ '[')) = (alertHeader areg).data ++ ['\n'] ∧
      ((alertHeader areg).data ++ ['\n']).count '\n' = 1) := by
  refine ⟨⟨statusReport_eq reg h47, ?_, count_newline_header _ (statusHeader_ok reg)⟩,
    ⟨alertReport_eq areg, ?_, count_newline_header _ (alertHeader_ok areg)⟩⟩
  · rw [report_data]
    exact takeWhile_header _ _ (statusHeader_ok reg)
      (joinLines_head _ (statusSpecLines_ok reg))
  · rw [report_data]
    exact takeWhile_header _ _ (alertHeader_ok areg)
      (joinLines_head _ (alertSpecLines_ok areg))

/-- Witness of C8 (amended): the all-zero status register and the alert register with
bit 0 set. -/
theorem report_header_then_listing_witness :
    statusReport zeroStatusReg =
      some (statusHeader zeroStatusReg ++ "\n" ++ joinLines (statusSpecLines zeroStatusReg)) :=
  (report_header_then_listing zeroStatusReg bit0AlertReg (by decide)).1.1

end BufferTruncation

section AlertDecoder

theorem hexValue_fmt04X (g : Nat) (h : g < 65536) : hexValue (fmt04X g) = some g := by
  have d3 := (hexDigit_ok (g / 4096 % 16) (Nat.mod_lt _ (by norm_num))).2
  have d2 := (hexDigit_ok (g / 256 % 16) (Nat.mod_lt _ (by norm_num))).2
  have d1 := (hexDigit_ok (g / 16 % 16) (Nat.mod_lt _ (by norm_num))).2
  have d0 := (hexDigit_ok (g % 16) (Nat.mod_lt _ (by norm_num))).2
  unfold hexValue
  rw [fmt04X_data g h]
  simp only [List.foldl, Option.some_bind, d3, d2, d1, d0, Option.map_some', Option.some.injEq]
  omega

theorem fmt04X_length (g : Nat) (h : g < 65536) : (fmt04X g).length = 4 := by
  show (fmt04X g).data.length = 4
  rw [fmt04X_data g h]
  rfl

theorem pairwise_descending (n : Nat) : List.Pairwise (fun i j => i > j) (descending n) := by
  induction n with
  | zero => exact List.Pairwise.nil
  | succ n ih =>
    rw [descending]
    exact List.Pairwise.cons (fun j hj => (mem_descending n j).1 hj) ih

theorem length_filterMap_ite (p : Nat → Bool) (g : Nat → String) (l : List Nat) :
    (l.filterMap (fun i => if p i = true then some (g i) else none)).length =
      (l.filter p).length := by
  induction l with
  | nil => rfl
  | cons a l ih =>
    by_cases h : p a = true
    · simp [List.filterMap_cons, List.filter_cons, h, ih]
    · simp [List.filterMap_cons, List.filter_cons, h, ih]

/-- C9: for every alert register and a buffer large enough for the whole report, the
decoder returns `0x`, then the six 16-bit groups of the register (most significant
word first, every word as its high half then its low half), each as four uppercase
hex digits and a space; then a newline and one line `[ii] Name` for each set bit `i`
with `Name = CPSCalertsBitStrs[i]`, in strictly descending bit order and nothing for a
clear bit. The number of bit lines is the number of set bits and every index is inside
the 96-entry name table. -/
theorem alertStateStr_listing (reg : cpmAlertReg) (size : Nat)
    (hsize : (alertHeader reg ++ "\n" ++ joinLines (alertSpecLines reg)).length < size) :
    (_cpmAlertFlds.StateStr reg size).map cString =
        some (alertHeader reg ++ "\n" ++ joinLines (alertSpecLines reg)) ∧
      alertHeader reg = "0x" ++ String.join ((alertGroups reg).map fun g => fmt04X g ++ " ") ∧
      alertGroups reg = [reg.word 2 / 65536, reg.word 2 % 65536, reg.word 1 / 65536,
        reg.word 1 % 65536, reg.word 0 / 65536, reg.word 0 % 65536] ∧
      (∀ g ∈ alertGroups reg,
        g < 65536 ∧ (fmt04X g).length = 4 ∧ hexValue (fmt04X g) = some g) ∧
      alertSpecLines reg = (descending 96).filterMap (fun i =>
        if reg.bitSet i then some ("[" ++ fmt02d i ++ "] " ++ CPSCalertsBitStrs.getD i "")
        else none) ∧
      List.Pairwise (fun i j => i > j) (descending 96) ∧
      (alertSpecLines reg).length = ((descending 96).filter reg.bitSet).length ∧
      CPSCalertsBitStrs.length = 96 ∧
      (∀ i ∈ descending 96, i < CPSCalertsBitStrs.length) := by
  refine ⟨alertStateStr_eq reg size hsize, rfl, rfl, ?_, rfl, pairwise_descending 96, ?_, rfl, ?_⟩
  · intro g hg
    have hlt := alertGroups_lt reg g hg
    exact ⟨hlt, fmt04X_length g hlt, hexValue_fmt04X g hlt⟩
  · exact length_filterMap_ite _ _ _
  · intro i hi
    exact (mem_descending 96 i).1 hi

/-- Witness of C9: the alert register with only bit 0 set, buffer of 100 characters. -/
theorem alertStateStr_listing_witness :
    (_cpmAlertFlds.StateStr bit0AlertReg 100).map cString =
      some "0x0000 0000 0000 0000 0000 0001 \n[00] FwSelfTest\n" := by
  have h := (alertStateStr_listing bit0AlertReg 100 (by decide)).1
  have e : alertHeader bit0AlertReg ++ "\n" ++ joinLines (alertSpecLines bit0AlertReg) =
      "0x0000 0000 0000 0000 0000 0001 \n[00] FwSelfTest\n" := by decide
  rw [e] at h
  exact h

end AlertDecoder

/-! ## Theorems: converters, continued -/

section MonGainFailure

/-- The body of `convertMonGain` returns 0 early on a degenerate sample period, a
non-positive max current or ADC max, or a failed read of max current, ADC max, command
density or encoder density. -/
theorem monGainBase_degenerate {α : Type} [LinearOrderedField α] (K : MonVars) (M : Libm α)
    (valIsBits : Bool) (theMultiAddr : Node α) (theVar : Nat) (convVal : α)
    (h : |(theMultiAddr.netGetParameterInfo CPM_P_SAMPLE_PERIOD).2| < 1 / 1000 ∨
      (theMultiAddr.netGetParameterInfo CPM_P_DRV_I_MAX).2 ≤ 0 ∨
      (theMultiAddr.netGetParameterInfo CPM_P_DRV_ADC_MAX).2 ≤ 0 ∨
      infoFails theMultiAddr CPM_P_DRV_I_MAX ∨ infoFails theMultiAddr CPM_P_DRV_ADC_MAX ∨
      infoFails theMultiAddr CPM_P_CMD_CNTS_PER_REV ∨
      infoFails theMultiAddr CPM_P_DRV_ENC_DENS) :
    monGainBase K M valIsBits theMultiAddr theVar convVal = .error 0 := by
  unfold monGainBase
  by_cases h1 : (theMultiAddr.netGetParameterInfo CPM_P_DRV_I_MAX).1 ≠ MN_OK
  · rw [if_pos h1]
  rw [if_neg h1]
  by_cases h2 : (theMultiAddr.netGetParameterInfo CPM_P_DRV_ADC_MAX).1 ≠ MN_OK
  · rw [if_pos h2]
  rw [if_neg h2]
  by_cases h3 : (theMultiAddr.netGetParameterInfo CPM_P_DRV_I_MAX).2 ≤ 0 ∨
      (theMultiAddr.netGetParameterInfo CPM_P_DRV_ADC_MAX).2 ≤ 0
  · rw [if_pos h3]
  rw [if_neg h3]
  by_cases h4 : (theMultiAddr.netGetParameterInfo CPM_P_CMD_CNTS_PER_REV).1 ≠ MN_OK
  · rw [if_pos h4]
  rw [if_neg h4]
  by_cases h5 : (theMultiAddr.netGetParameterInfo CPM_P_DRV_ENC_DENS).1 ≠ MN_OK
  · rw [if_pos h5]
  rw [if_neg h5]
  have h6 : |(theMultiAddr.netGetParameterInfo CPM_P_SAMPLE_PERIOD).2| < 1 / 1000 := by
    unfold infoFails at h
    tauto
  simp only [h6, if_true]

/-- C11: in either direction, for every test point and value, when the sample period is
degenerate (`|sample period| < 0.001`), or max current `<= 0`, or ADC max `<= 0`, or the
read of max current, ADC max, command density or encoder density fails, `convertMonGain`
returns 0 and leaves the record with `Set = false` and `TestPoint` the requested test
point (`FullScale` is not touched); without a record it returns 0 as well. -/
theorem convertMonGain_degenerate {α : Type} [LinearOrderedField α] (K : MonVars) (M : Libm α)
    (valIsBits : Bool) (theMultiAddr : Node α) (st : monState α) (theVar : Nat) (convVal : α)
    (h : |(theMultiAddr.netGetParameterInfo CPM_P_SAMPLE_PERIOD).2| < 1 / 1000 ∨
      (theMultiAddr.netGetParameterInfo CPM_P_DRV_I_MAX).2 ≤ 0 ∨
      (theMultiAddr.netGetParameterInfo CPM_P_DRV_ADC_MAX).2 ≤ 0 ∨
      infoFails theMultiAddr CPM_P_DRV_I_MAX ∨ infoFails theMultiAddr CPM_P_DRV_ADC_MAX ∨
      infoFails theMultiAddr CPM_P_CMD_CNTS_PER_REV ∨
      infoFails theMultiAddr CPM_P_DRV_ENC_DENS) :
    convertMonGain K M valIsBits theMultiAddr (some st) theVar convVal =
        (0, some { TestPoint := theVar, FullScale := st.FullScale, Set := false }) ∧
      convertMonGain K M valIsBits theMultiAddr none theVar convVal = (0, none) := by
  constructor
  · rw [convertMonGain]
    simp only [monGainBase_degenerate K M valIsBits theMultiAddr theVar convVal h]
  · rw [convertMonGain]

/-- Witness of C11: every read succeeds with the value 0 (zero sample period), the record
was valid before the call. -/
theorem convertMonGain_degenerate_witness :
    convertMonGain exampleMonVars ratLibm false (okNode (0 : ℚ)) (some ⟨7, 5, true⟩) 1 3 =
      (0, some { TestPoint := 1, FullScale := 5, Set := false }) :=
  (convertMonGain_degenerate exampleMonVars ratLibm false (okNode (0 : ℚ)) ⟨7, 5, true⟩ 1 3
    (Or.inl (by norm_num [okNode]))).1

end MonGainFailure

section TimeConstantFloor

end TimeConstantFloor

section SpeedLimit

/-- C20: with successfully read, non-zero sample period, encoder density and command
density, `convertSpdLim` decodes to `1e6 * bits * cmdDensity / (encDensity * samplePeriod)`,
encodes to `1e-6 * eng * samplePeriod * encDensity / cmdDensity`, and the two directions
are exact inverses of each other. -/
theorem convertSpdLim_inverse {α : Type} [LinearOrderedField α] (theMultiAddr : Node α)
    (x b : α)
    (hS : (theMultiAddr.netGetParameterInfo CPM_P_SAMPLE_PERIOD).1 = MN_OK)
    (hE : (theMultiAddr.netGetParameterInfo CPM_P_DRV_ENC_DENS).1 = MN_OK)
    (hC : (theMultiAddr.netGetParameterInfo CPM_P_CMD_CNTS_PER_REV).1 = MN_OK)
    (hs : (theMultiAddr.netGetParameterInfo CPM_P_SAMPLE_PERIOD).2 ≠ 0)
    (he : (theMultiAddr.netGetParameterInfo CPM_P_DRV_ENC_DENS).2 ≠ 0)
    (hc : (theMultiAddr.netGetParameterInfo CPM_P_CMD_CNTS_PER_REV).2 ≠ 0) :
    convertSpdLim true theMultiAddr b =
        1000000 * b * (theMultiAddr.netGetParameterInfo CPM_P_CMD_CNTS_PER_REV).2 /
          ((theMultiAddr.netGetParameterInfo CPM_P_DRV_ENC_DENS).2 *
            (theMultiAddr.netGetParameterInfo CPM_P_SAMPLE_PERIOD).2) ∧
      convertSpdLim false theMultiAddr x =
        (1 / 1000000) * x * (theMultiAddr.netGetParameterInfo CPM_P_SAMPLE_PERIOD).2 *
          (theMultiAddr.netGetParameterInfo CPM_P_DRV_ENC_DENS).2 /
          (theMultiAddr.netGetParameterInfo CPM_P_CMD_CNTS_PER_REV).2 ∧
      convertSpdLim true theMultiAddr (convertSpdLim false theMultiAddr x) = x ∧
      convertSpdLim false theMultiAddr (convertSpdLim true theMultiAddr b) = b := by
  have e1 : ∀ v, convertSpdLim true theMultiAddr v =
        1000000 * v * (theMultiAddr.netGetParameterInfo CPM_P_CMD_CNTS_PER_REV).2 /
          ((theMultiAddr.netGetParameterInfo CPM_P_DRV_ENC_DENS).2 *
            (theMultiAddr.netGetParameterInfo CPM_P_SAMPLE_PERIOD).2) := by
    intro v
    unfold convertSpdLim
    simp only [hS, hE, hC, hs, ne_eq, not_true_eq_false, or_self, if_false, if_true]
  have e2 : ∀ v, convertSpdLim false theMultiAddr v =
        (1 / 1000000) * v * (theMultiAddr.netGetParameterInfo CPM_P_SAMPLE_PERIOD).2 *
          (theMultiAddr.netGetParameterInfo CPM_P_DRV_ENC_DENS).2 /
          (theMultiAddr.netGetParameterInfo CPM_P_CMD_CNTS_PER_REV).2 := by
    intro v
    unfold convertSpdLim
    simp only [hS, hE, hC, hs, ne_eq, not_true_eq_false, or_self, if_false,
      Bool.false_eq_true]
  refine ⟨e1 b, e2 x, ?_, ?_⟩
  · rw [e2, e1]; field_simp; ring
  · rw [e1, e2]; field_simp; ring

/-- Witness of C20: every parameter reads as 2. -/
theorem convertSpdLim_inverse_witness :
    convertSpdLim true (okNode (2 : ℚ)) (convertSpdLim false (okNode (2 : ℚ)) 7) = 7 :=
  (convertSpdLim_inverse (okNode (2 : ℚ)) 7 7 rfl rfl rfl (by norm_num [okNode])
    (by norm_num [okNode]) (by norm_num [okNode])).2.2.1

end SpeedLimit

section CommutationAngle

/-- C19: in the bits->degrees direction, with all reads succeeding, motor poles `>= 1` and
encoder density `> 0`, for every raw tick count in `[0, encDens)` and either setting of the
vector-lock bit, the result of `convertAngle` is `bits / ticksPerDegree` (plus 90 when
vector-lock is set), reduced by at most one turn, and lies in `[0, degreesPerTurn)`. -/
theorem convertAngle_range {α : Type} [LinearOrderedField α] [FloorRing α]
    (VectorLock : VectorLockFld α) (theMultiAddr : Node α) (bits : α)
    (hP : (theMultiAddr.netGetParameterInfo CPM_P_DRV_MTR_POLES).1 = MN_OK)
    (hE : (theMultiAddr.netGetParameterInfo CPM_P_DRV_ENC_DENS).1 = MN_OK)
    (hH : theMultiAddr.cpmGetHwConfigReg.1 = MN_OK)
    (hO : (theMultiAddr.cpmGetParameter CPM_P_OPTION_REG).1 = MN_OK)
    (hpoles : 1 ≤ (theMultiAddr.netGetParameterInfo CPM_P_DRV_MTR_POLES).2)
    (hdens : 0 < (theMultiAddr.netGetParameterInfo CPM_P_DRV_ENC_DENS).2)
    (hb0 : 0 ≤ bits) (hb1 : bits < (theMultiAddr.netGetParameterInfo CPM_P_DRV_ENC_DENS).2) :
    (convertAngle VectorLock true theMultiAddr bits =
        bits / ((theMultiAddr.netGetParameterInfo CPM_P_DRV_ENC_DENS).2 /
            ((theMultiAddr.netGetParameterInfo CPM_P_DRV_MTR_POLES).2 * 180)) +
          (if VectorLock (theMultiAddr.cpmGetParameter CPM_P_OPTION_REG).2 then 90 else 0) ∨
      convertAngle VectorLock true theMultiAddr bits =
        bits / ((theMultiAddr.netGetParameterInfo CPM_P_DRV_ENC_DENS).2 /
            ((theMultiAddr.netGetParameterInfo CPM_P_DRV_MTR_POLES).2 * 180)) +
          (if VectorLock (theMultiAddr.cpmGetParameter CPM_P_OPTION_REG).2 then 90 else 0) -
          (theMultiAddr.netGetParameterInfo CPM_P_DRV_MTR_POLES).2 * 180) ∧
      0 ≤ convertAngle VectorLock true theMultiAddr bits ∧
      convertAngle VectorLock true theMultiAddr bits <
        (theMultiAddr.netGetParameterInfo CPM_P_DRV_MTR_POLES).2 * 180 := by
  have hp0 : (theMultiAddr.netGetParameterInfo CPM_P_DRV_MTR_POLES).2 ≠ 0 := by
    intro h; rw [h] at hpoles; exact absurd hpoles (by norm_num)
  unfold convertAngle
  simp only [hP, hE, hH, hO, ne_eq, not_true_eq_false, if_false, hp0, not_false_eq_true,
    if_true]
  generalize (theMultiAddr.netGetParameterInfo CPM_P_DRV_MTR_POLES).2 = poles at *
  generalize (theMultiAddr.netGetParameterInfo CPM_P_DRV_ENC_DENS).2 = encDens at *
  generalize VectorLock (theMultiAddr.cpmGetParameter CPM_P_OPTION_REG).2 = vl
  have hdpt : 180 ≤ poles * 180 := by linarith
  have hdpt0 : 0 < poles * 180 := by linarith
  have htpd : 0 < encDens / (poles * 180) := div_pos hdens hdpt0
  have hr0 : 0 ≤ bits / (encDens / (poles * 180)) := div_nonneg hb0 htpd.le
  have hr1 : bits / (encDens / (poles * 180)) < poles * 180 := by
    rw [div_lt_iff₀ htpd, mul_div_cancel₀ _ hdpt0.ne']
    exact hb1
  generalize bits / (encDens / (poles * 180)) = r at *
  cases vl with
  | false =>
    simp only [Bool.false_eq_true, if_false, ge_iff_le, not_le.2 hr1, not_lt.2 hr0, add_zero]
    exact ⟨Or.inl trivial, hr0, hr1⟩
  | true =>
    simp only [if_true, ge_iff_le]
    by_cases hw : poles * 180 ≤ r + 90
    · have h1 : ¬ (r + 90 - poles * 180 < 0) := by linarith
      simp only [hw, if_true, h1, if_false]
      refine ⟨Or.inr trivial, by linarith, by linarith⟩
    · have h1 : ¬ (r + 90 < 0) := by linarith
      simp only [hw, if_false, h1]
      refine ⟨Or.inl trivial, by linarith, by linarith⟩

/-- Witness of C19: every parameter reads as 2 (2 poles, 2 ticks per turn), tick count 1,
vector-lock set. -/
theorem convertAngle_range_witness :
    0 ≤ convertAngle (fun _ => true) true (okNode (2 : ℚ)) 1 ∧
      convertAngle (fun _ => true) true (okNode (2 : ℚ)) 1 < 2 * 180 :=
  (convertAngle_range (fun _ => true) (okNode (2 : ℚ)) 1 rfl rfl rfl rfl
    (by norm_num [okNode]) (by norm_num [okNode]) (by norm_num) (by norm_num [okNode])).2

end CommutationAngle

section TimeConstantRange

/-- A value clamped to `[1, 32767]` after a cast to an integer is an integer of that
range. -/
theorem clamp_int_range {α : Type} [LinearOrderedField α] (t : Int) :
    ∃ k : Int, 1 ≤ k ∧ k ≤ 32767 ∧
      (if (if (t : α) > 32767 then (32767 : α) else (t : α)) < 1 then (1 : α)
        else if (t : α) > 32767 then (32767 : α) else (t : α)) = (k : α) := by
  by_cases h1 : (t : α) > 32767
  · refine ⟨32767, by norm_num, le_refl _, ?_⟩
    simp only [h1, if_true]
    norm_num
  · simp only [h1, if_false]
    by_cases h2 : (t : α) < 1
    · refine ⟨1, le_refl _, by norm_num, ?_⟩
      simp only [h2, if_true, Int.cast_one]
    · refine ⟨t, ?_, ?_, ?_⟩
      · have : ((1 : Int) : α) ≤ (t : α) := by push_cast; exact not_lt.1 h2
        exact Int.cast_le.1 this
      · have : (t : α) ≤ ((32767 : Int) : α) := by push_cast; exact not_lt.1 h1
        exact Int.cast_le.1 this
      · simp only [h2, if_false]

/-- C15: for `convertRMStc` and `convertRMSSlowtc`, for every engineering value and every
successfully read non-zero sample period, the eng->bits result is an integer of the range
`[1, 32767]`. -/
theorem rmsTc_encode_range {α : Type} [LinearOrderedField α] [FloorRing α] (M : Libm α)
    (theMultiAddr : Node α) (x : α)
    (hS : (theMultiAddr.netGetParameterInfo CPM_P_SAMPLE_PERIOD).1 = MN_OK)
    (hs : (theMultiAddr.netGetParameterInfo CPM_P_SAMPLE_PERIOD).2 ≠ 0) :
    (∃ k : Int, 1 ≤ k ∧ k ≤ 32767 ∧ convertRMStc M false theMultiAddr x = (k : α)) ∧
      (∃ k : Int, 1 ≤ k ∧ k ≤ 32767 ∧ convertRMSSlowtc M false theMultiAddr x = (k : α)) := by
  have hs' : ¬ ((theMultiAddr.netGetParameterInfo CPM_P_SAMPLE_PERIOD).2 * (1 / 1000000) = 0) := by
    intro h
    rcases mul_eq_zero.1 h with h | h
    · exact hs h
    · norm_num at h
  constructor
  · unfold convertRMStc
    simp only [hS, ne_eq, not_true_eq_false, if_false, hs', Bool.false_eq_true]
    exact clamp_int_range _
  · unfold convertRMSSlowtc
    simp only [hS, ne_eq, not_true_eq_false, if_false, hs', Bool.false_eq_true]
    exact clamp_int_range _

/-- Witness of C15: sample period 100, engineering value -3. -/
theorem rmsTc_encode_range_witness :
    ∃ k : Int, 1 ≤ k ∧ k ≤ 32767 ∧ convertRMStc ratLibm false (okNode (100 : ℚ)) (-3) = (k : ℚ) :=
  (rmsTc_encode_range ratLibm (okNode (100 : ℚ)) (-3) rfl (by norm_num [okNode])).1

end TimeConstantRange

section RmsLimit

/-- The cast of a non-negative double is its integer part. -/
theorem toNodelong_of_nonneg {α : Type} [LinearOrderedField α] [FloorRing α] (x : α)
    (h : 0 ≤ x) : toNodelong x = ⌊x⌋ := by
  unfold toNodelong
  rw [if_pos h]

/-- The eng->bits direction of the RMS limit converters above ADC max. -/
theorem rmsLimitBody_encode_gt {α : Type} [LinearOrderedField α] [FloorRing α] (M : Libm α)
    (C : α) (theMultiAddr : Node α) (eng : α)
    (hok : (theMultiAddr.netGetParameterInfo CPM_P_DRV_ADC_MAX).1 = MN_OK)
    (ha : 0 < (theMultiAddr.netGetParameterInfo CPM_P_DRV_ADC_MAX).2)
    (he : (theMultiAddr.netGetParameterInfo CPM_P_DRV_ADC_MAX).2 < eng) :
    convertRMSlimitBody M C false theMultiAddr eng =
      ((toNodelong (C * ((9999 / 10000) * (9999 / 10000))) : Int) : α) := by
  have he0 : 0 < eng := lt_trans ha he
  unfold convertRMSlimitBody
  simp only [hok, if_true, not_le.2 ha, if_false, not_le.2 he0, Bool.false_eq_true, gt_iff_lt,
    he]

/-- The eng->bits direction of the RMS limit converters up to ADC max. -/
theorem rmsLimitBody_encode_le {α : Type} [LinearOrderedField α] [FloorRing α] (M : Libm α)
    (C : α) (hC : 0 < C) (theMultiAddr : Node α) (eng : α)
    (hok : (theMultiAddr.netGetParameterInfo CPM_P_DRV_ADC_MAX).1 = MN_OK)
    (ha : 0 < (theMultiAddr.netGetParameterInfo CPM_P_DRV_ADC_MAX).2)
    (he0 : 0 < eng) (he : eng ≤ (theMultiAddr.netGetParameterInfo CPM_P_DRV_ADC_MAX).2) :
    convertRMSlimitBody M C false theMultiAddr eng =
      ((⌊C * ((eng / (theMultiAddr.netGetParameterInfo CPM_P_DRV_ADC_MAX).2) *
        (eng / (theMultiAddr.netGetParameterInfo CPM_P_DRV_ADC_MAX).2)) + 1 / 2⌋ : Int) : α) := by
  unfold convertRMSlimitBody
  simp only [hok, if_true, not_le.2 ha, if_false, not_le.2 he0, Bool.false_eq_true, gt_iff_lt,
    not_lt.2 he]
  rw [toNodelong_of_nonneg]
  have := mul_self_nonneg (eng / (theMultiAddr.netGetParameterInfo CPM_P_DRV_ADC_MAX).2)
  have := mul_nonneg hC.le this
  linarith

/-- Up to ADC max the encoded RMS limit is at most the scale `C` (an integer). -/
theorem rmsLimit_floor_le {α : Type} [LinearOrderedField α] [FloorRing α] (c : Int)
    (hc : 0 < c) (a eng : α) (ha : 0 < a) (he0 : 0 < eng) (he : eng ≤ a) :
    ⌊(c : α) * ((eng / a) * (eng / a)) + 1 / 2⌋ ≤ c := by
  rw [Int.floor_le_iff]
  have h1 : eng / a ≤ 1 := (div_le_one ha).2 he
  have h0 : 0 ≤ eng / a := (div_pos he0 ha).le
  have h2 : (eng / a) * (eng / a) ≤ 1 := by nlinarith
  have hc' : (0 : α) < (c : α) := by exact_mod_cast hc
  nlinarith

/-- C13 fails as stated: with ADC max 1 and the engineering value 1 (equal to ADC max) the
eng->bits results are 4096 and 268435456, above the saturation values
`trunc(C * 0.9999^2)`, which are 4095 and 268381771. -/
theorem rmsLimit_at_adcMax_exceeds_saturation :
    convertRMSlimit ratLibm false (okNode (1 : ℚ)) 1 = 4096 ∧
      toNodelong ((2 : ℚ) ^ 12 * ((9999 / 10000) * (9999 / 10000))) = 4095 ∧
      convertRMSlimit32 ratLibm false (okNode (1 : ℚ)) 1 = 268435456 ∧
      toNodelong ((2 : ℚ) ^ 28 * ((9999 / 10000) * (9999 / 10000))) = 268381771 := by
  have e1 := rmsLimitBody_encode_le ratLibm ((2 : ℚ) ^ 12) (by norm_num) (okNode (1 : ℚ)) 1 rfl
    (by norm_num [okNode]) (by norm_num) (by norm_num [okNode])
  have e2 := rmsLimitBody_encode_le ratLibm ((2 : ℚ) ^ 28) (by norm_num) (okNode (1 : ℚ)) 1 rfl
    (by norm_num [okNode]) (by norm_num) (by norm_num [okNode])
  have f1 : ⌊(2 : ℚ) ^ 12 * (1 / 1 * (1 / 1)) + 1 / 2⌋ = 4096 := by
    rw [Int.floor_eq_iff]; norm_num
  have f2 : ⌊(2 : ℚ) ^ 28 * (1 / 1 * (1 / 1)) + 1 / 2⌋ = 268435456 := by
    rw [Int.floor_eq_iff]; norm_num
  refine ⟨?_, ?_, ?_, ?_⟩
  · unfold convertRMSlimit
    rw [e1]
    simp only [okNode]
    rw [f1]; norm_num
  · rw [toNodelong_of_nonneg _ (by norm_num), Int.floor_eq_iff]; norm_num
  · unfold convertRMSlimit32
    rw [e2]
    simp only [okNode]
    rw [f2]; norm_num
  · rw [toNodelong_of_nonneg _ (by norm_num), Int.floor_eq_iff]; norm_num

/-- C13, amended: for `convertRMSlimit` (`C = 2^12`) and `convertRMSlimit32` (`C = 2^28`)
with ADC max `a > 0` and an engineering value `eng > 0`: when `eng > a` the eng->bits
result is the saturation value `trunc(C * 0.9999^2)` (4095, resp. 268381771); when
`eng <= a` it is `trunc(C * (eng/a)^2 + 1/2)`, which never exceeds `C`. -/
theorem rmsLimit_encode {α : Type} [LinearOrderedField α] [FloorRing α] (M : Libm α)
    (theMultiAddr : Node α) (eng : α)
    (hok : (theMultiAddr.netGetParameterInfo CPM_P_DRV_ADC_MAX).1 = MN_OK)
    (ha : 0 < (theMultiAddr.netGetParameterInfo CPM_P_DRV_ADC_MAX).2) (he0 : 0 < eng) :
    ((theMultiAddr.netGetParameterInfo CPM_P_DRV_ADC_MAX).2 < eng →
      convertRMSlimit M false theMultiAddr eng =
          ((toNodelong ((2 : α) ^ 12 * ((9999 / 10000) * (9999 / 10000))) : Int) : α) ∧
        convertRMSlimit M false theMultiAddr eng = 4095 ∧
        convertRMSlimit32 M false theMultiAddr eng =
          ((toNodelong ((2 : α) ^ 28 * ((9999 / 10000) * (9999 / 10000))) : Int) : α) ∧
        convertRMSlimit32 M false theMultiAddr eng = 268381771) ∧
    (eng ≤ (theMultiAddr.netGetParameterInfo CPM_P_DRV_ADC_MAX).2 →
      convertRMSlimit M false theMultiAddr eng =
          ((⌊(2 : α) ^ 12 * ((eng / (theMultiAddr.netGetParameterInfo CPM_P_DRV_ADC_MAX).2) *
            (eng / (theMultiAddr.netGetParameterInfo CPM_P_DRV_ADC_MAX).2)) + 1 / 2⌋ : Int) : α) ∧
        convertRMSlimit M false theMultiAddr eng ≤ 4096 ∧
        convertRMSlimit32 M false theMultiAddr eng =
          ((⌊(2 : α) ^ 28 * ((eng / (theMultiAddr.netGetParameterInfo CPM_P_DRV_ADC_MAX).2) *
            (eng / (theMultiAddr.netGetParameterInfo CPM_P_DRV_ADC_MAX).2)) + 1 / 2⌋ : Int) : α) ∧
        convertRMSlimit32 M false theMultiAddr eng ≤ 268435456) := by
  have s12 : toNodelong ((2 : α) ^ 12 * ((9999 / 10000) * (9999 / 10000))) = 4095 := by
    rw [toNodelong_of_nonneg _ (by norm_num), Int.floor_eq_iff]; norm_num
  have s28 : toNodelong ((2 : α) ^ 28 * ((9999 / 10000) * (9999 / 10000))) = 268381771 := by
    rw [toNodelong_of_nonneg _ (by norm_num), Int.floor_eq_iff]; norm_num
  constructor
  · intro he
    have e1 := rmsLimitBody_encode_gt M ((2 : α) ^ 12) theMultiAddr eng hok ha he
    have e2 := rmsLimitBody_encode_gt M ((2 : α) ^ 28) theMultiAddr eng hok ha he
    unfold convertRMSlimit convertRMSlimit32
    refine ⟨e1, ?_, e2, ?_⟩
    · rw [e1, s12]; norm_num
    · rw [e2, s28]; norm_num
  · intro he
    have e1 := rmsLimitBody_encode_le M ((2 : α) ^ 12) (by norm_num) theMultiAddr eng hok ha
      he0 he
    have e2 := rmsLimitBody_encode_le M ((2 : α) ^ 28) (by norm_num) theMultiAddr eng hok ha
      he0 he
    have b1 := rmsLimit_floor_le (4096 : Int) (by norm_num)
      (theMultiAddr.netGetParameterInfo CPM_P_DRV_ADC_MAX).2 eng ha he0 he
    have b2 := rmsLimit_floor_le (268435456 : Int) (by norm_num)
      (theMultiAddr.netGetParameterInfo CPM_P_DRV_ADC_MAX).2 eng ha he0 he
    have c1 : ((4096 : Int) : α) = (2 : α) ^ 12 := by norm_num
    have c2 : ((268435456 : Int) : α) = (2 : α) ^ 28 := by norm_num
    rw [c1] at b1
    rw [c2] at b2
    unfold convertRMSlimit convertRMSlimit32
    refine ⟨e1, ?_, e2, ?_⟩
    · rw [e1]
      have : ((⌊(2 : α) ^ 12 * ((eng / (theMultiAddr.netGetParameterInfo CPM_P_DRV_ADC_MAX).2) *
          (eng / (theMultiAddr.netGetParameterInfo CPM_P_DRV_ADC_MAX).2)) + 1 / 2⌋ : Int) : α)
          ≤ ((4096 : Int) : α) := Int.cast_le.2 b1
      simpa using this
    · rw [e2]
      have : ((⌊(2 : α) ^ 28 * ((eng / (theMultiAddr.netGetParameterInfo CPM_P_DRV_ADC_MAX).2) *
          (eng / (theMultiAddr.netGetParameterInfo CPM_P_DRV_ADC_MAX).2)) + 1 / 2⌋ : Int) : α)
          ≤ ((268435456 : Int) : α) := Int.cast_le.2 b2
      simpa using this

/-- Witness of C13 (amended): ADC max 1, engineering value 2. -/
theorem rmsLimit_encode_witness :
    convertRMSlimit ratLibm false (okNode (1 : ℚ)) 2 = 4095 :=
  ((rmsLimit_encode ratLibm (okNode (1 : ℚ)) 2 rfl (by norm_num [okNode]) (by norm_num)).1
    (by norm_num [okNode])).2.1

end RmsLimit

section RmsLimitRoundTrip

/-- The bits->eng direction of the RMS limit converters. -/
theorem rmsLimitBody_decode {α : Type} [LinearOrderedField α] [FloorRing α] (M : Libm α)
    (C : α) (theMultiAddr : Node α) (v : α)
    (hok : (theMultiAddr.netGetParameterInfo CPM_P_DRV_ADC_MAX).1 = MN_OK)
    (ha : 0 < (theMultiAddr.netGetParameterInfo CPM_P_DRV_ADC_MAX).2) :
    convertRMSlimitBody M C true theMultiAddr v =
      if v ≤ 0 then 0
      else M.sqrt (v * (theMultiAddr.netGetParameterInfo CPM_P_DRV_ADC_MAX).2 *
        (theMultiAddr.netGetParameterInfo CPM_P_DRV_ADC_MAX).2 / C) := by
  unfold convertRMSlimitBody
  simp only [hok, if_true, not_le.2 ha, if_false]

/-- The round trip of the RMS limit converters, for a scale `C > 0`: when `sqrt` is exact
at the value decoded, the square of the decoded value is within `a^2 / (2 C)` of the
square of the engineering value. -/
theorem rmsLimitBody_roundtrip {α : Type} [LinearOrderedField α] [FloorRing α] (M : Libm α)
    (C : α) (hC : 0 < C) (theMultiAddr : Node α) (x : α)
    (hok : (theMultiAddr.netGetParameterInfo CPM_P_DRV_ADC_MAX).1 = MN_OK)
    (ha : 0 < (theMultiAddr.netGetParameterInfo CPM_P_DRV_ADC_MAX).2)
    (hx0 : 0 < x) (hx : x ≤ (theMultiAddr.netGetParameterInfo CPM_P_DRV_ADC_MAX).2)
    (hsq : M.sqrt (convertRMSlimitBody M C false theMultiAddr x *
        (theMultiAddr.netGetParameterInfo CPM_P_DRV_ADC_MAX).2 *
        (theMultiAddr.netGetParameterInfo CPM_P_DRV_ADC_MAX).2 / C) *
      M.sqrt (convertRMSlimitBody M C false theMultiAddr x *
        (theMultiAddr.netGetParameterInfo CPM_P_DRV_ADC_MAX).2 *
        (theMultiAddr.netGetParameterInfo CPM_P_DRV_ADC_MAX).2 / C) =
      convertRMSlimitBody M C false theMultiAddr x *
        (theMultiAddr.netGetParameterInfo CPM_P_DRV_ADC_MAX).2 *
        (theMultiAddr.netGetParameterInfo CPM_P_DRV_ADC_MAX).2 / C) :
    |convertRMSlimitBody M C true theMultiAddr (convertRMSlimitBody M C false theMultiAddr x) *
        convertRMSlimitBody M C true theMultiAddr (convertRMSlimitBody M C false theMultiAddr x)
        - x * x| ≤
      (theMultiAddr.netGetParameterInfo CPM_P_DRV_ADC_MAX).2 *
        (theMultiAddr.netGetParameterInfo CPM_P_DRV_ADC_MAX).2 / (2 * C) := by
  rw [rmsLimitBody_decode M C theMultiAddr _ hok ha]
  have hn := rmsLimitBody_encode_le M C hC theMultiAddr x hok ha hx0 hx
  rw [hn] at hsq ⊢
  generalize (theMultiAddr.netGetParameterInfo CPM_P_DRV_ADC_MAX).2 = a at *
  have hq : C * (x / a * (x / a)) * (a * a / C) = x * x := by
    field_simp
  have hfl := Int.floor_le (C * (x / a * (x / a)) + 1 / 2)
  have hfu := Int.lt_floor_add_one (C * (x / a * (x / a)) + 1 / 2)
  have hpos : 0 < a * a / C := div_pos (mul_pos ha ha) hC
  have hhalf : a * a / (2 * C) = (1 / 2) * (a * a / C) := by
    field_simp
  generalize (⌊C * (x / a * (x / a)) + 1 / 2⌋ : Int) = n at *
  generalize C * (x / a * (x / a)) = q at *
  rw [hhalf, ← hq]
  by_cases hn0 : (n : α) ≤ 0
  · rw [if_pos hn0, mul_zero, zero_sub, abs_neg, abs_le]
    constructor <;> nlinarith
  · rw [if_neg hn0, hsq]
    have e : (n : α) * a * a / C - q * (a * a / C) = ((n : α) - q) * (a * a / C) := by ring
    rw [e, abs_le]
    constructor <;> nlinarith

/-- C14: for `convertRMSlimit` (`C = 2^12`) and `convertRMSlimit32` (`C = 2^28`) with ADC
max `a > 0`, for every engineering value `0 < x <= a`: with `n` the encoded value and the
decoded value `d` (`sqrt (n a^2 / C)`, or 0 when `n = 0`; `sqrt` exact at that argument),
`|d^2 - x^2| <= a^2 / (2 C)`. -/
theorem rmsLimit_roundtrip {α : Type} [LinearOrderedField α] [FloorRing α] (M : Libm α)
    (theMultiAddr : Node α) (x : α)
    (hok : (theMultiAddr.netGetParameterInfo CPM_P_DRV_ADC_MAX).1 = MN_OK)
    (ha : 0 < (theMultiAddr.netGetParameterInfo CPM_P_DRV_ADC_MAX).2)
    (hx0 : 0 < x) (hx : x ≤ (theMultiAddr.netGetParameterInfo CPM_P_DRV_ADC_MAX).2)
    (hsq12 : M.sqrt (convertRMSlimit M false theMultiAddr x *
        (theMultiAddr.netGetParameterInfo CPM_P_DRV_ADC_MAX).2 *
        (theMultiAddr.netGetParameterInfo CPM_P_DRV_ADC_MAX).2 / 2 ^ 12) *
      M.sqrt (convertRMSlimit M false theMultiAddr x *
        (theMultiAddr.netGetParameterInfo CPM_P_DRV_ADC_MAX).2 *
        (theMultiAddr.netGetParameterInfo CPM_P_DRV_ADC_MAX).2 / 2 ^ 12) =
      convertRMSlimit M false theMultiAddr x *
        (theMultiAddr.netGetParameterInfo CPM_P_DRV_ADC_MAX).2 *
        (theMultiAddr.netGetParameterInfo CPM_P_DRV_ADC_MAX).2 / 2 ^ 12)
    (hsq28 : M.sqrt (convertRMSlimit32 M false theMultiAddr x *
        (theMultiAddr.netGetParameterInfo CPM_P_DRV_ADC_MAX).2 *
        (theMultiAddr.netGetParameterInfo CPM_P_DRV_ADC_MAX).2 / 2 ^ 28) *
      M.sqrt (convertRMSlimit32 M false theMultiAddr x *
        (theMultiAddr.netGetParameterInfo CPM_P_DRV_ADC_MAX).2 *
        (theMultiAddr.netGetParameterInfo CPM_P_DRV_ADC_MAX).2 / 2 ^ 28) =
      convertRMSlimit32 M false theMultiAddr x *
        (theMultiAddr.netGetParameterInfo CPM_P_DRV_ADC_MAX).2 *
        (theMultiAddr.netGetParameterInfo CPM_P_DRV_ADC_MAX).2 / 2 ^ 28) :
    (convertRMSlimit M false theMultiAddr x =
        ((⌊(2 : α) ^ 12 * ((x / (theMultiAddr.netGetParameterInfo CPM_P_DRV_ADC_MAX).2) *
          (x / (theMultiAddr.netGetParameterInfo CPM_P_DRV_ADC_MAX).2)) + 1 / 2⌋ : Int) : α) ∧
      |convertRMSlimit M true theMultiAddr (convertRMSlimit M false theMultiAddr x) *
          convertRMSlimit M true theMultiAddr (convertRMSlimit M false theMultiAddr x)
          - x * x| ≤
        (theMultiAddr.netGetParameterInfo CPM_P_DRV_ADC_MAX).2 *
          (theMultiAddr.netGetParameterInfo CPM_P_DRV_ADC_MAX).2 / (2 * 2 ^ 12)) ∧
    (convertRMSlimit32 M false theMultiAddr x =
        ((⌊(2 : α) ^ 28 * ((x / (theMultiAddr.netGetParameterInfo CPM_P_DRV_ADC_MAX).2) *
          (x / (theMultiAddr.netGetParameterInfo CPM_P_DRV_ADC_MAX).2)) + 1 / 2⌋ : Int) : α) ∧
      |convertRMSlimit32 M true theMultiAddr (convertRMSlimit32 M false theMultiAddr x) *
          convertRMSlimit32 M true theMultiAddr (convertRMSlimit32 M false theMultiAddr x)
          - x * x| ≤
        (theMultiAddr.netGetParameterInfo CPM_P_DRV_ADC_MAX).2 *
          (theMultiAddr.netGetParameterInfo CPM_P_DRV_ADC_MAX).2 / (2 * 2 ^ 28)) := by
  unfold convertRMSlimit at hsq12 ⊢
  unfold convertRMSlimit32 at hsq28 ⊢
  exact ⟨⟨rmsLimitBody_encode_le M _ (by norm_num) theMultiAddr x hok ha hx0 hx,
      rmsLimitBody_roundtrip M _ (by norm_num) theMultiAddr x hok ha hx0 hx hsq12⟩,
    ⟨rmsLimitBody_encode_le M _ (by norm_num) theMultiAddr x hok ha hx0 hx,
      rmsLimitBody_roundtrip M _ (by norm_num) theMultiAddr x hok ha hx0 hx hsq28⟩⟩

/-- With ADC max 1 the engineering value 1 is encoded as the full scale. -/
theorem rmsLimit_encode_one :
    convertRMSlimit ratLibm false (okNode (1 : ℚ)) 1 = 4096 ∧
      convertRMSlimit32 ratLibm false (okNode (1 : ℚ)) 1 = 268435456 := by
  have e1 := rmsLimitBody_encode_le ratLibm ((2 : ℚ) ^ 12) (by norm_num) (okNode (1 : ℚ)) 1 rfl
    (by norm_num [okNode]) (by norm_num) (by norm_num [okNode])
  have e2 := rmsLimitBody_encode_le ratLibm ((2 : ℚ) ^ 28) (by norm_num) (okNode (1 : ℚ)) 1 rfl
    (by norm_num [okNode]) (by norm_num) (by norm_num [okNode])
  have f1 : ⌊(2 : ℚ) ^ 12 * (1 / 1 * (1 / 1)) + 1 / 2⌋ = 4096 := by
    rw [Int.floor_eq_iff]; norm_num
  have f2 : ⌊(2 : ℚ) ^ 28 * (1 / 1 * (1 / 1)) + 1 / 2⌋ = 268435456 := by
    rw [Int.floor_eq_iff]; norm_num
  constructor
  · unfold convertRMSlimit
    rw [e1]
    simp only [okNode]
    rw [f1]; norm_num
  · unfold convertRMSlimit32
    rw [e2]
    simp only [okNode]
    rw [f2]; norm_num

/-- Witness of C14: ADC max 1, engineering value 1 (encoded as 4096, resp. 268435456;
the placeholder `sqrt` of `ratLibm` is exact at 1). -/
theorem rmsLimit_roundtrip_witness :
    |convertRMSlimit ratLibm true (okNode (1 : ℚ)) (convertRMSlimit ratLibm false (okNode 1) 1) *
        convertRMSlimit ratLibm true (okNode (1 : ℚ)) (convertRMSlimit ratLibm false (okNode 1) 1)
        - 1 * 1| ≤
      ((okNode (1 : ℚ)).netGetParameterInfo CPM_P_DRV_ADC_MAX).2 *
        ((okNode (1 : ℚ)).netGetParameterInfo CPM_P_DRV_ADC_MAX).2 / (2 * 2 ^ 12) :=
  (rmsLimit_roundtrip ratLibm (okNode (1 : ℚ)) 1 rfl (by norm_num [okNode]) (by norm_num)
    (by norm_num [okNode])
    (by rw [rmsLimit_encode_one.1]; norm_num [okNode, ratLibm])
    (by rw [rmsLimit_encode_one.2]; norm_num [okNode, ratLibm])).1.2

end RmsLimitRoundTrip

section MonGainVelocity

/-- The `switch` of `convertMonGain` on a velocity test point. -/
theorem monGainSwitch_vel {α : Type} [LinearOrderedField α] (K : MonVars) (M : Libm α)
    (valIsBits : Bool) (theMultiAddr : Node α) (theVar : Nat)
    (sampleTime iMax adcMax resScale convVal : α)
    (hvel : Nat.ldiff theVar K.MON_OPTION_MASKS ∈ [K.MON_VEL_MEAS, K.MON_VEL_CMD, K.MON_VEL_TRK,
      K.MON_VEL_TRK_SERVO, MON_VEL_RAS, K.MON_VEL_ERR_GATED]) :
    monGainSwitch K M valIsBits theMultiAddr theVar sampleTime iMax adcMax resScale convVal =
      .ok ((1000 * 8192) / (sampleTime * convVal * resScale)) := by
  unfold monGainSwitch
  rw [if_pos hvel]
  rfl

/-- The body of `convertMonGain` on a velocity test point with valid auxiliary
parameters. -/
theorem monGainBase_vel {α : Type} [LinearOrderedField α] (K : MonVars) (M : Libm α)
    (valIsBits : Bool) (theMultiAddr : Node α) (theVar : Nat) (convVal : α)
    (hI : (theMultiAddr.netGetParameterInfo CPM_P_DRV_I_MAX).1 = MN_OK)
    (hA : (theMultiAddr.netGetParameterInfo CPM_P_DRV_ADC_MAX).1 = MN_OK)
    (hC : (theMultiAddr.netGetParameterInfo CPM_P_CMD_CNTS_PER_REV).1 = MN_OK)
    (hE : (theMultiAddr.netGetParameterInfo CPM_P_DRV_ENC_DENS).1 = MN_OK)
    (hIpos : 0 < (theMultiAddr.netGetParameterInfo CPM_P_DRV_I_MAX).2)
    (hApos : 0 < (theMultiAddr.netGetParameterInfo CPM_P_DRV_ADC_MAX).2)
    (hT : 1 / 1000 ≤ |(theMultiAddr.netGetParameterInfo CPM_P_SAMPLE_PERIOD).2|)
    (hvel : Nat.ldiff theVar K.MON_OPTION_MASKS ∈ [K.MON_VEL_MEAS, K.MON_VEL_CMD, K.MON_VEL_TRK,
      K.MON_VEL_TRK_SERVO, MON_VEL_RAS, K.MON_VEL_ERR_GATED]) :
    monGainBase K M valIsBits theMultiAddr theVar convVal =
      if |if valIsBits then convVal / 65536 else convVal| < 1 / 10000 then .error 0
      else .ok ((1000 * 8192) / ((theMultiAddr.netGetParameterInfo CPM_P_SAMPLE_PERIOD).2 *
        (if valIsBits then convVal / 65536 else convVal) * monResScale theMultiAddr)) := by
  unfold monGainBase
  simp only [hI, hA, hC, hE, ne_eq, not_true_eq_false, if_false, not_le.2 hIpos,
    not_le.2 hApos, or_self, not_lt.2 hT]
  rw [monGainSwitch_vel K M valIsBits theMultiAddr theVar _ _ _ _ _ hvel]
  rfl

/-- The round trip of `convertMonGain` on a velocity test point, in terms of the
full-scale constant `k = 1e3 * 8192 / (samplePeriod * resScale)`. -/
theorem convertMonGain_vel_eq {α : Type} [LinearOrderedField α] (K : MonVars) (M : Libm α)
    (theMultiAddr : Node α) (st : monState α) (theVar : Nat) (x : α)
    (hI : (theMultiAddr.netGetParameterInfo CPM_P_DRV_I_MAX).1 = MN_OK)
    (hA : (theMultiAddr.netGetParameterInfo CPM_P_DRV_ADC_MAX).1 = MN_OK)
    (hC : (theMultiAddr.netGetParameterInfo CPM_P_CMD_CNTS_PER_REV).1 = MN_OK)
    (hE : (theMultiAddr.netGetParameterInfo CPM_P_DRV_ENC_DENS).1 = MN_OK)
    (hIpos : 0 < (theMultiAddr.netGetParameterInfo CPM_P_DRV_I_MAX).2)
    (hApos : 0 < (theMultiAddr.netGetParameterInfo CPM_P_DRV_ADC_MAX).2)
    (hT : 1 / 1000 ≤ (theMultiAddr.netGetParameterInfo CPM_P_SAMPLE_PERIOD).2)
    (hvel : Nat.ldiff theVar K.MON_OPTION_MASKS ∈ [K.MON_VEL_MEAS, K.MON_VEL_CMD, K.MON_VEL_TRK,
      K.MON_VEL_TRK_SERVO, MON_VEL_RAS, K.MON_VEL_ERR_GATED])
    (hx : 1 / 10000 ≤ x)
    (hhigh : 65536 * (1000 * 8192 / ((theMultiAddr.netGetParameterInfo CPM_P_SAMPLE_PERIOD).2 *
      monResScale theMultiAddr)) / x ≤ 2147483647)
    (hone : 1 ≤ 65536 * (1000 * 8192 / ((theMultiAddr.netGetParameterInfo CPM_P_SAMPLE_PERIOD).2 *
      monResScale theMultiAddr)) / x) :
    convertMonGain K M false theMultiAddr (some st) theVar x =
      (65536 * (1000 * 8192 / ((theMultiAddr.netGetParameterInfo CPM_P_SAMPLE_PERIOD).2 *
          monResScale theMultiAddr)) / x,
        some { TestPoint := theVar,
               FullScale := (convertMonGain K M true theMultiAddr (some st) theVar
                 (65536 * (1000 * 8192 /
                   ((theMultiAddr.netGetParameterInfo CPM_P_SAMPLE_PERIOD).2 *
                   monResScale theMultiAddr)) / x)).1,
               Set := true }) ∧
      (convertMonGain K M true theMultiAddr (some st) theVar
        (65536 * (1000 * 8192 / ((theMultiAddr.netGetParameterInfo CPM_P_SAMPLE_PERIOD).2 *
          monResScale theMultiAddr)) / x)).1 =
        if 1000 * 8192 / ((theMultiAddr.netGetParameterInfo CPM_P_SAMPLE_PERIOD).2 *
          monResScale theMultiAddr) / x < 1 / 10000 then 0 else x := by
  have hTpos : 0 < (theMultiAddr.netGetParameterInfo CPM_P_SAMPLE_PERIOD).2 :=
    lt_of_lt_of_le (by norm_num) hT
  have hTabs : 1 / 1000 ≤ |(theMultiAddr.netGetParameterInfo CPM_P_SAMPLE_PERIOD).2| := by
    rw [abs_of_pos hTpos]; exact hT
  have hrs : 0 < monResScale theMultiAddr := by
    unfold monResScale
    split_ifs with h1 h2
    · exact div_pos h2 h1
    · exact one_pos
    · exact one_pos
  have hxpos : 0 < x := lt_of_lt_of_le (by norm_num) hx
  have hbF := monGainBase_vel K M false theMultiAddr theVar x hI hA hC hE hIpos hApos hTabs hvel
  have hbT := fun v => monGainBase_vel K M true theMultiAddr theVar v hI hA hC hE hIpos hApos
    hTabs hvel
  generalize (theMultiAddr.netGetParameterInfo CPM_P_SAMPLE_PERIOD).2 = Ts at *
  generalize monResScale theMultiAddr = rs at *
  have hk : 0 < 1000 * 8192 / (Ts * rs) := div_pos (by norm_num) (mul_pos hTpos hrs)
  have hB : 1000 * 8192 / (Ts * x * rs) * 65536 = 65536 * (1000 * 8192 / (Ts * rs)) / x := by
    field_simp
    ring
  have e1 : 65536 * (1000 * 8192 / (Ts * rs)) / x / 65536 = 1000 * 8192 / (Ts * rs) / x := by
    field_simp
    ring
  have e2 : 1000 * 8192 / (Ts * (1000 * 8192 / (Ts * rs) / x) * rs) = x := by
    field_simp
    ring
  have hbB : monGainBase K M true theMultiAddr theVar (65536 * (1000 * 8192 / (Ts * rs)) / x) =
      if 1000 * 8192 / (Ts * rs) / x < 1 / 10000 then .error 0 else .ok x := by
    rw [hbT]
    simp only [if_true]
    rw [e1, abs_of_pos (div_pos hk hxpos), e2]
  have hfst : ∀ s : monState α, (convertMonGain K M true theMultiAddr (some s) theVar
      (65536 * (1000 * 8192 / (Ts * rs)) / x)).1 =
      if 1000 * 8192 / (Ts * rs) / x < 1 / 10000 then 0 else x := by
    intro s
    rw [convertMonGain_bits_fst, hbB]
    by_cases hc : 1000 * 8192 / (Ts * rs) / x < 1 / 10000
    · simp only [hc, if_true]
    · simp only [hc, if_false]
  refine ⟨?_, hfst st⟩
  obtain ⟨m, hm, htp⟩ := convertMonGain_bits_snd K M theMultiAddr
    { TestPoint := theVar, FullScale := st.FullScale, Set := false } theVar
    (65536 * (1000 * 8192 / (Ts * rs)) / x)
  rw [convertMonGain, hbF]
  simp only [Bool.false_eq_true, if_false, abs_of_pos hxpos, not_lt.2 hx, if_true, hB,
    gt_iff_lt, not_lt.2 hhigh, not_lt.2 hone, hm, hfst, htp]

/-- Test point 1 of the example constants is a velocity test point. -/
theorem exampleMonVars_vel :
    Nat.ldiff 1 exampleMonVars.MON_OPTION_MASKS ∈ [exampleMonVars.MON_VEL_MEAS,
      exampleMonVars.MON_VEL_CMD, exampleMonVars.MON_VEL_TRK, exampleMonVars.MON_VEL_TRK_SERVO,
      MON_VEL_RAS, exampleMonVars.MON_VEL_ERR_GATED] := by
  simp [exampleMonVars, Nat.ldiff, Nat.bitwise]

/-- C12 fails as stated: with every read succeeding (all values 1000, so the full-scale
constant is 8192) on the velocity test point 1, the engineering value 268435456 is
encoded without either clamp as the bits value 2, but decoding 2 gives 0 ("shown as
off"), and the recorded `FullScale` is 0, not the engineering value. -/
theorem convertMonGain_vel_small_bits_decode_off :
    (1 : ℚ) ≤ 65536 * (1000 * 8192 / (1000 * 1)) / 268435456 ∧
    (65536 * (1000 * 8192 / (1000 * 1)) / 268435456 : ℚ) ≤ 2147483647 ∧
    convertMonGain exampleMonVars ratLibm false (okNode (1000 : ℚ)) (some ⟨0, 0, false⟩) 1
        268435456 = (2, some ⟨1, 0, true⟩) ∧
    (convertMonGain exampleMonVars ratLibm true (okNode (1000 : ℚ)) (some ⟨0, 0, false⟩) 1
        2).1 = 0 := by
  have h := convertMonGain_vel_eq exampleMonVars ratLibm (okNode (1000 : ℚ)) ⟨0, 0, false⟩ 1
    268435456 rfl rfl rfl rfl (by norm_num [okNode]) (by norm_num [okNode])
    (by norm_num [okNode]) exampleMonVars_vel (by norm_num)
    (by norm_num [okNode, monResScale]) (by norm_num [okNode, monResScale])
  obtain ⟨h1, h2⟩ := h
  have e : (65536 : ℚ) * (1000 * 8192 / (((okNode (1000 : ℚ)).netGetParameterInfo
      CPM_P_SAMPLE_PERIOD).2 * monResScale (okNode (1000 : ℚ)))) / 268435456 = 2 := by
    norm_num [okNode, monResScale]
  rw [e] at h1 h2
  rw [if_pos (by norm_num [okNode, monResScale])] at h2
  rw [h2] at h1
  exact ⟨by norm_num, by norm_num, h1, h2⟩

/-- C12, amended: for `convertMonGain` on a velocity test point, with the reads of max
current, ADC max, command density and encoder density succeeding, max current > 0,
ADC max > 0, sample period >= 0.001, full-scale constant
`k = 1e3 * 8192 / (samplePeriod * resScale)`, an engineering value `x >= 0.0001`
whose encoding is not shown as off when decoded (`k / x >= 0.0001`, that is
`65536 * k / x >= 6.5536`) and stays below the upper clamp
(`65536 * k / x <= 2^31 - 1`): the eng->bits call returns `65536 * k / x` and records
`FullScale = x` with `Set = true` for the requested test point, and decoding the
returned bits gives back `x`. -/
theorem convertMonGain_vel_roundtrip {α : Type} [LinearOrderedField α] (K : MonVars)
    (M : Libm α) (theMultiAddr : Node α) (st : monState α) (theVar : Nat) (x : α)
    (hI : (theMultiAddr.netGetParameterInfo CPM_P_DRV_I_MAX).1 = MN_OK)
    (hA : (theMultiAddr.netGetParameterInfo CPM_P_DRV_ADC_MAX).1 = MN_OK)
    (hC : (theMultiAddr.netGetParameterInfo CPM_P_CMD_CNTS_PER_REV).1 = MN_OK)
    (hE : (theMultiAddr.netGetParameterInfo CPM_P_DRV_ENC_DENS).1 = MN_OK)
    (hIpos : 0 < (theMultiAddr.netGetParameterInfo CPM_P_DRV_I_MAX).2)
    (hApos : 0 < (theMultiAddr.netGetParameterInfo CPM_P_DRV_ADC_MAX).2)
    (hT : 1 / 1000 ≤ (theMultiAddr.netGetParameterInfo CPM_P_SAMPLE_PERIOD).2)
    (hvel : Nat.ldiff theVar K.MON_OPTION_MASKS ∈ [K.MON_VEL_MEAS, K.MON_VEL_CMD, K.MON_VEL_TRK,
      K.MON_VEL_TRK_SERVO, MON_VEL_RAS, K.MON_VEL_ERR_GATED])
    (hx : 1 / 10000 ≤ x)
    (hoff : 1 / 10000 ≤ 1000 * 8192 /
      ((theMultiAddr.netGetParameterInfo CPM_P_SAMPLE_PERIOD).2 * monResScale theMultiAddr) / x)
    (hhigh : 65536 * (1000 * 8192 / ((theMultiAddr.netGetParameterInfo CPM_P_SAMPLE_PERIOD).2 *
      monResScale theMultiAddr)) / x ≤ 2147483647) :
    convertMonGain K M false theMultiAddr (some st) theVar x =
      (65536 * (1000 * 8192 / ((theMultiAddr.netGetParameterInfo CPM_P_SAMPLE_PERIOD).2 *
          monResScale theMultiAddr)) / x,
        some { TestPoint := theVar, FullScale := x, Set := true }) ∧
      (convertMonGain K M true theMultiAddr (some st) theVar
        (convertMonGain K M false theMultiAddr (some st) theVar x).1).1 = x := by
  have hone : 1 ≤ 65536 * (1000 * 8192 /
      ((theMultiAddr.netGetParameterInfo CPM_P_SAMPLE_PERIOD).2 * monResScale theMultiAddr)) / x := by
    have e : 65536 * (1000 * 8192 /
        ((theMultiAddr.netGetParameterInfo CPM_P_SAMPLE_PERIOD).2 * monResScale theMultiAddr)) / x =
        65536 * (1000 * 8192 /
        ((theMultiAddr.netGetParameterInfo CPM_P_SAMPLE_PERIOD).2 * monResScale theMultiAddr) / x) := by
      ring
    rw [e]
    linarith
  obtain ⟨h1, h2⟩ := convertMonGain_vel_eq K M theMultiAddr st theVar x hI hA hC hE hIpos hApos
    hT hvel hx hhigh hone
  rw [if_neg (not_lt.2 hoff)] at h2
  rw [h1, h2]
  exact ⟨rfl, rfl⟩

theorem convertMonGain_vel_roundtrip_witness :
    convertMonGain exampleMonVars ratLibm false (okNode (1000 : ℚ)) (some ⟨0, 0, false⟩) 1
        65536 =
      (65536 * (1000 * 8192 / (((okNode (1000 : ℚ)).netGetParameterInfo CPM_P_SAMPLE_PERIOD).2 *
          monResScale (okNode (1000 : ℚ)))) / 65536,
        some { TestPoint := 1, FullScale := 65536, Set := true }) ∧
      (convertMonGain exampleMonVars ratLibm true (okNode (1000 : ℚ)) (some ⟨0, 0, false⟩) 1
        (convertMonGain exampleMonVars ratLibm false (okNode (1000 : ℚ)) (some ⟨0, 0, false⟩) 1
          65536).1).1 = 65536 :=
  convertMonGain_vel_roundtrip exampleMonVars ratLibm (okNode (1000 : ℚ)) ⟨0, 0, false⟩ 1
    65536 rfl rfl rfl rfl (by norm_num [okNode]) (by norm_num [okNode])
    (by norm_num [okNode]) exampleMonVars_vel (by norm_num)
    (by norm_num [okNode, monResScale]) (by norm_num [okNode, monResScale])

end MonGainVelocity

section TimeConstantStep

/-- The real logarithm and power function satisfy the laws of `LogPowLaws`. -/
theorem real_logPowLaws : LogPowLaws (⟨Real.sqrt, Real.log, fun a b => a ^ b⟩ : Libm ℝ) where
  log_one := Real.log_one
  log_lt := fun _ _ hu huv => Real.log_lt_log hu huv
  log_pow := fun _ b ha => Real.log_rpow ha b

/-- The affine stand-ins `log u = u - 1` and `pow a b = 1 + b (a - 1)` satisfy the laws. -/
theorem linLibm_laws : LogPowLaws linLibm where
  log_one := by simp [linLibm]
  log_lt := fun u v _ huv => by simpa [linLibm] using huv
  log_pow := fun a b _ => by simp [linLibm]

/-- Dividing a negative number by a smaller negative number gives a smaller quotient. -/
theorem neg_div_lt_neg_div {α : Type} [LinearOrderedField α] (N l1 l2 : α) (hN : N < 0)
    (h12 : l1 < l2) (h2 : l2 < 0) : N / l1 < N / l2 := by
  rw [← neg_div_neg_eq N l1, ← neg_div_neg_eq N l2]
  exact div_lt_div_of_pos_left (neg_pos.2 hN) (neg_pos.2 h2) (neg_lt_neg h12)

/-- The bits->eng direction of `convertRMStc` for a bits value strictly between 0 and
`2^23`. -/
theorem rmsTc_decode {α : Type} [LinearOrderedField α] [FloorRing α] (M : Libm α)
    (hM : LogPowLaws M) (theMultiAddr : Node α) (v : α)
    (hok : (theMultiAddr.netGetParameterInfo CPM_P_SAMPLE_PERIOD).1 = MN_OK)
    (hs : 0 < (theMultiAddr.netGetParameterInfo CPM_P_SAMPLE_PERIOD).2)
    (hv0 : 0 < v) (hv1 : v < 2 ^ 23) :
    convertRMStc M true theMultiAddr v =
        M.log (8 / 9) * ((theMultiAddr.netGetParameterInfo CPM_P_SAMPLE_PERIOD).2 *
          (1 / 1000000)) / M.log (1 - v / 2 ^ 23) ∧
      M.log (1 - v / 2 ^ 23) < 0 := by
  have hTs : 0 < (theMultiAddr.netGetParameterInfo CPM_P_SAMPLE_PERIOD).2 * (1 / 1000000) :=
    mul_pos hs (by norm_num)
  have hb0 : 0 < 1 - v / 2 ^ 23 := by
    rw [sub_pos, div_lt_one (by positivity)]
    exact hv1
  have hb1 : 1 - v / 2 ^ 23 < 1 := by
    have : 0 < v / 2 ^ 23 := div_pos hv0 (by positivity)
    linarith
  have hl : M.log (1 - v / 2 ^ 23) < 0 := by
    have := hM.log_lt _ _ hb0 hb1
    rwa [hM.log_one] at this
  refine ⟨?_, hl⟩
  unfold convertRMStc
  simp only [hok, ne_eq, not_true_eq_false, if_false, if_true, hTs.ne', hb0, hb1,
    div_eq_zero_iff, hl.ne, or_self]
  exact div_div_eq_mul_div _ _ _

/-- The eng->bits direction of `convertRMStc` when the result is an integer `n` with
`2 <= n <= 32766`: neither clamp was applied and `n` is the rounding of
`2^23 (1 - p)` with `p = pow (8/9) (Ts / x)`. -/
theorem rmsTc_encode_unclamped {α : Type} [LinearOrderedField α] [FloorRing α] (M : Libm α)
    (theMultiAddr : Node α) (x : α) (n : Int)
    (hok : (theMultiAddr.netGetParameterInfo CPM_P_SAMPLE_PERIOD).1 = MN_OK)
    (hs : 0 < (theMultiAddr.netGetParameterInfo CPM_P_SAMPLE_PERIOD).2)
    (hx : 1 / 100 ≤ x)
    (hn : convertRMStc M false theMultiAddr x = (n : α)) (h2 : 2 ≤ n) (h3 : n ≤ 32766) :
    (n : α) ≤ (1 - M.pow (8 / 9) ((theMultiAddr.netGetParameterInfo CPM_P_SAMPLE_PERIOD).2 *
        (1 / 1000000) / x)) * 2 ^ 23 + 1 / 2 ∧
      (1 - M.pow (8 / 9) ((theMultiAddr.netGetParameterInfo CPM_P_SAMPLE_PERIOD).2 *
        (1 / 1000000) / x)) * 2 ^ 23 + 1 / 2 < (n : α) + 1 := by
  have hTs : 0 < (theMultiAddr.netGetParameterInfo CPM_P_SAMPLE_PERIOD).2 * (1 / 1000000) :=
    mul_pos hs (by norm_num)
  unfold convertRMStc at hn
  simp only [hok, ne_eq, not_true_eq_false, if_false, hTs.ne', Bool.false_eq_true,
    not_lt.2 hx, gt_iff_lt] at hn
  generalize (1 - M.pow (8 / 9) ((theMultiAddr.netGetParameterInfo CPM_P_SAMPLE_PERIOD).2 *
    (1 / 1000000) / x)) * 2 ^ 23 + 1 / 2 = y at hn ⊢
  have hn2 : (2 : α) ≤ (n : α) := by exact_mod_cast h2
  have hn3 : (n : α) ≤ 32766 := by exact_mod_cast h3
  by_cases hbig : (32767 : α) < ((toNodelong y : Int) : α)
  · rw [if_pos hbig, if_neg (by norm_num)] at hn
    rw [← hn] at hn3
    norm_num at hn3
  · rw [if_neg hbig] at hn
    by_cases hsmall : ((toNodelong y : Int) : α) < 1
    · rw [if_pos hsmall] at hn
      rw [← hn] at hn2
      norm_num at hn2
    · rw [if_neg hsmall] at hn
      have hcast : toNodelong y = n := by exact_mod_cast hn
      by_cases hy : 0 ≤ y
      · rw [toNodelong_of_nonneg y hy, Int.floor_eq_iff] at hcast
        exact hcast
      · exfalso
        unfold toNodelong at hcast
        rw [if_neg hy] at hcast
        have : ⌈y⌉ ≤ 0 := Int.ceil_le.2 (by push_cast; exact le_of_lt (not_le.1 hy))
        omega

/-- C17: for `convertRMStc` with a readable sample period > 0 (in seconds
`Ts = samplePeriod * 1e-6`) and `log`, `pow` obeying the laws of the real logarithm and
power, for every time constant `x >= 0.01` whose encoding is an integer `n` with
`2 <= n <= 32766` (so no clamp was applied): the decoder is
`decode(m) = ln(8/9) * Ts / ln(1 - m/2^23)` at `m = n - 1, n, n + 1`,
`decode(n+1) < decode(n) < decode(n-1)` and `decode(n+1) < x < decode(n-1)`. -/
theorem rmsTc_roundtrip_step {α : Type} [LinearOrderedField α] [FloorRing α] (M : Libm α)
    (hM : LogPowLaws M) (theMultiAddr : Node α) (x : α) (n : Int)
    (hok : (theMultiAddr.netGetParameterInfo CPM_P_SAMPLE_PERIOD).1 = MN_OK)
    (hs : 0 < (theMultiAddr.netGetParameterInfo CPM_P_SAMPLE_PERIOD).2)
    (hx : 1 / 100 ≤ x)
    (hn : convertRMStc M false theMultiAddr x = (n : α)) (h2 : 2 ≤ n) (h3 : n ≤ 32766) :
    (∀ m : α, m = (n : α) - 1 ∨ m = (n : α) ∨ m = (n : α) + 1 →
        convertRMStc M true theMultiAddr m =
          M.log (8 / 9) * ((theMultiAddr.netGetParameterInfo CPM_P_SAMPLE_PERIOD).2 *
            (1 / 1000000)) / M.log (1 - m / 2 ^ 23)) ∧
      convertRMStc M true theMultiAddr ((n : α) + 1) < convertRMStc M true theMultiAddr (n : α) ∧
      convertRMStc M true theMultiAddr (n : α) < convertRMStc M true theMultiAddr ((n : α) - 1) ∧
      convertRMStc M true theMultiAddr ((n : α) + 1) < x ∧
      x < convertRMStc M true theMultiAddr ((n : α) - 1) := by
  obtain ⟨hlo, hhi⟩ := rmsTc_encode_unclamped M theMultiAddr x n hok hs hx hn h2 h3
  have hn2 : (2 : α) ≤ (n : α) := by exact_mod_cast h2
  have hn3 : (n : α) ≤ 32766 := by exact_mod_cast h3
  have hxpos : 0 < x := lt_of_lt_of_le (by norm_num) hx
  obtain ⟨d0, l0⟩ := rmsTc_decode M hM theMultiAddr (n : α) hok hs (by linarith)
    (by norm_num; linarith)
  obtain ⟨dp, lp⟩ := rmsTc_decode M hM theMultiAddr ((n : α) + 1) hok hs (by linarith)
    (by norm_num; linarith)
  obtain ⟨dm, lm⟩ := rmsTc_decode M hM theMultiAddr ((n : α) - 1) hok hs (by linarith)
    (by norm_num; linarith)
  have hTs : 0 < (theMultiAddr.netGetParameterInfo CPM_P_SAMPLE_PERIOD).2 * (1 / 1000000) :=
    mul_pos hs (by norm_num)
  generalize (theMultiAddr.netGetParameterInfo CPM_P_SAMPLE_PERIOD).2 * (1 / 1000000) = Ts at *
  have hL : M.log (8 / 9) < 0 := by
    have := hM.log_lt (8 / 9) 1 (by norm_num) (by norm_num)
    rwa [hM.log_one] at this
  have hN : M.log (8 / 9) * Ts < 0 := mul_neg_of_neg_of_pos hL hTs
  have hlogp : M.log (M.pow (8 / 9) (Ts / x)) = Ts / x * M.log (8 / 9) :=
    hM.log_pow _ _ (by norm_num)
  -- the bounds on p = pow (8/9) (Ts / x)
  have hp_hi : M.pow (8 / 9) (Ts / x) < 1 - ((n : α) - 1) / 2 ^ 23 := by
    rw [lt_sub_iff_add_lt, ← lt_sub_iff_add_lt', div_lt_iff₀ (by positivity)]
    linarith
  have hp_lo : 1 - ((n : α) + 1) / 2 ^ 23 < M.pow (8 / 9) (Ts / x) := by
    rw [sub_lt_comm, lt_div_iff₀ (by positivity)]
    linarith
  have hbp : 0 < 1 - ((n : α) + 1) / 2 ^ 23 := by
    rw [sub_pos, div_lt_one (by positivity)]
    norm_num
    linarith
  have hltp : M.log (1 - ((n : α) + 1) / 2 ^ 23) < M.log (M.pow (8 / 9) (Ts / x)) :=
    hM.log_lt _ _ hbp hp_lo
  have hltm : M.log (M.pow (8 / 9) (Ts / x)) < M.log (1 - ((n : α) - 1) / 2 ^ 23) :=
    hM.log_lt _ _ (lt_trans hbp hp_lo) hp_hi
  have hb0 : 0 < 1 - (n : α) / 2 ^ 23 := by
    rw [sub_pos, div_lt_one (by positivity)]
    norm_num
    linarith
  have hl_p0 : M.log (1 - ((n : α) + 1) / 2 ^ 23) < M.log (1 - (n : α) / 2 ^ 23) :=
    hM.log_lt _ _ hbp (by
      have : (n : α) / 2 ^ 23 < ((n : α) + 1) / 2 ^ 23 :=
        div_lt_div_of_pos_right (by linarith) (by positivity)
      linarith)
  have hl_0m : M.log (1 - (n : α) / 2 ^ 23) < M.log (1 - ((n : α) - 1) / 2 ^ 23) :=
    hM.log_lt _ _ hb0 (by
      have : ((n : α) - 1) / 2 ^ 23 < (n : α) / 2 ^ 23 :=
        div_lt_div_of_pos_right (by linarith) (by positivity)
      linarith)
  have hx_eq : x = M.log (8 / 9) * Ts / M.log (M.pow (8 / 9) (Ts / x)) := by
    have hne : M.log (M.pow (8 / 9) (Ts / x)) ≠ 0 := ne_of_lt (lt_trans hltm lm)
    rw [eq_div_iff hne, hlogp]
    field_simp
    ring
  refine ⟨?_, ?_, ?_, ?_, ?_⟩
  · rintro m (rfl | rfl | rfl)
    · exact dm
    · exact d0
    · exact dp
  · rw [dp, d0]
    exact neg_div_lt_neg_div _ _ _ hN hl_p0 l0
  · rw [d0, dm]
    exact neg_div_lt_neg_div _ _ _ hN hl_0m lm
  · have h := neg_div_lt_neg_div _ _ _ hN hltp (lt_trans hltm lm)
    rw [← hx_eq, ← dp] at h
    exact h
  · have h := neg_div_lt_neg_div _ _ _ hN hltm lm
    rw [← hx_eq, ← dm] at h
    exact h

/-- Witness of C17: sample period `28125/262144` microseconds, the affine stand-ins for
`log` and `pow`, time constant 0.01, encoded as 10. -/
theorem rmsTc_roundtrip_step_witness :
    convertRMStc linLibm false (okNode (28125 / 262144 : ℚ)) (1 / 100) = ((10 : Int) : ℚ) ∧
      convertRMStc linLibm true (okNode (28125 / 262144 : ℚ)) (((10 : Int) : ℚ) + 1) < 1 / 100 ∧
      (1 / 100 : ℚ) < convertRMStc linLibm true (okNode (28125 / 262144 : ℚ))
        (((10 : Int) : ℚ) - 1) :=
  have hn : convertRMStc linLibm false (okNode (28125 / 262144 : ℚ)) (1 / 100) =
      ((10 : Int) : ℚ) := by
    norm_num [convertRMStc, okNode, linLibm, toNodelong, MN_OK]
  ⟨hn, (rmsTc_roundtrip_step linLibm linLibm_laws (okNode (28125 / 262144 : ℚ)) (1 / 100) 10
    rfl (by norm_num [okNode]) (by norm_num) hn (by norm_num) (by norm_num)).2.2.2⟩

end TimeConstantStep

section IbTimeConstant

/-- The eng->bits direction of `convertIBRMStc` with a readable, non-zero sample period. -/
theorem ibRmsTc_encode_eq {α : Type} [LinearOrderedField α] [FloorRing α] (M : Libm α)
    (theMultiAddr : Node α) (eng : α)
    (hok : (theMultiAddr.netGetParameterInfo CPM_P_SAMPLE_PERIOD).1 = MN_OK)
    (hs : (theMultiAddr.netGetParameterInfo CPM_P_SAMPLE_PERIOD).2 ≠ 0) :
    convertIBRMStc M false theMultiAddr eng =
      min 32767 ((toNodelong ((1 - M.pow (8 / 9)
        ((theMultiAddr.netGetParameterInfo CPM_P_SAMPLE_PERIOD).2 * ((1 / 1000000) / 4) /
          max eng (1 / 100))) * 2 ^ 23) : Int) : α) := by
  have hTs : (theMultiAddr.netGetParameterInfo CPM_P_SAMPLE_PERIOD).2 * ((1 / 1000000) / 4) ≠ 0 :=
    mul_ne_zero hs (by norm_num)
  have hmax : (if eng < 1 / 100 then 1 / 100 else eng) = max eng (1 / 100) := by
    by_cases h : eng < 1 / 100
    · rw [if_pos h, max_eq_right (le_of_lt h)]
    · rw [if_neg h, max_eq_left (not_lt.1 h)]
  unfold convertIBRMStc
  simp only [hok, ne_eq, not_true_eq_false, if_false, hTs, Bool.false_eq_true, hmax, gt_iff_lt]
  generalize ((toNodelong ((1 - M.pow (8 / 9)
    ((theMultiAddr.netGetParameterInfo CPM_P_SAMPLE_PERIOD).2 * ((1 / 1000000) / 4) /
      max eng (1 / 100))) * 2 ^ 23) : Int) : α) = r
  by_cases h : (32767 : α) < r
  · rw [if_pos h, min_eq_left (le_of_lt h)]
  · rw [if_neg h, min_eq_right (not_lt.1 h)]

/-- Bernoulli bounds on the real power `(8/9)^t` for `0 < t <= 1`. -/
theorem eight_ninths_rpow_bounds (t : ℝ) (h0 : 0 < t) (h1 : t ≤ 1) :
    1 - t / 8 < (8 / 9 : ℝ) ^ t ∧ (8 / 9 : ℝ) ^ t ≤ 1 - t / 9 := by
  constructor
  · have h := rpow_one_add_le_one_add_mul_self (by norm_num : (-1 : ℝ) ≤ 1 / 8) h0.le h1
    have e : (8 / 9 : ℝ) = (1 + 1 / 8)⁻¹ := by norm_num
    have hpos : (0 : ℝ) < (1 + 1 / 8) ^ t := Real.rpow_pos_of_pos (by norm_num) t
    rw [e, Real.inv_rpow (by norm_num), lt_inv_comm₀ (by nlinarith) hpos]
    refine lt_of_le_of_lt h ?_
    rw [lt_inv_comm₀ (by positivity) (by nlinarith), ← one_div,
      lt_div_iff₀ (by positivity : (0 : ℝ) < 1 + t * (1 / 8))]
    nlinarith
  · have h := rpow_one_add_le_one_add_mul_self (by norm_num : (-1 : ℝ) ≤ -1 / 9) h0.le h1
    have e : (1 + -1 / 9 : ℝ) = 8 / 9 := by norm_num
    rw [e] at h
    linarith

/-- C18 fails as stated: with the real `log` and power, a sample period of
`5625/16384` microseconds and the engineering value 0.01, the code works over a quarter
of the sample period and truncates, giving 8, while the claimed value
`min(32767, round(2^23 * (1 - (8/9)^(Ts/tau))))` over the whole sample period is at
least 32. -/
theorem ibRmsTc_differs_from_claimed :
    convertIBRMStc (⟨Real.sqrt, Real.log, fun a b => a ^ b⟩ : Libm ℝ) false
        (okNode (5625 / 16384 : ℝ)) (1 / 100) = 8 ∧
      32 ≤ ibRMStcClaimed (⟨Real.sqrt, Real.log, fun a b => a ^ b⟩ : Libm ℝ)
        ((5625 / 16384 : ℝ) * (1 / 1000000)) (1 / 100) := by
  constructor
  · rw [ibRmsTc_encode_eq _ _ _ rfl (by norm_num [okNode])]
    have ht : ((okNode (5625 / 16384 : ℝ)).netGetParameterInfo CPM_P_SAMPLE_PERIOD).2 *
        ((1 / 1000000) / 4) / max (1 / 100) (1 / 100) = 72 / 8388608 := by
      norm_num [okNode]
    rw [ht]
    obtain ⟨hlo, hhi⟩ := eight_ninths_rpow_bounds (72 / 8388608) (by norm_num) (by norm_num)
    have hfloor : toNodelong ((1 - (8 / 9 : ℝ) ^ (72 / 8388608 : ℝ)) * 2 ^ 23) = 8 := by
      rw [toNodelong_of_nonneg _ (by nlinarith), Int.floor_eq_iff]
      constructor
      · push_cast
        nlinarith
      · push_cast
        nlinarith
    rw [hfloor]
    norm_num
  · unfold ibRMStcClaimed
    have ht : (5625 / 16384 : ℝ) * (1 / 1000000) / max (1 / 100) (1 / 100) = 288 / 8388608 := by
      norm_num
    rw [ht]
    obtain ⟨_, hhi⟩ := eight_ninths_rpow_bounds (288 / 8388608) (by norm_num) (by norm_num)
    refine le_min (by norm_num) ?_
    have : (32 : Int) ≤ ⌊2 ^ 23 * (1 - (8 / 9 : ℝ) ^ (288 / 8388608 : ℝ)) + 1 / 2⌋ := by
      rw [Int.le_floor]
      push_cast
      nlinarith
    exact_mod_cast this

/-- C18, amended: for `convertIBRMStc` with a readable, non-zero sample period and
`tau = max(eng, 0.01)`, the eng->bits result is
`min(32767, trunc(2^23 * (1 - (8/9)^(Tq/tau))))` where `Tq = samplePeriod * 1e-6 / 4` is a
quarter of the sample period in seconds and `trunc` is the cast to integer (no rounding
term, unlike `convertRMStc`); when the product is not negative the cast is the floor.
There is no lower clamp. -/
theorem ibRmsTc_encode {α : Type} [LinearOrderedField α] [FloorRing α] (M : Libm α)
    (theMultiAddr : Node α) (eng : α)
    (hok : (theMultiAddr.netGetParameterInfo CPM_P_SAMPLE_PERIOD).1 = MN_OK)
    (hs : (theMultiAddr.netGetParameterInfo CPM_P_SAMPLE_PERIOD).2 ≠ 0) :
    convertIBRMStc M false theMultiAddr eng =
        min 32767 ((toNodelong ((1 - M.pow (8 / 9)
          ((theMultiAddr.netGetParameterInfo CPM_P_SAMPLE_PERIOD).2 * ((1 / 1000000) / 4) /
            max eng (1 / 100))) * 2 ^ 23) : Int) : α) ∧
      (0 ≤ (1 - M.pow (8 / 9)
          ((theMultiAddr.netGetParameterInfo CPM_P_SAMPLE_PERIOD).2 * ((1 / 1000000) / 4) /
            max eng (1 / 100))) * 2 ^ 23 →
        convertIBRMStc M false theMultiAddr eng =
          min 32767 ((⌊(1 - M.pow (8 / 9)
            ((theMultiAddr.netGetParameterInfo CPM_P_SAMPLE_PERIOD).2 * ((1 / 1000000) / 4) /
              max eng (1 / 100))) * 2 ^ 23⌋ : Int) : α)) := by
  refine ⟨ibRmsTc_encode_eq M theMultiAddr eng hok hs, fun h => ?_⟩
  rw [ibRmsTc_encode_eq M theMultiAddr eng hok hs, toNodelong_of_nonneg _ h]

/-- Witness of C18 (amended): sample period `28125/65536` microseconds, the affine
stand-in for `pow`, engineering value 0.01: the result is 10. -/
theorem ibRmsTc_encode_witness :
    convertIBRMStc linLibm false (okNode (28125 / 65536 : ℚ)) (1 / 100) =
      min 32767 ((toNodelong ((1 - linLibm.pow (8 / 9)
        (((okNode (28125 / 65536 : ℚ)).netGetParameterInfo CPM_P_SAMPLE_PERIOD).2 *
          ((1 / 1000000) / 4) / max (1 / 100) (1 / 100))) * 2 ^ 23) : Int) : ℚ) :=
  (ibRmsTc_encode linLibm (okNode (28125 / 65536 : ℚ)) (1 / 100) rfl
    (by norm_num [okNode])).1

end IbTimeConstant

section FilterDegenerate

/-- C22, the code at the failing input: with the real `log` and power and a sample period
that is read successfully as 0, the eng->bits direction of both filter converters
returns 32767 for 1 ms, not 0: the guard `theErr != MN_OK && sampleTime.value <= 0` does
not fire when the read succeeds. -/
theorem filt_zero_period_not_zero :
    convertFilt99pctMilliseconds (⟨Real.sqrt, Real.log, fun a b => a ^ b⟩ : Libm ℝ) false
        (okNode (0 : ℝ)) 1 = 32767 ∧
      convertFilt1TCMilliseconds (⟨Real.sqrt, Real.log, fun a b => a ^ b⟩ : Libm ℝ) false
        (okNode (0 : ℝ)) 1 = 32767 := by
  have h : toNodelong ((65537 : ℝ) / 2) = 32768 := by
    rw [toNodelong_of_nonneg _ (by norm_num), Int.floor_eq_iff]
    norm_num
  constructor
  · simp only [convertFilt99pctMilliseconds, convertFiltBody, okNode, MN_OK]
    norm_num [h]
  · simp only [convertFilt1TCMilliseconds, convertFiltBody, okNode, MN_OK]
    norm_num [h]

end FilterDegenerate

section VectorFilter

/-- C23: in both directions, for every node (every sample period and read result) and
every input value, `convertVectorFilt99pctMilliseconds` equals
`convertFilt99pctMilliseconds` evaluated on the same value with a quarter of the sample
period; it is a quarter of the 99% decoding, and the 99% encoding of four times the
value. -/
theorem vectorFilt_quarter_period {α : Type} [LinearOrderedField α] [FloorRing α]
    (M : Libm α) (scaled : Bool) (theMultiAddr : Node α) (v : α) :
    convertVectorFilt99pctMilliseconds M scaled theMultiAddr v =
        convertFilt99pctMilliseconds M scaled (quarterPeriod theMultiAddr) v ∧
      convertVectorFilt99pctMilliseconds M true theMultiAddr v =
        convertFilt99pctMilliseconds M true theMultiAddr v / 4 ∧
      convertVectorFilt99pctMilliseconds M false theMultiAddr v =
        convertFilt99pctMilliseconds M false theMultiAddr (4 * v) := by
  refine ⟨?_, by simp [convertVectorFilt99pctMilliseconds],
    by simp [convertVectorFilt99pctMilliseconds, mul_comm]⟩
  have hq : ((theMultiAddr.netGetParameterInfo CPM_P_SAMPLE_PERIOD).2 / 4 ≤ 0) ↔
      ((theMultiAddr.netGetParameterInfo CPM_P_SAMPLE_PERIOD).2 ≤ 0) := by
    constructor
    · intro h
      by_contra hc
      have := div_pos (not_le.1 hc) (by norm_num : (0 : α) < 4)
      exact absurd h (not_le.2 this)
    · intro h
      exact div_nonpos_of_nonpos_of_nonneg h (by norm_num)
  have h4 : (v * 4 ≤ 0) ↔ (v ≤ 0) := by
    constructor
    · intro h
      by_contra hc
      have := mul_pos (not_le.1 hc) (by norm_num : (0 : α) < 4)
      exact absurd h (not_le.2 this)
    · intro h
      exact mul_nonpos_of_nonpos_of_nonneg h (by norm_num)
  have he : (1 / 1000 : α) * (theMultiAddr.netGetParameterInfo CPM_P_SAMPLE_PERIOD).2 / (v * 4) =
      (1 / 1000 : α) * ((theMultiAddr.netGetParameterInfo CPM_P_SAMPLE_PERIOD).2 / 4) / v := by
    ring
  cases scaled with
  | true =>
    simp only [convertVectorFilt99pctMilliseconds, convertFilt99pctMilliseconds,
      convertFiltBody, quarterPeriod, if_true, hq]
    split_ifs
    · exact zero_div 4
    · exact zero_div 4
    · ring
  | false =>
    simp only [convertVectorFilt99pctMilliseconds, convertFilt99pctMilliseconds,
      convertFiltBody, quarterPeriod, if_true, hq, h4, he, Bool.false_eq_true, if_false]

end VectorFilter

section PositionLimit

/-- C24 fails as stated: on firmware 5, older than the milestone 10, the bits->eng
direction passes 40000 through unchanged (it is not clamped), and the eng->bits direction
clamps 40000 to 32767 (it is not the identity). -/
theorem checkPosnLimit_clamps_on_encode :
    checkPosnLimit (10 : ℚ) true (okNode (5 : ℚ)) 40000 = 40000 ∧
      checkPosnLimit (10 : ℚ) false (okNode (5 : ℚ)) 40000 = 32767 := by
  constructor <;> norm_num [checkPosnLimit, okNode, INT16_MAX]

/-- C24, amended: for `checkPosnLimit` with the firmware version read successfully, the
eng->bits direction (`valIsBits = false`) clamps a value above 32767 to 32767 when the
firmware is older than the dual-RMS milestone and passes every other value, and every
value on newer firmware, through unchanged; the bits->eng direction (`valIsBits = true`)
is the identity for every value and every firmware version. -/
theorem checkPosnLimit_directions {α : Type} [LinearOrderedField α] [FloorRing α]
    (FW_MILESTONE_DUAL_RMS : α) (theMultiAddr : Node α) (v : α)
    (hok : (theMultiAddr.netGetParameterDbl CPM_P_FW_VERS).1 = MN_OK) :
    checkPosnLimit FW_MILESTONE_DUAL_RMS true theMultiAddr v = v ∧
      ((theMultiAddr.netGetParameterDbl CPM_P_FW_VERS).2 < FW_MILESTONE_DUAL_RMS →
        32767 < v → checkPosnLimit FW_MILESTONE_DUAL_RMS false theMultiAddr v = 32767) ∧
      ((theMultiAddr.netGetParameterDbl CPM_P_FW_VERS).2 < FW_MILESTONE_DUAL_RMS →
        v ≤ 32767 → checkPosnLimit FW_MILESTONE_DUAL_RMS false theMultiAddr v = v) ∧
      (FW_MILESTONE_DUAL_RMS ≤ (theMultiAddr.netGetParameterDbl CPM_P_FW_VERS).2 →
        checkPosnLimit FW_MILESTONE_DUAL_RMS false theMultiAddr v = v) := by
  unfold checkPosnLimit INT16_MAX
  simp only [hok, if_true, Bool.not_true, Bool.false_eq_true, if_false, Bool.not_false,
    gt_iff_lt]
  refine ⟨trivial, ?_, ?_, ?_⟩
  · intro h1 h2
    rw [if_pos h1, if_pos h2]
  · intro h1 h2
    rw [if_pos h1, if_neg (not_lt.2 h2)]
  · intro h1
    rw [if_neg (not_lt.2 h1)]

/-- Witness of C24 (amended): milestone 10, firmware 5, value 40000. -/
theorem checkPosnLimit_directions_witness :
    checkPosnLimit (10 : ℚ) true (okNode (5 : ℚ)) 40000 = 40000 ∧
      checkPosnLimit (10 : ℚ) false (okNode (5 : ℚ)) 40000 = 32767 :=
  ⟨(checkPosnLimit_directions (10 : ℚ) (okNode (5 : ℚ)) 40000 rfl).1,
    (checkPosnLimit_directions (10 : ℚ) (okNode (5 : ℚ)) 40000 rfl).2.1
      (by norm_num [okNode]) (by norm_num)⟩

end PositionLimit

section HeatFactor

/-- C25 fails as stated: with max current 1 and winding resistance 1 and the real square
root, `valIsBits = true` on 3 gives `(3 * 1)^2 * 0.75 = 27/4`, not
`sqrt (3 / 0.75) / 1 = 2`, and `valIsBits = false` on 3 gives 2, not `27/4`: the two
directions are the other way round. -/
theorem calcDHeatFact_directions_swapped :
    calcDHeatFact (⟨Real.sqrt, Real.log, fun a b => a ^ b⟩ : Libm ℝ) true (okNode (1 : ℝ)) 3
        = 27 / 4 ∧
      calcDHeatFact (⟨Real.sqrt, Real.log, fun a b => a ^ b⟩ : Libm ℝ) false (okNode (1 : ℝ)) 3
        = 2 ∧
      Real.sqrt (3 / (75 / 100 * 1)) / 1 = 2 ∧ ((3 : ℝ) * 1) ^ 2 * (75 / 100) * 1 = 27 / 4 := by
  have h4 : Real.sqrt 4 = 2 := by
    rw [show (4 : ℝ) = 2 ^ 2 by norm_num, Real.sqrt_sq (by norm_num)]
  refine ⟨?_, ?_, ?_, by norm_num⟩
  · norm_num [calcDHeatFact, okNode, MN_OK]
  · norm_num [calcDHeatFact, okNode, MN_OK, h4]
  · norm_num [h4]

/-- C25, amended: for `calcDHeatFact` with successfully read max current `Imax` and winding
resistance `R`, the direction `valIsBits = true` returns `(v * Imax)^2 * (R * 0.75)` for
every value `v`, and the direction `valIsBits = false` returns
`sqrt (max(v, 0) / (R * 0.75)) / Imax` for every value `v`. -/
theorem calcDHeatFact_formulas {α : Type} [LinearOrderedField α] [FloorRing α] (M : Libm α)
    (theMultiAddr : Node α) (v : α)
    (hI : (theMultiAddr.netGetParameterInfo CPM_P_DRV_I_MAX).1 = MN_OK)
    (hR : (theMultiAddr.netGetParameterInfo CPM_P_DRV_MTR_OHMS).1 = MN_OK) :
    calcDHeatFact M true theMultiAddr v =
        (v * (theMultiAddr.netGetParameterInfo CPM_P_DRV_I_MAX).2) ^ 2 *
          ((theMultiAddr.netGetParameterInfo CPM_P_DRV_MTR_OHMS).2 * (75 / 100)) ∧
      calcDHeatFact M false theMultiAddr v =
        M.sqrt (max v 0 / ((theMultiAddr.netGetParameterInfo CPM_P_DRV_MTR_OHMS).2 * (75 / 100))) /
          (theMultiAddr.netGetParameterInfo CPM_P_DRV_I_MAX).2 := by
  have hmax : (if v < 0 then 0 else v) = max v 0 := by
    by_cases h : v < 0
    · rw [if_pos h, max_eq_right (le_of_lt h)]
    · rw [if_neg h, max_eq_left (not_lt.1 h)]
  unfold calcDHeatFact
  simp only [hI, hR, ne_eq, not_true_eq_false, if_false, if_true, Bool.false_eq_true, hmax]
  exact ⟨by ring, trivial⟩

/-- Witness of C25 (amended): max current and winding resistance 2, value 3. -/
theorem calcDHeatFact_formulas_witness :
    calcDHeatFact ratLibm true (okNode (2 : ℚ)) 3 =
      (3 * ((okNode (2 : ℚ)).netGetParameterInfo CPM_P_DRV_I_MAX).2) ^ 2 *
        (((okNode (2 : ℚ)).netGetParameterInfo CPM_P_DRV_MTR_OHMS).2 * (75 / 100)) :=
  (calcDHeatFact_formulas ratLibm (okNode (2 : ℚ)) 3 rfl rfl).1

end HeatFactor

section MeasuredValues

/-- C27 fails as stated: with every full scale read as 1, the eng->bits direction of
`convertMeasVolts` returns 2 for the engineering value 2, above the fractional maximum
32767/32768, while `convertMeasAmperes` clamps the same input. -/
theorem convertMeasVolts_not_clamped :
    convertMeasVolts false (okNode (1 : ℚ)) 2 = 2 ∧
      (32767 / 32768 : ℚ) < convertMeasVolts false (okNode (1 : ℚ)) 2 ∧
      convertMeasAmperes false (okNode (1 : ℚ)) 2 = 32767 / 32768 := by
  refine ⟨?_, ?_, ?_⟩ <;> norm_num [convertMeasVolts, convertMeasAmperes, okNode, MN_OK, Q15_MAX]

/-- C27, amended: with a successfully read positive full scale, `convertMeasAmperes`
(full scale = ADC max) and `convertMeasVolts` (full scale = bus full-scale voltage) both
decode to `bits * fullScale`; `convertMeasAmperes` encodes to
`min(eng / fullScale, 32767/32768)`, while `convertMeasVolts` encodes to
`eng / fullScale` with no clamp. -/
theorem convertMeas_linear {α : Type} [LinearOrderedField α] [FloorRing α]
    (theMultiAddr : Node α) (v : α)
    (hA : (theMultiAddr.netGetParameterInfo CPM_P_DRV_ADC_MAX).1 = MN_OK)
    (hV : (theMultiAddr.netGetParameterInfo CPM_P_DRV_FACT_FS_BUSV).1 = MN_OK)
    (hApos : 0 < (theMultiAddr.netGetParameterInfo CPM_P_DRV_ADC_MAX).2)
    (hVpos : 0 < (theMultiAddr.netGetParameterInfo CPM_P_DRV_FACT_FS_BUSV).2) :
    convertMeasAmperes true theMultiAddr v =
        v * (theMultiAddr.netGetParameterInfo CPM_P_DRV_ADC_MAX).2 ∧
      convertMeasVolts true theMultiAddr v =
        v * (theMultiAddr.netGetParameterInfo CPM_P_DRV_FACT_FS_BUSV).2 ∧
      convertMeasAmperes false theMultiAddr v =
        min (v / (theMultiAddr.netGetParameterInfo CPM_P_DRV_ADC_MAX).2) (32767 / 32768) ∧
      convertMeasVolts false theMultiAddr v =
        v / (theMultiAddr.netGetParameterInfo CPM_P_DRV_FACT_FS_BUSV).2 := by
  unfold convertMeasAmperes convertMeasVolts Q15_MAX
  simp only [hA, hV, ne_eq, not_true_eq_false, not_le.2 hApos, not_le.2 hVpos, or_self,
    if_false, if_true, Bool.false_eq_true, gt_iff_lt]
  refine ⟨trivial, trivial, ?_, trivial⟩
  by_cases h : 32767 / 32768 < v / (theMultiAddr.netGetParameterInfo CPM_P_DRV_ADC_MAX).2
  · rw [if_pos h, min_eq_right (le_of_lt h)]
  · rw [if_neg h, min_eq_left (not_lt.1 h)]

/-- Witness of C27 (amended): every full scale reads as 2, value 5. -/
theorem convertMeas_linear_witness :
    convertMeasAmperes false (okNode (2 : ℚ)) 5 =
        min (5 / ((okNode (2 : ℚ)).netGetParameterInfo CPM_P_DRV_ADC_MAX).2) (32767 / 32768) ∧
      convertMeasVolts false (okNode (2 : ℚ)) 5 =
        5 / ((okNode (2 : ℚ)).netGetParameterInfo CPM_P_DRV_FACT_FS_BUSV).2 :=
  (convertMeas_linear (okNode (2 : ℚ)) 5 rfl rfl (by norm_num [okNode])
    (by norm_num [okNode])).2.2

end MeasuredValues

section AmperesRange

/-- C28 fails as stated: with max current 1, the engineering value -2 is encoded as -2,
below the least signed 1.15 value -1. -/
theorem convertAmperes_below_minus_one :
    convertAmperes false (okNode (1 : ℚ)) (-2) = -2 ∧
      convertAmperes false (okNode (1 : ℚ)) (-2) < -1 := by
  constructor <;> norm_num [convertAmperes, okNode, MN_OK, Q15_MAX]

/-- C28, amended: for `convertAmperes` with a successfully read max current `iMax > 0`,
for every engineering value the eng->bits result is `min(eng / iMax, 32767/32768)`, so
it never exceeds 32767/32768; it is at least -1 exactly when `eng >= -iMax`: there is no
lower clamp, and a value `eng < -iMax` is encoded as `eng / iMax < -1`. -/
theorem convertAmperes_encode_range {α : Type} [LinearOrderedField α] [FloorRing α]
    (theMultiAddr : Node α) (eng : α)
    (hok : (theMultiAddr.netGetParameterInfo CPM_P_DRV_I_MAX).1 = MN_OK)
    (hpos : 0 < (theMultiAddr.netGetParameterInfo CPM_P_DRV_I_MAX).2) :
    convertAmperes false theMultiAddr eng =
        min (eng / (theMultiAddr.netGetParameterInfo CPM_P_DRV_I_MAX).2) (32767 / 32768) ∧
      convertAmperes false theMultiAddr eng ≤ 32767 / 32768 ∧
      (-1 ≤ convertAmperes false theMultiAddr eng ↔
        -(theMultiAddr.netGetParameterInfo CPM_P_DRV_I_MAX).2 ≤ eng) ∧
      (eng < -(theMultiAddr.netGetParameterInfo CPM_P_DRV_I_MAX).2 →
        convertAmperes false theMultiAddr eng =
          eng / (theMultiAddr.netGetParameterInfo CPM_P_DRV_I_MAX).2) := by
  have he : convertAmperes false theMultiAddr eng =
      min (eng / (theMultiAddr.netGetParameterInfo CPM_P_DRV_I_MAX).2) (32767 / 32768) := by
    unfold convertAmperes Q15_MAX
    simp only [hok, ne_eq, not_true_eq_false, not_le.2 hpos, or_self, if_false,
      Bool.false_eq_true, gt_iff_lt]
    by_cases h : 32767 / 32768 < eng / (theMultiAddr.netGetParameterInfo CPM_P_DRV_I_MAX).2
    · rw [if_pos h, min_eq_right (le_of_lt h)]
    · rw [if_neg h, min_eq_left (not_lt.1 h)]
  have hdiv : -1 ≤ eng / (theMultiAddr.netGetParameterInfo CPM_P_DRV_I_MAX).2 ↔
      -(theMultiAddr.netGetParameterInfo CPM_P_DRV_I_MAX).2 ≤ eng := by
    rw [le_div_iff₀ hpos, neg_one_mul]
  refine ⟨he, ?_, ?_, ?_⟩
  · rw [he]
    exact min_le_right _ _
  · rw [he, le_min_iff, hdiv]
    constructor
    · exact fun h => h.1
    · exact fun h => ⟨h, by norm_num⟩
  · intro h
    rw [he, min_eq_left]
    have h1 : eng / (theMultiAddr.netGetParameterInfo CPM_P_DRV_I_MAX).2 < -1 := by
      rw [div_lt_iff₀ hpos, neg_one_mul]
      exact h
    linarith

/-- Witness of C28 (amended): max current 2, engineering value -1. -/
theorem convertAmperes_encode_range_witness :
    convertAmperes false (okNode (2 : ℚ)) (-1) ≤ 32767 / 32768 ∧
      (-1 ≤ convertAmperes false (okNode (2 : ℚ)) (-1) ↔
        -((okNode (2 : ℚ)).netGetParameterInfo CPM_P_DRV_I_MAX).2 ≤ -1) :=
  ⟨(convertAmperes_encode_range (okNode (2 : ℚ)) (-1) rfl (by norm_num [okNode])).2.1,
    (convertAmperes_encode_range (okNode (2 : ℚ)) (-1) rfl (by norm_num [okNode])).2.2.1⟩

end AmperesRange

section RmsLevel

/-- A value clamped to `[0, 100]` after a cast to an integer is an integer of that range;
for a non-negative integer it is the smaller of 100 and the integer. -/
theorem clamp_level_range {α : Type} [LinearOrderedField α] (t : Int) :
    (∃ k : Int, 0 ≤ k ∧ k ≤ 100 ∧
      (if (if (100 : α) < (t : α) then (100 : α) else (t : α)) < 0 then (0 : α)
        else if (100 : α) < (t : α) then (100 : α) else (t : α)) = (k : α)) ∧
    (0 ≤ t →
      (if (if (100 : α) < (t : α) then (100 : α) else (t : α)) < 0 then (0 : α)
        else if (100 : α) < (t : α) then (100 : α) else (t : α)) = min 100 (t : α)) := by
  by_cases h1 : (100 : α) < (t : α)
  · simp only [h1, if_true]
    rw [if_neg (by norm_num)]
    exact ⟨⟨100, by norm_num, le_refl _, by norm_num⟩, fun _ => (min_eq_left (le_of_lt h1)).symm⟩
  · simp only [h1, if_false]
    by_cases h2 : (t : α) < 0
    · simp only [h2, if_true]
      refine ⟨⟨0, le_refl _, by norm_num, by norm_num⟩, fun h0 => ?_⟩
      have : (0 : α) ≤ (t : α) := by exact_mod_cast h0
      exact absurd h2 (not_lt.2 this)
    · simp only [h2, if_false]
      refine ⟨⟨t, ?_, ?_, rfl⟩, fun _ => (min_eq_right (not_lt.1 h1)).symm⟩
      · have : ((0 : Int) : α) ≤ (t : α) := by push_cast; exact not_lt.1 h2
        exact Int.cast_le.1 this
      · have : (t : α) ≤ ((100 : Int) : α) := by push_cast; exact not_lt.1 h1
        exact Int.cast_le.1 this

/-- The common body of the RMS level converters: the three parts of C26. -/
theorem rmsLevelBody_range {α : Type} [LinearOrderedField α] [FloorRing α] (M : Libm α)
    (limParam : cpmParams) (theMultiAddr : Node α) (bits : α)
    (hA : (theMultiAddr.netGetParameterInfo CPM_P_DRV_ADC_MAX).1 = MN_OK)
    (hL : (theMultiAddr.netGetParameterInfo limParam).1 = MN_OK)
    (hA0 : (theMultiAddr.netGetParameterInfo CPM_P_DRV_ADC_MAX).2 ≠ 0)
    (hL0 : (theMultiAddr.netGetParameterInfo limParam).2 ≠ 0) :
    (∃ k : Int, 0 ≤ k ∧ k ≤ 100 ∧ convertRMSlevelBody M limParam theMultiAddr bits = (k : α)) ∧
      (bits < 0 ∨ 2147483647 < bits → convertRMSlevelBody M limParam theMultiAddr bits = 0) ∧
      (0 ≤ bits → bits ≤ 2147483647 →
        0 < (theMultiAddr.netGetParameterInfo CPM_P_DRV_ADC_MAX).2 →
        0 < (theMultiAddr.netGetParameterInfo limParam).2 →
        0 ≤ M.sqrt (bits / 2 ^ 28) →
        convertRMSlevelBody M limParam theMultiAddr bits =
          min 100 ((⌊100 * M.sqrt (bits / 2 ^ 28) *
            (theMultiAddr.netGetParameterInfo CPM_P_DRV_ADC_MAX).2 /
            (theMultiAddr.netGetParameterInfo limParam).2 + 1 / 2⌋ : Int) : α)) := by
  unfold convertRMSlevelBody
  simp only [hA, hL, hA0, hL0, ne_eq, not_true_eq_false, or_self, if_false, gt_iff_lt]
  refine ⟨?_, ?_, ?_⟩
  · by_cases hg : bits < 0 ∨ 2147483647 < bits
    · rw [if_pos hg]
      exact ⟨0, le_refl _, by norm_num, by norm_num⟩
    · rw [if_neg hg]
      exact (clamp_level_range _).1
  · intro hg
    rw [if_pos hg]
  · intro h0 h1 ha hl hs
    rw [if_neg (by rintro (h | h); exacts [absurd h0 (not_le.2 h), absurd h1 (not_le.2 h)])]
    have hy : 0 ≤ 100 * M.sqrt (bits / 2 ^ 28) *
        (theMultiAddr.netGetParameterInfo CPM_P_DRV_ADC_MAX).2 /
        (theMultiAddr.netGetParameterInfo limParam).2 + 1 / 2 := by
      have : 0 ≤ 100 * M.sqrt (bits / 2 ^ 28) *
          (theMultiAddr.netGetParameterInfo CPM_P_DRV_ADC_MAX).2 /
          (theMultiAddr.netGetParameterInfo limParam).2 :=
        div_nonneg (mul_nonneg (mul_nonneg (by norm_num) hs) ha.le) hl.le
      linarith
    rw [toNodelong_of_nonneg _ hy]
    exact (clamp_level_range _).2 (Int.floor_nonneg.2 hy)

/-- C26: for `convertRMSlevel` and `convertRMSlevelSlow` with successfully read non-zero
ADC max and RMS limit (fast, resp. slow), for every raw value: the result is an integer
of `[0, 100]`; it is 0 for a raw value below 0 or above `2^31 - 1`; and for
`0 <= bits <= 2^31 - 1` with ADC max > 0, RMS limit > 0 (and `sqrt` not negative at
`bits / 2^28`) it is `min(100, floor(100 * sqrt(bits / 2^28) * adcMax / rmsLimit + 1/2))`. -/
theorem rmsLevel_range {α : Type} [LinearOrderedField α] [FloorRing α] (M : Libm α)
    (scaled : Bool) (theMultiAddr : Node α) (bits : α)
    (hA : (theMultiAddr.netGetParameterInfo CPM_P_DRV_ADC_MAX).1 = MN_OK)
    (hL : (theMultiAddr.netGetParameterInfo CPM_P_DRV_RMS_LIM).1 = MN_OK)
    (hS : (theMultiAddr.netGetParameterInfo CPM_P_DRV_RMS_SLOW_LIM).1 = MN_OK)
    (hA0 : (theMultiAddr.netGetParameterInfo CPM_P_DRV_ADC_MAX).2 ≠ 0)
    (hL0 : (theMultiAddr.netGetParameterInfo CPM_P_DRV_RMS_LIM).2 ≠ 0)
    (hS0 : (theMultiAddr.netGetParameterInfo CPM_P_DRV_RMS_SLOW_LIM).2 ≠ 0) :
    ((∃ k : Int, 0 ≤ k ∧ k ≤ 100 ∧ convertRMSlevel M scaled theMultiAddr bits = (k : α)) ∧
      (bits < 0 ∨ 2147483647 < bits → convertRMSlevel M scaled theMultiAddr bits = 0) ∧
      (0 ≤ bits → bits ≤ 2147483647 →
        0 < (theMultiAddr.netGetParameterInfo CPM_P_DRV_ADC_MAX).2 →
        0 < (theMultiAddr.netGetParameterInfo CPM_P_DRV_RMS_LIM).2 →
        0 ≤ M.sqrt (bits / 2 ^ 28) →
        convertRMSlevel M scaled theMultiAddr bits =
          min 100 ((⌊100 * M.sqrt (bits / 2 ^ 28) *
            (theMultiAddr.netGetParameterInfo CPM_P_DRV_ADC_MAX).2 /
            (theMultiAddr.netGetParameterInfo CPM_P_DRV_RMS_LIM).2 + 1 / 2⌋ : Int) : α))) ∧
    ((∃ k : Int, 0 ≤ k ∧ k ≤ 100 ∧ convertRMSlevelSlow M scaled theMultiAddr bits = (k : α)) ∧
      (bits < 0 ∨ 2147483647 < bits → convertRMSlevelSlow M scaled theMultiAddr bits = 0) ∧
      (0 ≤ bits → bits ≤ 2147483647 →
        0 < (theMultiAddr.netGetParameterInfo CPM_P_DRV_ADC_MAX).2 →
        0 < (theMultiAddr.netGetParameterInfo CPM_P_DRV_RMS_SLOW_LIM).2 →
        0 ≤ M.sqrt (bits / 2 ^ 28) →
        convertRMSlevelSlow M scaled theMultiAddr bits =
          min 100 ((⌊100 * M.sqrt (bits / 2 ^ 28) *
            (theMultiAddr.netGetParameterInfo CPM_P_DRV_ADC_MAX).2 /
            (theMultiAddr.netGetParameterInfo CPM_P_DRV_RMS_SLOW_LIM).2 + 1 / 2⌋ : Int) : α))) :=
  ⟨rmsLevelBody_range M CPM_P_DRV_RMS_LIM theMultiAddr bits hA hL hA0 hL0,
    rmsLevelBody_range M CPM_P_DRV_RMS_SLOW_LIM theMultiAddr bits hA hS hA0 hS0⟩

/-- Witness of C26: ADC max and both limits read as 1, `sqrt` the identity stand-in, raw
value `2^26`: the level is `min(100, floor(100 * (1/4) + 1/2)) = 25`. -/
theorem rmsLevel_range_witness :
    convertRMSlevel ratLibm true (okNode (1 : ℚ)) 67108864 = 25 ∧
      convertRMSlevelSlow ratLibm true (okNode (1 : ℚ)) 67108864 = 25 := by
  have h := rmsLevel_range ratLibm true (okNode (1 : ℚ)) 67108864 rfl rfl rfl
    (by norm_num [okNode]) (by norm_num [okNode]) (by norm_num [okNode])
  have hf : ⌊(100 : ℚ) * (67108864 / 2 ^ 28) * 1 / 1 + 1 / 2⌋ = 25 := by
    rw [Int.floor_eq_iff]
    norm_num
  have e1 := h.1.2.2 (by norm_num) (by norm_num) (by norm_num [okNode]) (by norm_num [okNode])
    (by norm_num [ratLibm])
  have e2 := h.2.2.2 (by norm_num) (by norm_num) (by norm_num [okNode]) (by norm_num [okNode])
    (by norm_num [ratLibm])
  simp only [okNode, ratLibm] at e1 e2
  rw [hf] at e1 e2
  norm_num at e1 e2
  exact ⟨e1, e2⟩

end RmsLevel

section FilterRoundTrip

/-- A strictly increasing `log` is injective on the positive numbers. -/
theorem log_inj_of_laws {α : Type} [LinearOrderedField α] (M : Libm α) (hM : LogPowLaws M)
    (u v : α) (hu : 0 < u) (hv : 0 < v) (h : M.log u = M.log v) : u = v := by
  rcases lt_trichotomy u v with hlt | heq | hgt
  · exact absurd h (ne_of_lt (hM.log_lt u v hu hlt))
  · exact heq
  · exact absurd h.symm (ne_of_lt (hM.log_lt v u hv hgt))

/-- The eng->bits direction of the filter converters for a positive time: the clamped
rounding of `32768 * TripPoint^(0.001 * samplePeriod / ms)`. -/
theorem filtBody_encode {α : Type} [LinearOrderedField α] [FloorRing α] (M : Libm α)
    (hpos : ∀ a b : α, 0 < a → 0 < M.pow a b) (TripPoint : α) (hT0 : 0 < TripPoint)
    (theMultiAddr : Node α)
    (hs : 0 < (theMultiAddr.netGetParameterInfo CPM_P_SAMPLE_PERIOD).2)
    (ms : α) (hms : 0 < ms) :
    convertFiltBody M TripPoint false theMultiAddr ms =
      ((min 32767 ⌊32768 * M.pow TripPoint
        ((1 / 1000) * (theMultiAddr.netGetParameterInfo CPM_P_SAMPLE_PERIOD).2 / ms) + 1 / 2⌋ :
          Int) : α) := by
  have hy : 0 ≤ 32768 * M.pow TripPoint
      ((1 / 1000) * (theMultiAddr.netGetParameterInfo CPM_P_SAMPLE_PERIOD).2 / ms) + 1 / 2 := by
    have := hpos TripPoint
      ((1 / 1000) * (theMultiAddr.netGetParameterInfo CPM_P_SAMPLE_PERIOD).2 / ms) hT0
    linarith
  unfold convertFiltBody
  simp only [not_le.2 hs, decide_False, Bool.and_false, Bool.false_eq_true, if_false,
    not_le.2 hms, toNodelong_of_nonneg _ hy, gt_iff_lt]
  congr 1
  by_cases h : 32767 < ⌊32768 * M.pow TripPoint
      ((1 / 1000) * (theMultiAddr.netGetParameterInfo CPM_P_SAMPLE_PERIOD).2 / ms) + 1 / 2⌋
  · rw [if_pos h, min_eq_left (le_of_lt h)]
  · rw [if_neg h, min_eq_right (not_lt.1 h)]

/-- The round trip of the filter converters for a trip point strictly between 0 and 1. -/
theorem filtBody_roundtrip {α : Type} [LinearOrderedField α] [FloorRing α] (M : Libm α)
    (hM : LogPowLaws M) (hpos : ∀ a b : α, 0 < a → 0 < M.pow a b)
    (TripPoint : α) (hT0 : 0 < TripPoint) (hT1 : TripPoint < 1) (theMultiAddr : Node α)
    (hs : 0 < (theMultiAddr.netGetParameterInfo CPM_P_SAMPLE_PERIOD).2)
    (n : Int) (h1 : 1 ≤ n) (h2 : n ≤ 32767) :
    convertFiltBody M TripPoint true theMultiAddr (n : α) =
        (1 / 1000) * (theMultiAddr.netGetParameterInfo CPM_P_SAMPLE_PERIOD).2 *
          M.log TripPoint / M.log ((n : α) / 32768) ∧
      0 < convertFiltBody M TripPoint true theMultiAddr (n : α) ∧
      convertFiltBody M TripPoint false theMultiAddr
        (convertFiltBody M TripPoint true theMultiAddr (n : α)) = (n : α) := by
  have hn1 : (1 : α) ≤ (n : α) := by exact_mod_cast h1
  have hn2 : (n : α) ≤ 32767 := by exact_mod_cast h2
  have hu0 : 0 < (n : α) / 32768 := div_pos (by linarith) (by norm_num)
  have hu1 : (n : α) / 32768 < 1 := by
    rw [div_lt_one (by norm_num)]
    linarith
  have hl : M.log ((n : α) / 32768) < 0 := by
    have := hM.log_lt _ _ hu0 hu1
    rwa [hM.log_one] at this
  have hL : M.log TripPoint < 0 := by
    have := hM.log_lt _ _ hT0 hT1
    rwa [hM.log_one] at this
  have hc : 0 < (1 / 1000) * (theMultiAddr.netGetParameterInfo CPM_P_SAMPLE_PERIOD).2 :=
    mul_pos (by norm_num) hs
  have hdec : convertFiltBody M TripPoint true theMultiAddr (n : α) =
      (1 / 1000) * (theMultiAddr.netGetParameterInfo CPM_P_SAMPLE_PERIOD).2 *
        M.log TripPoint / M.log ((n : α) / 32768) := by
    unfold convertFiltBody
    simp only [not_le.2 hs, decide_False, Bool.and_false, Bool.false_eq_true, if_false,
      if_true, gt_iff_lt, not_lt.2 hn2, not_le.2 (lt_of_lt_of_le one_pos hn1), or_self]
  have hdpos : 0 < (1 / 1000) * (theMultiAddr.netGetParameterInfo CPM_P_SAMPLE_PERIOD).2 *
      M.log TripPoint / M.log ((n : α) / 32768) :=
    div_pos_of_neg_of_neg (mul_neg_of_pos_of_neg hc hL) hl
  refine ⟨hdec, by rw [hdec]; exact hdpos, ?_⟩
  rw [hdec, filtBody_encode M hpos TripPoint hT0 theMultiAddr hs _ hdpos]
  generalize (1 / 1000) * (theMultiAddr.netGetParameterInfo CPM_P_SAMPLE_PERIOD).2 = c at *
  have he : c / (c * M.log TripPoint / M.log ((n : α) / 32768)) =
      M.log ((n : α) / 32768) / M.log TripPoint := by
    rw [div_div_eq_mul_div, mul_div_mul_left _ _ hc.ne']
  have hx : M.pow TripPoint (M.log ((n : α) / 32768) / M.log TripPoint) = (n : α) / 32768 := by
    apply log_inj_of_laws M hM _ _ (hpos _ _ hT0) hu0
    rw [hM.log_pow _ _ hT0, div_mul_cancel₀ _ hL.ne]
  rw [he, hx]
  have hfl : ⌊32768 * ((n : α) / 32768) + 1 / 2⌋ = n := by
    rw [Int.floor_eq_iff]
    constructor <;> linarith
  rw [hfl, min_eq_right h2]

/-- C21: for `convertFilt99pctMilliseconds` (trip point 0.01) and
`convertFilt1TCMilliseconds` (trip point 0.367879) with sample period > 0 and `log`, `pow`
obeying the laws of the real logarithm and power (`pow` positive on a positive base): for
every integer raw value `n` of `[1, 32767]`,
`decode(n) = 0.001 * samplePeriod * ln(TripPoint) / ln(n / 32768)` is positive and
`encode(decode(n)) = n`, where for every `ms > 0`
`encode(ms) = min(32767, floor(32768 * TripPoint^(0.001 * samplePeriod / ms) + 1/2))`. -/
theorem filt_roundtrip {α : Type} [LinearOrderedField α] [FloorRing α] (M : Libm α)
    (hM : LogPowLaws M) (hpos : ∀ a b : α, 0 < a → 0 < M.pow a b) (theMultiAddr : Node α)
    (hs : 0 < (theMultiAddr.netGetParameterInfo CPM_P_SAMPLE_PERIOD).2)
    (n : Int) (h1 : 1 ≤ n) (h2 : n ≤ 32767) :
    (convertFilt99pctMilliseconds M true theMultiAddr (n : α) =
        (1 / 1000) * (theMultiAddr.netGetParameterInfo CPM_P_SAMPLE_PERIOD).2 *
          M.log (1 / 100) / M.log ((n : α) / 32768) ∧
      0 < convertFilt99pctMilliseconds M true theMultiAddr (n : α) ∧
      convertFilt99pctMilliseconds M false theMultiAddr
        (convertFilt99pctMilliseconds M true theMultiAddr (n : α)) = (n : α) ∧
      ∀ ms : α, 0 < ms → convertFilt99pctMilliseconds M false theMultiAddr ms =
        ((min 32767 ⌊32768 * M.pow (1 / 100)
          ((1 / 1000) * (theMultiAddr.netGetParameterInfo CPM_P_SAMPLE_PERIOD).2 / ms) + 1 / 2⌋ :
            Int) : α)) ∧
    (convertFilt1TCMilliseconds M true theMultiAddr (n : α) =
        (1 / 1000) * (theMultiAddr.netGetParameterInfo CPM_P_SAMPLE_PERIOD).2 *
          M.log (367879 / 1000000) / M.log ((n : α) / 32768) ∧
      0 < convertFilt1TCMilliseconds M true theMultiAddr (n : α) ∧
      convertFilt1TCMilliseconds M false theMultiAddr
        (convertFilt1TCMilliseconds M true theMultiAddr (n : α)) = (n : α) ∧
      ∀ ms : α, 0 < ms → convertFilt1TCMilliseconds M false theMultiAddr ms =
        ((min 32767 ⌊32768 * M.pow (367879 / 1000000)
          ((1 / 1000) * (theMultiAddr.netGetParameterInfo CPM_P_SAMPLE_PERIOD).2 / ms) + 1 / 2⌋ :
            Int) : α)) := by
  have e : (1 - 99 / 100 : α) = 1 / 100 := by norm_num
  unfold convertFilt99pctMilliseconds convertFilt1TCMilliseconds
  rw [e]
  obtain ⟨a1, a2, a3⟩ := filtBody_roundtrip M hM hpos (1 / 100) (by norm_num) (by norm_num)
    theMultiAddr hs n h1 h2
  obtain ⟨b1, b2, b3⟩ := filtBody_roundtrip M hM hpos (367879 / 1000000) (by norm_num)
    (by norm_num) theMultiAddr hs n h1 h2
  exact ⟨⟨a1, a2, a3, fun ms hms =>
      filtBody_encode M hpos (1 / 100) (by norm_num) theMultiAddr hs ms hms⟩,
    ⟨b1, b2, b3, fun ms hms =>
      filtBody_encode M hpos (367879 / 1000000) (by norm_num) theMultiAddr hs ms hms⟩⟩

/-- Witness of C21: the real logarithm and power, sample period 1, raw value 1. -/
theorem filt_roundtrip_witness :
    convertFilt99pctMilliseconds (⟨Real.sqrt, Real.log, fun a b => a ^ b⟩ : Libm ℝ) false
        (okNode (1 : ℝ))
        (convertFilt99pctMilliseconds (⟨Real.sqrt, Real.log, fun a b => a ^ b⟩ : Libm ℝ) true
          (okNode (1 : ℝ)) ((1 : Int) : ℝ)) = ((1 : Int) : ℝ) ∧
      convertFilt1TCMilliseconds (⟨Real.sqrt, Real.log, fun a b => a ^ b⟩ : Libm ℝ) false
        (okNode (1 : ℝ))
        (convertFilt1TCMilliseconds (⟨Real.sqrt, Real.log, fun a b => a ^ b⟩ : Libm ℝ) true
          (okNode (1 : ℝ)) ((1 : Int) : ℝ)) = ((1 : Int) : ℝ) :=
  have h := filt_roundtrip (⟨Real.sqrt, Real.log, fun a b => a ^ b⟩ : Libm ℝ) real_logPowLaws
    (fun _ b ha => Real.rpow_pos_of_pos ha b) (okNode (1 : ℝ)) (by norm_num [okNode]) 1
    (le_refl _) (by norm_num)
  ⟨h.1.2.2.1, h.2.2.2.1⟩

end FilterRoundTrip

section DescriptorBanks

theorem cpmInfoDB_length (H : TableSizes) : (cpmInfoDB H).length = 116 := rfl

theorem cpmDrvInfoDB_length : cpmDrvInfoDB.length = 128 := rfl

theorem cpmAppInfoDB_length (H : TableSizes) : (cpmAppInfoDB H).length = 72 := rfl

theorem cpmApp20InfoDB_length : cpmApp20InfoDB.length = 14 := rfl

theorem mem_bankIds (k n x : Nat) : x ∈ bankIds k n ↔ ∃ i, i < n ∧ x = 256 * k + i := by
  unfold bankIds
  simp only [List.mem_map, List.mem_range]
  constructor
  · rintro ⟨i, hi, rfl⟩
    exact ⟨i, hi, rfl⟩
  · rintro ⟨i, hi, rfl⟩
    exact ⟨i, hi, rfl⟩

theorem bankIds_nodup (k n : Nat) : (bankIds k n).Nodup := by
  unfold bankIds
  exact (List.nodup_range n).map (fun a b h => by simpa using h)

theorem bankIds_disjoint (k k' n n' : Nat) (hn : n ≤ 256) (hn' : n' ≤ 256) (hk : k ≠ k') :
    List.Disjoint (bankIds k n) (bankIds k' n') := by
  intro x hx hx'
  obtain ⟨i, hi, rfl⟩ := (mem_bankIds k n x).1 hx
  obtain ⟨j, hj, h⟩ := (mem_bankIds k' n' _).1 hx'
  omega

theorem cpmBanks_nParams {α : Type} [Zero α] (H : TableSizes) :
    (cpmBanks H : List (paramBank α)).map (fun b => b.nParams) = [116, 128, 72, 14] := rfl

theorem allBankIds_cpmBanks {α : Type} [Zero α] (H : TableSizes) :
    allBankIds (cpmBanks H : List (paramBank α)) =
      bankIds 0 116 ++ (bankIds 1 128 ++ (bankIds 2 72 ++ (bankIds 3 14 ++ []))) := rfl

/-- The success path of `cpmClassSetup`: the record handed to `coreUpdateParamInfo`. -/
theorem cpmClassSetup_installs {α : Type} [Zero α] (C : NodeConsts) (H : TableSizes)
    (E : SetupNet α) (s db : byNodeDB α) (hdel : cpmClassDelete C s = some db)
    (hid : E.nodeId.1 = MN_OK) (hfw : E.fwVers = MN_OK)
    (htype : E.nodeId.2.devType = C.NODEID_CS ∨ E.nodeId.2.devType = C.NODEID_GS ∨
      E.nodeId.2.devType = C.NODEID_EP) :
    cpmClassSetup C H E s = some (E.coreUpdateParamInfo
      { db with
        delFunc := some DelFunc.cpmClassDelete
        bankCount := 4
        theID := { devType := E.nodeId.2.devType, devModel := E.nodeId.2.devModel }
        paramBankList := some (cpmBanks H)
        pNodeSpecific := some E.newIscState
        pClassInfo := some ClassInfo.cpmClassDB }) := by
  unfold cpmClassSetup
  simp only [hdel, hid, hfw, htype, if_true]

/-- C29: when `cpmClassSetup` finds a ClearPath-SC (both reads succeed, device type CS, GS
or EP) it installs the four banks `cpmBanks` with `bankCount = 4`; their tables
`cpmInfoDB`, `cpmDrvInfoDB`, `cpmAppInfoDB`, `cpmApp20InfoDB` hold 116, 128, 72 and 14
descriptors; every bank has at most 256 entries, as many descriptors as `nParams` and a
value cache of that length; with bank `k` covering the ids `256 * k + i`, `i < nParams`,
the ids of one bank are distinct, the ids of two different banks are disjoint, and the
ids of all four banks together have no repetition. -/
theorem cpmBanks_ids {α : Type} [Zero α] (C : NodeConsts) (H : TableSizes)
    (E : SetupNet α) (s db : byNodeDB α) (hdel : cpmClassDelete C s = some db)
    (hid : E.nodeId.1 = MN_OK) (hfw : E.fwVers = MN_OK)
    (htype : E.nodeId.2.devType = C.NODEID_CS ∨ E.nodeId.2.devType = C.NODEID_GS ∨
      E.nodeId.2.devType = C.NODEID_EP) :
    cpmClassSetup C H E s = some (E.coreUpdateParamInfo
      { db with
        delFunc := some DelFunc.cpmClassDelete
        bankCount := 4
        theID := { devType := E.nodeId.2.devType, devModel := E.nodeId.2.devModel }
        paramBankList := some (cpmBanks H)
        pNodeSpecific := some E.newIscState
        pClassInfo := some ClassInfo.cpmClassDB }) ∧
      (cpmInfoDB H).length = 116 ∧ cpmDrvInfoDB.length = 128 ∧
      (cpmAppInfoDB H).length = 72 ∧ cpmApp20InfoDB.length = 14 ∧
      (cpmBanks H : List (paramBank α)).map (fun b => b.nParams) = [116, 128, 72, 14] ∧
      (∀ b ∈ (cpmBanks H : List (paramBank α)), b.nParams ≤ 256 ∧
        b.fixedInfoDB.length = b.nParams ∧ b.valueDB.map List.length = some b.nParams) ∧
      (∀ k n : Nat, (bankIds k n).Nodup) ∧
      (∀ k k' n n' : Nat, n ∈ [116, 128, 72, 14] → n' ∈ [116, 128, 72, 14] → k ≠ k' →
        List.Disjoint (bankIds k n) (bankIds k' n')) ∧
      (allBankIds (cpmBanks H : List (paramBank α))).Nodup := by
  refine ⟨cpmClassSetup_installs C H E s db hdel hid hfw htype, rfl, rfl, rfl, rfl, rfl,
    ?_, bankIds_nodup, ?_, ?_⟩
  · intro b hb
    simp only [cpmBanks, List.mem_cons, List.mem_singleton, List.not_mem_nil, or_false] at hb
    rcases hb with rfl | rfl | rfl | rfl
    · exact ⟨by rw [newBank, cpmInfoDB_length]; norm_num, rfl,
        by simp [newBank]⟩
    · exact ⟨by rw [newBank, cpmDrvInfoDB_length]; norm_num, rfl,
        by simp [newBank]⟩
    · exact ⟨by rw [newBank, cpmAppInfoDB_length]; norm_num, rfl,
        by simp [newBank]⟩
    · exact ⟨by rw [newBank, cpmApp20InfoDB_length]; norm_num, rfl,
        by simp [newBank]⟩
  · intro k k' n n' hn hn' hk
    have h256 : ∀ m : Nat, m ∈ [116, 128, 72, 14] → m ≤ 256 := by
      intro m hm
      simp only [List.mem_cons, List.mem_singleton, List.not_mem_nil, or_false] at hm
      omega
    exact bankIds_disjoint k k' n n' (h256 n hn) (h256 n' hn') hk
  · rw [allBankIds_cpmBanks]
    simp only [List.append_nil, List.nodup_append, bankIds_nodup, true_and, List.disjoint_append_right]
    repeat' apply And.intro
    all_goals exact bankIds_disjoint _ _ _ _ (by norm_num) (by norm_num) (by norm_num)

/-- Witness of C29: the empty node record, device type CS. -/
theorem cpmBanks_ids_witness :
    (cpmClassSetup exampleNodeConsts exampleTableSizes (exampleSetupNet 1) emptyNodeDB).map
        (fun r => (r.1, r.2.bankCount, r.2.paramBankList.map (List.map (fun b => b.nParams)))) =
      some (MN_OK, 4, some [116, 128, 72, 14]) := by
  rw [(cpmBanks_ids exampleNodeConsts exampleTableSizes (exampleSetupNet 1) emptyNodeDB
    emptyNodeDB rfl rfl rfl (Or.inl rfl)).1]
  rfl

end DescriptorBanks

section NodeLifecycle

/-- One step of the loop of `cpmClassDelete` keeps the length of the bank list. -/
theorem freeValueDB_length {α : Type} (iBank : Nat) (banks bs : List (paramBank α))
    (h : freeValueDB iBank banks = some bs) : bs.length = banks.length := by
  unfold freeValueDB at h
  split at h
  · simp only [Option.some.injEq] at h
    rw [← h, List.length_set]
  · exact absurd h (by simp)

/-- The loop of `cpmClassDelete` stays inside the bank list when the indices do. -/
theorem forUp_freeValueDB {α : Type} :
    ∀ (n k : Nat) (banks : List (paramBank α)), k + n ≤ banks.length →
      ∃ bs, forUp freeValueDB n k banks = some bs ∧ bs.length = banks.length := by
  intro n
  induction n with
  | zero => intro k banks _; exact ⟨banks, rfl, rfl⟩
  | succ n ih =>
    intro k banks h
    have hk : k < banks.length := by omega
    have hstep : freeValueDB k banks =
        some (banks.set k { banks[k] with valueDB := none }) := by
      unfold freeValueDB
      rw [dif_pos hk]
    obtain ⟨bs, hbs, hlen⟩ := ih (k + 1) (banks.set k { banks[k] with valueDB := none })
      (by rw [List.length_set]; omega)
    refine ⟨bs, ?_, by rw [hlen, List.length_set]⟩
    rw [forUp, hstep]
    exact hbs

/-- On a record that satisfies the invariant `cpmClassDelete` returns, and leaves no
database: no bank list, `bankCount = 0`, no node-specific state. -/
theorem cpmClassDelete_clean {α : Type} (C : NodeConsts) (s : byNodeDB α)
    (h1 : s.paramBankList = none → s.bankCount = 0 ∧ s.pNodeSpecific = none)
    (h2 : ∀ banks, s.paramBankList = some banks → s.bankCount ≤ banks.length) :
    ∃ s', cpmClassDelete C s = some s' ∧ s'.paramBankList = none ∧ s'.bankCount = 0 ∧
      s'.pNodeSpecific = none := by
  unfold cpmClassDelete
  cases hb : s.paramBankList with
  | none => exact ⟨s, rfl, hb, (h1 hb).1, (h1 hb).2⟩
  | some banks =>
    obtain ⟨bs, hbs, _⟩ := forUp_freeValueDB s.bankCount 0 banks (by
      have := h2 banks hb
      omega)
    simp only [hbs]
    exact ⟨_, rfl, rfl, rfl, rfl⟩

/-- One call of `cpmClassSetup` on a record that satisfies the invariant: the call
returns; when the code is not the one `coreUpdateParamInfo` gave, the record is the
deleted one; the invariant holds afterwards when `coreUpdateParamInfo` keeps the shape. -/
theorem cpmClassSetup_step {α : Type} [Zero α] (C : NodeConsts) (H : TableSizes)
    (E : SetupNet α) (s : byNodeDB α)
    (h1 : s.paramBankList = none → s.bankCount = 0 ∧ s.pNodeSpecific = none)
    (h2 : ∀ banks, s.paramBankList = some banks → s.bankCount ≤ banks.length) :
    ∃ r, cpmClassSetup C H E s = some r ∧
      ((r.2.paramBankList = none ∧ r.2.bankCount = 0 ∧ r.2.pNodeSpecific = none) ∨
        ∃ d : byNodeDB α, d.paramBankList = some (cpmBanks H) ∧ d.bankCount = 4 ∧
          d.pNodeSpecific = some E.newIscState ∧ r = E.coreUpdateParamInfo d) ∧
      (E.nodeId.1 = MN_OK → E.fwVers = MN_OK →
        ¬ (E.nodeId.2.devType = C.NODEID_CS ∨ E.nodeId.2.devType = C.NODEID_GS ∨
          E.nodeId.2.devType = C.NODEID_EP) →
        r.1 = C.MN_ERR_WRONG_NODE_TYPE) := by
  obtain ⟨db, hdb, c1, c2, c3⟩ := cpmClassDelete_clean C s h1 h2
  unfold cpmClassSetup
  simp only [hdb]
  by_cases hid : E.nodeId.1 = MN_OK
  · by_cases hfw : E.fwVers = MN_OK
    · by_cases ht : E.nodeId.2.devType = C.NODEID_CS ∨ E.nodeId.2.devType = C.NODEID_GS ∨
          E.nodeId.2.devType = C.NODEID_EP
      · rw [if_pos hid, if_pos hfw, if_pos ht]
        exact ⟨_, rfl, Or.inr ⟨_, rfl, rfl, rfl, rfl⟩, fun _ _ h => absurd ht h⟩
      · rw [if_pos hid, if_pos hfw, if_neg ht]
        exact ⟨_, rfl, Or.inl ⟨c1, c2, c3⟩, fun _ _ _ => rfl⟩
    · rw [if_pos hid, if_neg hfw]
      exact ⟨_, rfl, Or.inl ⟨c1, c2, c3⟩, fun _ h _ => absurd h hfw⟩
  · rw [if_neg hid]
    exact ⟨_, rfl, Or.inl ⟨c1, c2, c3⟩, fun h _ _ => absurd h hid⟩

/-- Every reachable node record satisfies the invariant: without a bank list there is no
bank count and no node-specific state, and `bankCount` never exceeds the length of the
bank list. -/
theorem reachable_inv {α : Type} [Zero α] (C : NodeConsts) (H : TableSizes) (s : byNodeDB α)
    (hs : Reachable C H s) :
    (s.paramBankList = none → s.bankCount = 0 ∧ s.pNodeSpecific = none) ∧
      (∀ banks, s.paramBankList = some banks → s.bankCount ≤ banks.length) := by
  induction hs with
  | empty => exact ⟨fun _ => ⟨rfl, rfl⟩, fun banks h => by simp [emptyNodeDB] at h⟩
  | delete s s' _ hdel ih =>
    obtain ⟨t, ht, c1, c2, c3⟩ := cpmClassDelete_clean C s ih.1 ih.2
    rw [hdel] at ht
    cases ht
    exact ⟨fun _ => ⟨c2, c3⟩, fun banks h => by rw [c1] at h; exact absurd h (by simp)⟩
  | setup s E r _ hkeep hset ih =>
    obtain ⟨t, ht, hshape, _⟩ := cpmClassSetup_step C H E s ih.1 ih.2
    rw [hset] at ht
    cases ht
    rcases hshape with ⟨c1, c2, c3⟩ | ⟨d, d1, d2, d3, hr⟩
    · exact ⟨fun _ => ⟨c2, c3⟩, fun banks h => by rw [c1] at h; exact absurd h (by simp)⟩
    · obtain ⟨k1, k2, k3⟩ := hkeep d
      rw [← hr] at k1 k2 k3
      rw [d1] at k1
      rw [d2] at k2
      constructor
      · intro hnone
        rw [hnone] at k1
        exact absurd k1 (by simp)
      · intro banks hb
        rw [hb] at k1
        simp only [Option.map_some', Option.some.injEq] at k1
        rw [k2, k1]
        exact le_refl _

/-- The example record of a set-up node is reachable: one successful setup from the empty
record. -/
theorem exampleSetUpNode_reachable :
    Reachable exampleNodeConsts exampleTableSizes exampleSetUpNode := by
  have h := Reachable.setup (C := exampleNodeConsts) (H := exampleTableSizes) emptyNodeDB
    (exampleSetupNet 1) (MN_OK, exampleSetUpNode) Reachable.empty
    (fun d => ⟨rfl, rfl, rfl⟩) rfl
  exact h

/-- C30: in every node record reachable from the empty record through calls of
`cpmClassSetup` and `cpmClassDelete` (with a `coreUpdateParamInfo` that keeps the shape
of the database), a call of `cpmClassSetup` returns, and when it returns
`MN_ERR_WRONG_NODE_TYPE` (a code `coreUpdateParamInfo` itself does not give) the node
is left with no database: no bank list, `bankCount = 0` and no node-specific state;
that code is returned whenever both reads succeed and the device type is none of CS,
GS and EP. -/
theorem cpmClassSetup_wrong_type_clean {α : Type} [Zero α] (C : NodeConsts) (H : TableSizes)
    (s : byNodeDB α) (hs : Reachable C H s) (E : SetupNet α)
    (hcore : ∀ d, (E.coreUpdateParamInfo d).1 ≠ C.MN_ERR_WRONG_NODE_TYPE) :
    ∃ r, cpmClassSetup C H E s = some r ∧
      (r.1 = C.MN_ERR_WRONG_NODE_TYPE →
        r.2.paramBankList = none ∧ r.2.bankCount = 0 ∧ r.2.pNodeSpecific = none) ∧
      (E.nodeId.1 = MN_OK → E.fwVers = MN_OK →
        ¬ (E.nodeId.2.devType = C.NODEID_CS ∨ E.nodeId.2.devType = C.NODEID_GS ∨
          E.nodeId.2.devType = C.NODEID_EP) →
        r.1 = C.MN_ERR_WRONG_NODE_TYPE) := by
  obtain ⟨i1, i2⟩ := reachable_inv C H s hs
  obtain ⟨r, hr, hshape, hpath⟩ := cpmClassSetup_step C H E s i1 i2
  refine ⟨r, hr, fun hw => ?_, hpath⟩
  rcases hshape with hclean | ⟨d, _, _, _, hd⟩
  · exact hclean
  · rw [hd] at hw
    exact absurd hw (hcore d)

/-- Witness of C30: a node that was set up as device type 1 is set up again while the
device answers with type 9: the call returns the wrong-node-type code 7 and leaves no
database. -/
theorem cpmClassSetup_wrong_type_clean_witness :
    ∃ r, cpmClassSetup exampleNodeConsts exampleTableSizes (exampleSetupNet 9)
        exampleSetUpNode = some r ∧
      r.1 = 7 ∧ r.2.paramBankList = none ∧ r.2.bankCount = 0 ∧ r.2.pNodeSpecific = none := by
  obtain ⟨r, hr, h1, h2⟩ := cpmClassSetup_wrong_type_clean exampleNodeConsts
    exampleTableSizes exampleSetUpNode exampleSetUpNode_reachable (exampleSetupNet 9)
    (fun _ => (by decide : (0 : Nat) ≠ 7))
  have h7 : r.1 = 7 := h2 rfl rfl (by decide)
  exact ⟨r, hr, h7, h1 h7⟩

end NodeLifecycle

section JerkPassThrough

/-- C31: for `convertJerk`, whenever the sample-period and firmware-version reads both
succeed, the converter returns its input unchanged in both directions, for every input,
every firmware version value and every option register: `isEnhanced` is always true, so
the legacy mapping and its K-drive clamp are never applied. -/
theorem convertJerk_pass_through {α : Type} [LinearOrderedField α] [FloorRing α]
    (R : RasCodes) (valIsBits : Bool) (theMultiAddr : Node α) (convVal : α)
    (hS : (theMultiAddr.cpmGetParameter CPM_P_SAMPLE_PERIOD).1 = MN_OK)
    (hF : (theMultiAddr.cpmGetParameter CPM_P_FW_VERS).1 = MN_OK) :
    convertJerk R valIsBits theMultiAddr convVal = convVal := by
  unfold convertJerk
  simp only [hS, hF, ne_eq, not_true_eq_false, if_false, Bool.not_true, Bool.false_eq_true,
    if_true, ite_self]

/-- Witness of C31: every read succeeds with the value 7, input 40, both directions. -/
theorem convertJerk_pass_through_witness :
    convertJerk exampleRasCodes true (okNode (7 : ℚ)) 40 = 40 ∧
      convertJerk exampleRasCodes false (okNode (7 : ℚ)) 40 = 40 :=
  ⟨convertJerk_pass_through exampleRasCodes true (okNode (7 : ℚ)) 40 rfl rfl,
    convertJerk_pass_through exampleRasCodes false (okNode (7 : ℚ)) 40 rfl rfl⟩

end JerkPassThrough

section SlowTimeConstant

/-- C38: on every node (every sample period and read result), for every raw value `n`
and every engineering value `x`, `convertRMSSlowtc` is `convertRMStc` rescaled by
`256/60`: decoding `n` gives the `convertRMStc` decoding times `256 / 60`, and encoding
`x` gives the `convertRMStc` encoding of `x * 60 / 256`, the 0.01 floor and the
`[1, 32767]` clamp included. -/
theorem rmsSlowTc_rescaled {α : Type} [LinearOrderedField α] [FloorRing α] (M : Libm α)
    (theMultiAddr : Node α) (n x : α) :
    convertRMSSlowtc M true theMultiAddr n = convertRMStc M true theMultiAddr n * 256 / 60 ∧
      convertRMSSlowtc M false theMultiAddr x =
        convertRMStc M false theMultiAddr (x * 60 / 256) := by
  have e : (2 : α) ^ 8 = 256 := by norm_num
  unfold convertRMSSlowtc convertRMStc
  simp only [e]
  constructor
  · split_ifs <;> simp
  · rfl

end SlowTimeConstant

section IbDecodeProblems

/-- C34, the code at the failing input: with sample period 1 the raw value 0 (where
`b = 1`, so no time constant can be computed) is decoded as 0.01 by `convertIBRMStc` and
`convertIBRMSSlowtc`, not as 0: the floor `if (retVal < 0.01) retVal = 0.01;` overrides
the `retVal = 0` set under the comment "Insure problems return zero". The siblings
`convertRMStc` and `convertRMSSlowtc` return 0 on the same input. -/
theorem ibRmsTc_decode_zero_raw :
    convertIBRMStc ratLibm true (okNode (1 : ℚ)) 0 = 1 / 100 ∧
      convertIBRMSSlowtc ratLibm true (okNode (1 : ℚ)) 0 = 1 / 100 ∧
      convertRMStc ratLibm true (okNode (1 : ℚ)) 0 = 0 ∧
      convertRMSSlowtc ratLibm true (okNode (1 : ℚ)) 0 = 0 := by
  refine ⟨?_, ?_, ?_, ?_⟩ <;>
    norm_num [convertIBRMStc, convertIBRMSSlowtc, convertRMStc, convertRMSSlowtc, okNode, MN_OK]

/-- The extent of the defect: in the bits->eng direction with a successfully read non-zero
sample period, every raw value for which the time constant cannot be computed
(`b = 1 - bits / 2^23` not strictly between 0 and 1) is decoded as 0.01 by the two IB
converters, where `convertRMStc` and `convertRMSSlowtc` return the 0 that the comment
"Insure problems return zero" announces. -/
theorem ibRmsTc_problem_values_not_zero {α : Type} [LinearOrderedField α] [FloorRing α]
    (M : Libm α) (theMultiAddr : Node α) (bits : α)
    (hok : (theMultiAddr.netGetParameterInfo CPM_P_SAMPLE_PERIOD).1 = MN_OK)
    (hs : (theMultiAddr.netGetParameterInfo CPM_P_SAMPLE_PERIOD).2 ≠ 0)
    (hb : ¬ (0 < 1 - bits / 2 ^ 23 ∧ 1 - bits / 2 ^ 23 < 1)) :
    convertIBRMStc M true theMultiAddr bits = 1 / 100 ∧
      convertIBRMSSlowtc M true theMultiAddr bits = 1 / 100 ∧
      convertRMStc M true theMultiAddr bits = 0 ∧
      convertRMSSlowtc M true theMultiAddr bits = 0 := by
  have h4 : (theMultiAddr.netGetParameterInfo CPM_P_SAMPLE_PERIOD).2 * ((1 / 1000000) / 4) ≠ 0 :=
    mul_ne_zero hs (by norm_num)
  have h1 : (theMultiAddr.netGetParameterInfo CPM_P_SAMPLE_PERIOD).2 * (1 / 1000000) ≠ 0 :=
    mul_ne_zero hs (by norm_num)
  unfold convertIBRMStc convertIBRMSSlowtc convertRMStc convertRMSSlowtc
  simp only [hok, ne_eq, not_true_eq_false, if_false, h4, h1, if_true]
  by_cases h0 : 0 < 1 - bits / 2 ^ 23
  · have hlt : ¬ (1 - bits / 2 ^ 23 < 1) := fun h => hb ⟨h0, h⟩
    simp only [h0, hlt, if_true, if_false]
    norm_num
  · simp only [h0, if_false]
    norm_num

end IbDecodeProblems

section AngleEncode

/-- C32, the code at the failing input: with 4 poles and encoder density 4 (720 degrees
and 4 ticks per turn), without vector lock the angle 719 (inside `[0, 720)`) is encoded
as 4 ticks, and with vector lock the angle 89 is encoded as 4 ticks: the rounding
`(nodelong)(rVal + 0.5)` comes after the bounds test, so the result reaches
`ticksPerTurn`. -/
theorem convertAngle_encode_reaches_ticksPerTurn :
    convertAngle (fun _ => false) false (okNode (4 : ℚ)) 719 = 4 ∧
      convertAngle (fun _ => true) false (okNode (4 : ℚ)) 89 = 4 ∧
      ((okNode (4 : ℚ)).netGetParameterInfo CPM_P_DRV_ENC_DENS).2 = 4 ∧
      (719 : ℚ) < ((okNode (4 : ℚ)).netGetParameterInfo CPM_P_DRV_MTR_POLES).2 * 180 := by
  have h1 : toNodelong ((719 : ℚ) * (4 / (4 * 180)) + 1 / 2) = 4 := by
    rw [toNodelong_of_nonneg _ (by norm_num), Int.floor_eq_iff]
    norm_num
  have h2 : toNodelong (((89 : ℚ) - 90) * (4 / (4 * 180)) + 4 / (4 * 180) * (4 * 180) + 1 / 2)
      = 4 := by
    rw [toNodelong_of_nonneg _ (by norm_num), Int.floor_eq_iff]
    norm_num
  refine ⟨?_, ?_, rfl, by norm_num [okNode]⟩
  · simp only [convertAngle, okNode, MN_OK]
    norm_num
    norm_num at h1
    exact_mod_cast h1
  · simp only [convertAngle, okNode, MN_OK]
    norm_num
    norm_num at h2
    exact_mod_cast h2

end AngleEncode

section StatusLookups

/-- C35, the code at the failing input: for the status register in which only bit 47 is
set, the first step of the decoder looks up entry 47 of `CPSCStatusBitStrs`, which has
47 entries (0 to 46): the lookup is outside the table and the decoder has no defined
result. -/
theorem status_bit47_lookup_outside_table :
    CPSCStatusBitStrs.length = 47 ∧
      bit47StatusReg.bitSet 47 = true ∧
      CPSCStatusBitStrs[47]? = none ∧
      statusBit bit47StatusReg 2 0 ("", 47) = none ∧
      statusReport bit47StatusReg = none := by
  decide

end StatusLookups

section MonGainTermination

/-- A call of `convertMonGain` in the bits direction makes no further call: one unit of
fuel is enough. -/
theorem convertMonGainFuel_bits {α : Type} [LinearOrderedField α] (K : MonVars) (M : Libm α)
    (fuel : Nat) (theMultiAddr : Node α) (pState : Option (monState α)) (theVar : Nat)
    (convVal : α) :
    convertMonGainFuel K M (fuel + 1) true theMultiAddr pState theVar convVal =
      some (convertMonGain K M true theMultiAddr pState theVar convVal) := by
  cases pState with
  | none =>
    unfold convertMonGainFuel
    rw [convertMonGain]
  | some st =>
    unfold convertMonGainFuel
    rw [convertMonGain]
    cases h : monGainBase K M true theMultiAddr theVar convVal with
    | error r => simp only [h]
    | ok b => simp only [h, Bool.true_eq_false, if_false]

/-- C37: `convertMonGain` terminates on every input with a recursion depth of at most one:
run with a bound on the depth of calls, a call in the bits direction (`valIsBits = true`)
returns within one call, so it never recurses, and a call in either direction returns
within two (the only nested call is the one the engineering-units direction makes with
`valIsBits = true`); more fuel gives the same result, which is the one of the total
function `convertMonGain`, and a bound of zero calls gives none. -/
theorem convertMonGain_depth {α : Type} [LinearOrderedField α] (K : MonVars) (M : Libm α)
    (fuel : Nat) (valIsBits : Bool) (theMultiAddr : Node α) (pState : Option (monState α))
    (theVar : Nat) (convVal : α) :
    convertMonGainFuel K M (fuel + 1) true theMultiAddr pState theVar convVal =
        some (convertMonGain K M true theMultiAddr pState theVar convVal) ∧
      convertMonGainFuel K M (fuel + 2) valIsBits theMultiAddr pState theVar convVal =
        some (convertMonGain K M valIsBits theMultiAddr pState theVar convVal) ∧
      convertMonGainFuel K M 0 valIsBits theMultiAddr pState theVar convVal = none := by
  refine ⟨convertMonGainFuel_bits K M fuel theMultiAddr pState theVar convVal, ?_, rfl⟩
  cases valIsBits with
  | true => exact convertMonGainFuel_bits K M (fuel + 1) theMultiAddr pState theVar convVal
  | false =>
    cases pState with
    | none =>
      unfold convertMonGainFuel
      rw [convertMonGain]
    | some st =>
      unfold convertMonGainFuel
      rw [convertMonGain]
      cases h : monGainBase K M false theMultiAddr theVar convVal with
      | error r => simp only [h]
      | ok b =>
        simp only [h, if_true, convertMonGainFuel_bits]
        cases (convertMonGain K M true theMultiAddr
          (some { TestPoint := theVar, FullScale := st.FullScale, Set := false }) theVar
          (if (if b * 65536 > 2147483647 then 2147483647 else b * 65536) < 1 then 1
            else if b * 65536 > 2147483647 then 2147483647 else b * 65536)).2 <;> rfl

end MonGainTermination

section WireFormat

theorem cpmInfoDB_wire (H : TableSizes) : (cpmInfoDB H).all wireFormatOk = true := by
  rfl

theorem cpmDrvInfoDB_wire : cpmDrvInfoDB.all wireFormatOk = true := by
  decide

theorem cpmAppInfoDB_wire (H : TableSizes) : (cpmAppInfoDB H).all wireFormatOk = true := by
  rfl

theorem cpmApp20InfoDB_wire : cpmApp20InfoDB.all wireFormatOk = true := by
  decide

/-- What `wireFormatOk` says of a descriptor, converter by converter. -/
theorem wireFormatOk_spec (d : paramInfoLcl) (h : wireFormatOk d = true) :
    ((d.converter = some .convertAmperes ∨ d.converter = some .convertMeasAmperes) →
        d.paramSize = 2 ∧ d.scaleFromBase = 2 ^ 15) ∧
      ((d.converter = some .convertRMStc ∨ d.converter = some .convertRMSSlowtc ∨
          d.converter = some .convertIBRMStc ∨ d.converter = some .convertIBRMSSlowtc ∨
          d.converter = some .convertFilt99pctMilliseconds ∨
          d.converter = some .convertFilt1TCMilliseconds ∨
          d.converter = some .convertVectorFilt99pctMilliseconds) →
        d.paramSize = 2 ∧ d.scaleFromBase = 1) := by
  constructor
  · rintro (hc | hc) <;>
      simpa [wireFormatOk, hc] using h
  · rintro (hc | hc | hc | hc | hc | hc | hc) <;>
      simpa [wireFormatOk, hc] using h

/-- C39: in all four descriptor tables, each descriptor that uses `convertAmperes` or
`convertMeasAmperes` has size 2 and scale `2^15` (so that the clamp `32767/32768` encodes
to 32767), and each descriptor that uses `convertRMStc`, `convertRMSSlowtc`,
`convertIBRMStc`, `convertIBRMSSlowtc`, `convertFilt99pctMilliseconds`,
`convertFilt1TCMilliseconds` or `convertVectorFilt99pctMilliseconds` has size 2 and
scale 1. -/
theorem clamped_descriptors_wire_format (H : TableSizes) (d : paramInfoLcl)
    (hd : d ∈ cpmInfoDB H ∨ d ∈ cpmDrvInfoDB ∨ d ∈ cpmAppInfoDB H ∨ d ∈ cpmApp20InfoDB) :
    ((d.converter = some .convertAmperes ∨ d.converter = some .convertMeasAmperes) →
        d.paramSize = 2 ∧ d.scaleFromBase = 2 ^ 15 ∧
        (Q15_MAX : ℚ) * d.scaleFromBase = 32767) ∧
      ((d.converter = some .convertRMStc ∨ d.converter = some .convertRMSSlowtc ∨
          d.converter = some .convertIBRMStc ∨ d.converter = some .convertIBRMSSlowtc ∨
          d.converter = some .convertFilt99pctMilliseconds ∨
          d.converter = some .convertFilt1TCMilliseconds ∨
          d.converter = some .convertVectorFilt99pctMilliseconds) →
        d.paramSize = 2 ∧ d.scaleFromBase = 1) := by
  have hok : wireFormatOk d = true := by
    rcases hd with h | h | h | h
    · exact List.all_eq_true.1 (cpmInfoDB_wire H) d h
    · exact List.all_eq_true.1 cpmDrvInfoDB_wire d h
    · exact List.all_eq_true.1 (cpmAppInfoDB_wire H) d h
    · exact List.all_eq_true.1 cpmApp20InfoDB_wire d h
  obtain ⟨h1, h2⟩ := wireFormatOk_spec d hok
  refine ⟨fun hc => ?_, h2⟩
  obtain ⟨a, b⟩ := h1 hc
  refine ⟨a, b, ?_⟩
  rw [b]
  norm_num [Q15_MAX]

/-- Witness of C39: the descriptor of the torque command (index 80 of `cpmInfoDB`), which
uses `convertAmperes`. -/
theorem clamped_descriptors_wire_format_witness :
    ((cpmInfoDB exampleTableSizes).get ⟨80, by decide⟩).converter = some .convertAmperes ∧
      ((cpmInfoDB exampleTableSizes).get ⟨80, by decide⟩).paramSize = 2 ∧
      ((cpmInfoDB exampleTableSizes).get ⟨80, by decide⟩).scaleFromBase = 2 ^ 15 ∧
      (Q15_MAX : ℚ) * ((cpmInfoDB exampleTableSizes).get ⟨80, by decide⟩).scaleFromBase =
        32767 :=
  ⟨rfl, (clamped_descriptors_wire_format exampleTableSizes
    ((cpmInfoDB exampleTableSizes).get ⟨80, by decide⟩)
    (Or.inl (List.get_mem _ _ _))).1 (Or.inl rfl)⟩

end WireFormat

section MotorFileName

/-- C36, the code at the failing input: with a buffer of 4 characters (`maxBufSize = 4`)
and an answer of 4 name characters, the copy fills the indices 0 to 3 and the
terminating NUL is stored at index 4, outside the buffer; with an answer of 3
characters the result is the 3 characters and NUL. -/
theorem cpmGetMotorFileName_writes_at_maxBufSize :
    cpmGetMotorFileName (MN_OK, 4, ['A', 'B', 'C', 'D']) ['x', 'x', 'x', 'x'] 4 =
        (MN_OK, none) ∧
      strncpy ['x', 'x', 'x', 'x'] ['A', 'B', 'C', 'D'] 4 = some ['A', 'B', 'C', 'D'] ∧
      storeNul ['A', 'B', 'C', 'D'] 4 = none ∧
      cpmGetMotorFileName (MN_OK, 3, ['A', 'B', 'C']) ['x', 'x', 'x', 'x'] 4 =
        (MN_OK, some ['A', 'B', 'C', NUL]) := by
  decide

/-- On success with a buffer of `maxBufSize` characters, the call stays inside the buffer
exactly when the answer is shorter than the buffer. -/
theorem cpmGetMotorFileName_inside_iff (PktLen : Nat) (nameBuf buffer : List Char)
    (maxBufSize : Nat) (hsize : buffer.length = maxBufSize) :
    (cpmGetMotorFileName (MN_OK, PktLen, nameBuf) buffer maxBufSize).2 ≠ none ↔
      PktLen < maxBufSize := by
  unfold cpmGetMotorFileName
  simp only [if_true]
  by_cases h : PktLen < maxBufSize
  · simp only [h, if_true, iff_true]
    unfold strncpy
    rw [if_pos (by omega)]
    simp only [Option.some_bind]
    unfold storeNul
    rw [if_pos]
    · simp
    · simp only [List.length_append, List.length_replicate, List.length_drop]
      have : ((nameBuf.takeWhile (· ≠ NUL)).take PktLen).length ≤ PktLen := by
        rw [List.length_take]
        exact Nat.min_le_left _ _
      omega
  · simp only [h, if_false, iff_false, not_not]
    unfold strncpy
    rw [if_pos (by omega)]
    simp only [Option.some_bind]
    unfold storeNul
    rw [if_neg]
    simp only [List.length_append, List.length_replicate, List.length_drop]
    have : ((nameBuf.takeWhile (· ≠ NUL)).take maxBufSize).length ≤ maxBufSize := by
      rw [List.length_take]
      exact Nat.min_le_left _ _
    omega

end MotorFileName

section StimulusDwell

/-- C33, the code at the failing input: with a sample period of 2000 microseconds (2 ms)
a dwell of 10 ms is written as 5 sample counts; read back from a device that echoes
the 5 counts, the dwell is `(nodelong)(5 / 2) = 2` ms, not 10: `cpmGetStimulus` divides
the counts by the sample time where the inverse multiplies. -/
theorem stimulus_dwell_not_inverse :
    (cpmSetStimulus exampleStimConsts (okNode (2000 : ℚ)) (fun _ => (MN_OK, 0))
        (exampleMoveOnce 10)).2.map (fun c => c.2.Dwell) = some 5 ∧
      (cpmGetStimulus exampleStimConsts (okNode (2000 : ℚ))
        (MN_OK, 12, ⟨5, 100, 1000, 0, 5, 0⟩) (exampleMoveOnce 0)).1 = MN_OK ∧
      (cpmGetStimulus exampleStimConsts (okNode (2000 : ℚ))
        (MN_OK, 12, ⟨5, 100, 1000, 0, 5, 0⟩) (exampleMoveOnce 0)).2.dwell = 2 := by
  refine ⟨?_, ?_, ?_⟩
  · norm_num [cpmSetStimulus, exampleStimConsts, exampleMoveOnce, okNode, MN_OK, toNodelong,
      toNodeshort]
  · norm_num [cpmGetStimulus, exampleStimConsts, exampleMoveOnce, okNode, MN_OK]
  · norm_num [cpmGetStimulus, exampleStimConsts, exampleMoveOnce, okNode, MN_OK, toNodelong]

end StimulusDwell

end cpmAPI
